import Mathlib

/-!
# Post-force damping modifiers (fix cundamp, fix viscous/sphere, fix cundamp/rigid, fix viscous/rigid)

Shallow embedding of the four damping fixes.

* C `double` values are rationals (`ℚ`; every finite binary64 value is one). The passes
  `post_force` compute with exact arithmetic. The passes `post_force_fl rnd` round every
  floating point operation by `rnd`, and `binary64` is the IEEE 754 double precision rounding
  (to nearest, ties to even, gradual underflow); statements that depend on rounding,
  absorption or underflow are made about these.
* C arrays (`double **f`, `int *mask`, `double *gamma_linear`, `Body *body`, ...) are modelled
  as total functions from the index to the stored value; a write `a[i] = x` is
  `Function.update a i x`.
* A `double[3]` is a function `Fin 3 → ℚ`.
* `for (int i = 0; i < n; i++) body` is `forLoop body n`, threading the state.
-/

namespace LAMMPS

/-- Three-component vector, a C `double[3]`. -/
abbrev Vec3 := Fin 3 → ℚ

/-- C conversion of a comparison result to `int`: true is 1 and false is 0. -/
def boolInt (b : Prop) [Decidable b] : Int := if b then 1 else 0

/-- The loop `for (int i = 0; i < n; i++) s = body i s`, indices visited in increasing order. -/
def forLoop {σ : Type} (body : Nat → σ → σ) : Nat → σ → σ
  | 0, s => s
  | n + 1, s => body n (forLoop body n s)

/-- Modelled from the spec: the Particle Store (`atom.h` is not among the sources). Per-particle
parallel arrays indexed by the local particle index, the number of local particles, the number
of particle types and the capability flag for angular quantities. -/
structure Atom where
  nlocal : Nat
  ntypes : Nat
  sphere_flag : Bool
  mask : Nat → Nat
  type : Nat → Nat
  v : Nat → Vec3
  omega : Nat → Vec3
  f : Nat → Vec3
  torque : Nat → Vec3

/-- Members of `FixCundamp` (with `groupbit` and `respa_level` inherited from `Fix`). -/
structure FixCundamp where
  groupbit : Nat
  respa_level : Int
  ilevel_respa : Int
  gamma_linear : Nat → ℚ
  gamma_angular : Nat → ℚ

/-- Members of `FixViscousSphere` (with `groupbit` and `respa_level` inherited from `Fix`). -/
structure FixViscousSphere where
  groupbit : Nat
  respa_level : Int
  ilevel_respa : Int
  gamma : Nat → ℚ

/-- Body of the particle loop of `FixCundamp::post_force` (fix_cundamp.cpp, lines 144-161). -/
def FixCundamp.post_force_body (fix : FixCundamp) (i : Nat) (atom : Atom) : Atom :=
  if atom.mask i &&& fix.groupbit ≠ 0 then
    let gamma_l := fix.gamma_linear (atom.type i)
    let gamma_a := fix.gamma_angular (atom.type i)
    let sgnf0 : Int := boolInt (atom.f i 0 * atom.v i 0 > 0) - boolInt (atom.f i 0 * atom.v i 0 < 0)
    let sgnf1 : Int := boolInt (atom.f i 1 * atom.v i 1 > 0) - boolInt (atom.f i 1 * atom.v i 1 < 0)
    let sgnf2 : Int := boolInt (atom.f i 2 * atom.v i 2 > 0) - boolInt (atom.f i 2 * atom.v i 2 < 0)
    let fi : Vec3 := ![atom.f i 0 * (1 - gamma_l * sgnf0),
                       atom.f i 1 * (1 - gamma_l * sgnf1),
                       atom.f i 2 * (1 - gamma_l * sgnf2)]
    let sgntq0 : Int :=
      boolInt (atom.torque i 0 * atom.omega i 0 > 0) - boolInt (atom.torque i 0 * atom.omega i 0 < 0)
    let sgntq1 : Int :=
      boolInt (atom.torque i 1 * atom.omega i 1 > 0) - boolInt (atom.torque i 1 * atom.omega i 1 < 0)
    let sgntq2 : Int :=
      boolInt (atom.torque i 2 * atom.omega i 2 > 0) - boolInt (atom.torque i 2 * atom.omega i 2 < 0)
    let tqi : Vec3 := ![atom.torque i 0 * (1 - gamma_a * sgntq0),
                        atom.torque i 1 * (1 - gamma_a * sgntq1),
                        atom.torque i 2 * (1 - gamma_a * sgntq2)]
    { atom with f := Function.update atom.f i fi, torque := Function.update atom.torque i tqi }
  else atom

/-- `FixCundamp::post_force`. -/
def FixCundamp.post_force (fix : FixCundamp) (_vflag : Int) (atom : Atom) : Atom :=
  forLoop (fix.post_force_body) atom.nlocal atom

/-- Body of the particle loop of `FixViscousSphere::post_force`
(fix_viscous_sphere.cpp, lines 131-136). -/
def FixViscousSphere.post_force_body (fix : FixViscousSphere) (i : Nat) (atom : Atom) : Atom :=
  if atom.mask i &&& fix.groupbit ≠ 0 then
    let drag := fix.gamma (atom.type i)
    let tqi : Vec3 := ![atom.torque i 0 - drag * atom.omega i 0,
                        atom.torque i 1 - drag * atom.omega i 1,
                        atom.torque i 2 - drag * atom.omega i 2]
    { atom with torque := Function.update atom.torque i tqi }
  else atom

/-- `FixViscousSphere::post_force`. -/
def FixViscousSphere.post_force (fix : FixViscousSphere) (_vflag : Int) (atom : Atom) : Atom :=
  forLoop (fix.post_force_body) atom.nlocal atom

/-- Modelled from the spec: the per-body aggregate `FixRigidSmall::Body`
(`fix_rigid_small.h` is not among the sources); only the members the damping fixes touch:
centre-of-mass velocity, angular velocity, force accumulator and torque accumulator. -/
structure Body where
  vcm : Vec3
  omega : Vec3
  fcm : Vec3
  torque : Vec3

/-- Modelled from the spec: the Body Registry `FixRigidSmall` (`fix_rigid_small.h` is not
among the sources): its id and style name (inherited from `Fix`), its `earlyflag`, the particle-to-body back-reference
`bodyown` (negative means "none") and the array of bodies. -/
structure FixRigidSmall where
  id : String
  style : String
  earlyflag : Bool
  bodyown : Nat → Int
  body : Nat → Body

/-- Members of `FixCundampRigid` (with `id`, `groupbit` and `respa_level` inherited from
`Fix`); `fixrigid` is the position in `modify->fix` the pointer refers to, `none` for NULL. -/
structure FixCundampRigid where
  id : String
  groupbit : Nat
  respa_level : Int
  ilevel_respa : Int
  gamma_linear : ℚ
  gamma_angular : ℚ
  idrigid : String
  fixrigid : Option Nat

/-- Members of `FixViscousRigid` (with `id`, `groupbit` and `respa_level` inherited from
`Fix`); `fixrigid` is the position in `modify->fix` the pointer refers to, `none` for NULL. -/
structure FixViscousRigid where
  id : String
  groupbit : Nat
  respa_level : Int
  ilevel_respa : Int
  gamma_linear : ℚ
  gamma_angular : ℚ
  idrigid : String
  fixrigid : Option Nat

/-- Statements executed on one body by `FixCundampRigid::post_force`
(fix_cundamp_rigid.cpp, lines 152-164). -/
def FixCundampRigid.damp_body (fix : FixCundampRigid) (body : Body) : Body :=
  let sgnf0 : Int := boolInt (body.fcm 0 * body.vcm 0 > 0) - boolInt (body.fcm 0 * body.vcm 0 < 0)
  let sgnf1 : Int := boolInt (body.fcm 1 * body.vcm 1 > 0) - boolInt (body.fcm 1 * body.vcm 1 < 0)
  let sgnf2 : Int := boolInt (body.fcm 2 * body.vcm 2 > 0) - boolInt (body.fcm 2 * body.vcm 2 < 0)
  let fcm : Vec3 := ![body.fcm 0 * (1 - fix.gamma_linear * sgnf0),
                      body.fcm 1 * (1 - fix.gamma_linear * sgnf1),
                      body.fcm 2 * (1 - fix.gamma_linear * sgnf2)]
  let sgntq0 : Int :=
    boolInt (body.torque 0 * body.omega 0 > 0) - boolInt (body.torque 0 * body.omega 0 < 0)
  let sgntq1 : Int :=
    boolInt (body.torque 1 * body.omega 1 > 0) - boolInt (body.torque 1 * body.omega 1 < 0)
  let sgntq2 : Int :=
    boolInt (body.torque 2 * body.omega 2 > 0) - boolInt (body.torque 2 * body.omega 2 < 0)
  let torque : Vec3 := ![body.torque 0 * (1 - fix.gamma_angular * sgntq0),
                         body.torque 1 * (1 - fix.gamma_angular * sgntq1),
                         body.torque 2 * (1 - fix.gamma_angular * sgntq2)]
  { body with fcm := fcm, torque := torque }

/-- Body of the particle loop of `FixCundampRigid::post_force`
(fix_cundamp_rigid.cpp, lines 147-164). -/
def FixCundampRigid.post_force_body (fix : FixCundampRigid) (atom : Atom) (i : Nat)
    (fixrigid : FixRigidSmall) : FixRigidSmall :=
  if ¬ (atom.mask i &&& fix.groupbit ≠ 0) then fixrigid
  else
    let ibody := fixrigid.bodyown i
    if ibody < 0 then fixrigid
    else
      { fixrigid with
        body := Function.update fixrigid.body ibody.toNat
                  (fix.damp_body (fixrigid.body ibody.toNat)) }

/-- `FixCundampRigid::post_force`: the particle arrays are only read, the registry is
read and written. -/
def FixCundampRigid.post_force (fix : FixCundampRigid) (_vflag : Int) (atom : Atom)
    (fixrigid : FixRigidSmall) : FixRigidSmall :=
  forLoop (fix.post_force_body atom) atom.nlocal fixrigid

/-- Statements executed on one body by `FixViscousRigid::post_force`
(fix_viscous_rigid.cpp, lines 145-151). -/
def FixViscousRigid.damp_body (fix : FixViscousRigid) (body : Body) : Body :=
  let fcm : Vec3 := ![body.fcm 0 - fix.gamma_linear * body.vcm 0,
                      body.fcm 1 - fix.gamma_linear * body.vcm 1,
                      body.fcm 2 - fix.gamma_linear * body.vcm 2]
  let torque : Vec3 := ![body.torque 0 - fix.gamma_angular * body.omega 0,
                         body.torque 1 - fix.gamma_angular * body.omega 1,
                         body.torque 2 - fix.gamma_angular * body.omega 2]
  { body with fcm := fcm, torque := torque }

/-- Body of the particle loop of `FixViscousRigid::post_force`
(fix_viscous_rigid.cpp, lines 140-151). -/
def FixViscousRigid.post_force_body (fix : FixViscousRigid) (atom : Atom) (i : Nat)
    (fixrigid : FixRigidSmall) : FixRigidSmall :=
  if ¬ (atom.mask i &&& fix.groupbit ≠ 0) then fixrigid
  else
    let ibody := fixrigid.bodyown i
    if ibody < 0 then fixrigid
    else
      { fixrigid with
        body := Function.update fixrigid.body ibody.toNat
                  (fix.damp_body (fixrigid.body ibody.toNat)) }

/-- `FixViscousRigid::post_force`: the particle arrays are only read, the registry is
read and written. -/
def FixViscousRigid.post_force (fix : FixViscousRigid) (_vflag : Int) (atom : Atom)
    (fixrigid : FixRigidSmall) : FixRigidSmall :=
  forLoop (fix.post_force_body atom) atom.nlocal fixrigid

/-- `FixCundamp::post_force_respa`. -/
def FixCundamp.post_force_respa (fix : FixCundamp) (vflag ilevel _iloop : Int)
    (atom : Atom) : Atom :=
  if ilevel = fix.ilevel_respa then fix.post_force vflag atom else atom

/-- `FixViscousSphere::post_force_respa`. -/
def FixViscousSphere.post_force_respa (fix : FixViscousSphere) (vflag ilevel _iloop : Int)
    (atom : Atom) : Atom :=
  if ilevel = fix.ilevel_respa then fix.post_force vflag atom else atom

/-- `FixCundampRigid::post_force_respa`. -/
def FixCundampRigid.post_force_respa (fix : FixCundampRigid) (vflag ilevel _iloop : Int)
    (atom : Atom) (fixrigid : FixRigidSmall) : FixRigidSmall :=
  if ilevel = fix.ilevel_respa then fix.post_force vflag atom fixrigid else fixrigid

/-- `FixViscousRigid::post_force_respa`. -/
def FixViscousRigid.post_force_respa (fix : FixViscousRigid) (vflag ilevel _iloop : Int)
    (atom : Atom) (fixrigid : FixRigidSmall) : FixRigidSmall :=
  if ilevel = fix.ilevel_respa then fix.post_force vflag atom fixrigid else fixrigid

/-- Number of local particles in the group of `groupbit` whose `bodyown` entry is body `B`. -/
def group_count (groupbit : Nat) (atom : Atom) (fixrigid : FixRigidSmall) (B : Nat) : Nat :=
  ((List.range atom.nlocal).filter
    (fun i => decide (atom.mask i &&& groupbit ≠ 0 ∧ fixrigid.bodyown i = (B : Int)))).length

/-- Modelled from the spec: the macro `MIN(A,B)`, `((A) < (B) ? (A) : (B))` (its header is
not among the sources). -/
def MIN (a b : Int) : Int := if a < b then a else b

/-- The test `strstr(haystack, needle) != NULL`: `needle` occurs in `haystack` as a
contiguous substring. -/
def strstr (haystack needle : String) : Bool :=
  decide (needle.toList <:+: haystack.toList)

/-- Modelled from the spec: what the fixes read of `Update` and of the integrator it points
to (`update.h` and `respa.h` are not among the sources): the style name of the integrator and
`((Respa *) update->integrate)->nlevels`. Integers are unbounded here; `nlevels - 1` does not
overflow for any `nlevels` an integrator can have. -/
structure Update where
  integrate_style : String
  nlevels : Int

/-- Modelled from the spec: the modifier list `Modify` (`modify.h` is not among the sources):
`nfix` entries `fix[0..nfix-1]`, each seen through the cast `(FixRigidSmall *)` that
`init` applies to the entry it selects. -/
structure Modify where
  nfix : Nat
  fix : Nat → FixRigidSmall

/-- Modelled from the spec: `Modify::find_fix` ("the referenced Body Registry modifier must
exist by name"): the position of the first entry whose id is `id`, or -1 when there is none. -/
def Modify.find_fix (modify : Modify) (id : String) : Int :=
  match (List.range modify.nfix).find? (fun j => decide ((modify.fix j).id = id)) with
  | some j => (j : Int)
  | none => -1

/-- The level resolution block shared verbatim by the four `init` functions
(fix_cundamp.cpp lines 94-99): returns the new value of `ilevel_respa`. -/
def init_ilevel_respa (update : Update) (respa_level ilevel_respa : Int) : Int :=
  if strstr update.integrate_style "respa" then
    let max_respa := update.nlevels - 1
    let ilevel_respa := max_respa
    if respa_level ≥ 0 then MIN respa_level max_respa else ilevel_respa
  else ilevel_respa

/-- `FixCundamp::init`. -/
def FixCundamp.init (fix : FixCundamp) (update : Update) : FixCundamp :=
  { fix with ilevel_respa := init_ilevel_respa update fix.respa_level fix.ilevel_respa }

/-- `FixViscousSphere::init`. -/
def FixViscousSphere.init (fix : FixViscousSphere) (update : Update) : FixViscousSphere :=
  { fix with ilevel_respa := init_ilevel_respa update fix.respa_level fix.ilevel_respa }

/-- `FixCundampRigid::init`: `error->all` aborts with its message (`Except.error`); on
completion the result is the updated fix and the warnings issued, in order. -/
def FixCundampRigid.init (fix : FixCundampRigid) (update : Update) (modify : Modify) :
    Except String (FixCundampRigid × List String) :=
  let fix := { fix with
    ilevel_respa := init_ilevel_respa update fix.respa_level fix.ilevel_respa }
  let fix := { fix with fixrigid := none }
  let ifix := modify.find_fix fix.idrigid
  if ifix < 0 then
    Except.error "FixRigidSmall ID for fix cundamp/rigid does not exist"
  else
    let fix := { fix with fixrigid := some ifix.toNat }
    let fixrigid := modify.fix ifix.toNat
    let flag : Int := 0
    let flag := if strstr fixrigid.style "rigid/" = false then 1 else flag
    let flag := if strstr fixrigid.style "/small" = false then 1 else flag
    if flag ≠ 0 then
      Except.error "Fix cundamp/rigid does not use fix rigid/small fix"
    else
      let warnings : List String :=
        forLoop (fun j w =>
          if (modify.fix j).style = "cundamp/rigid" then
            w ++ ["Fix cundamp/rigid must be defined after fix rigid"]
          else w) ifix.toNat []
      let warnings :=
        if fixrigid.earlyflag = false then
          warnings ++ [("Fix " ++ fix.id ++
            " alters rigid body forces before fix rigid defines them: useless").take 127]
        else
          warnings ++ [("Fix " ++ fix.id ++
            " rightfully alters rigid body forces after fix rigid. Disregard warnings from fix rigid/small for this fix").take 255]
      Except.ok (fix, warnings)

/-- `FixViscousRigid::init`: `error->all` aborts with its message (`Except.error`); on
completion the result is the updated fix and the warnings issued, in order. -/
def FixViscousRigid.init (fix : FixViscousRigid) (update : Update) (modify : Modify) :
    Except String (FixViscousRigid × List String) :=
  let fix := { fix with
    ilevel_respa := init_ilevel_respa update fix.respa_level fix.ilevel_respa }
  let fix := { fix with fixrigid := none }
  let ifix := modify.find_fix fix.idrigid
  if ifix < 0 then
    Except.error "FixRigidSmall ID for fix viscous/rigid does not exist"
  else
    let fix := { fix with fixrigid := some ifix.toNat }
    let fixrigid := modify.fix ifix.toNat
    let flag : Int := 0
    let flag := if strstr fixrigid.style "rigid/" = false then 1 else flag
    let flag := if strstr fixrigid.style "/small" = false then 1 else flag
    if flag ≠ 0 then
      Except.error "Fix viscous/rigid does not use fix rigid/small fix"
    else
      let warnings : List String :=
        forLoop (fun j w =>
          if (modify.fix j).style = "viscous/rigid" then
            w ++ ["Fix viscous/rigid must be defined after fix rigid"]
          else w) ifix.toNat []
      let warnings :=
        if fixrigid.earlyflag = false then
          warnings ++ [("Fix " ++ fix.id ++
            " alters rigid body forces before fix rigid defines them: useless").take 127]
        else
          warnings ++ [("Fix " ++ fix.id ++
            " rightfully alters rigid body forces after fix rigid. Disregard warnings from fix rigid/small for this fix").take 255]
      Except.ok (fix, warnings)

/-- The `while (iarg < narg)` loop over the optional arguments of `FixCundamp::FixCundamp`
(fix_cundamp.cpp, lines 54-65), entered at `iarg` with the current contents of the two
tables. `numeric` and `inumeric` stand for `force->numeric` and `force->inumeric` (`force.h`
is not among the sources): `none` is their fatal error on text that is not a number. -/
def FixCundamp.scale_loop (numeric : String → Option ℚ) (inumeric : String → Option Int)
    (ntypes : Nat) (gamma_linear_one gamma_angular_one : ℚ) (narg : Nat) (arg : Nat → String)
    (iarg : Nat) (gamma_linear gamma_angular : Nat → ℚ) :
    Except String ((Nat → ℚ) × (Nat → ℚ)) :=
  if iarg < narg then
    if arg iarg = "scale" then
      if iarg + 3 > narg then Except.error "Illegal fix cundamp command"
      else
        match inumeric (arg (iarg + 1)) with
        | none => Except.error "Expected integer parameter in input script or data file"
        | some itype =>
          match numeric (arg (iarg + 2)) with
          | none => Except.error "Expected floating point parameter in input script or data file"
          | some scale =>
            if itype ≤ 0 ∨ itype > (ntypes : Int) then
              Except.error "Illegal fix cundamp command"
            else
              FixCundamp.scale_loop numeric inumeric ntypes gamma_linear_one gamma_angular_one
                narg arg (iarg + 3)
                (Function.update gamma_linear itype.toNat (gamma_linear_one * scale))
                (Function.update gamma_angular itype.toNat (gamma_angular_one * scale))
    else Except.error "Illegal fix cundamp command"
  else Except.ok (gamma_linear, gamma_angular)
termination_by narg - iarg

/-- `FixCundamp::FixCundamp` after the base-class constructor `Fix::Fix` (not among the
sources) has set `groupbit` and `respa_level`. `mem_linear` and `mem_angular` are the
unspecified contents of the two freshly allocated arrays. -/
def FixCundamp.construct (numeric : String → Option ℚ) (inumeric : String → Option Int)
    (atom : Atom) (groupbit : Nat) (respa_level : Int) (mem_linear mem_angular : Nat → ℚ)
    (narg : Nat) (arg : Nat → String) : Except String FixCundamp :=
  if atom.sphere_flag = false then Except.error "Fix cundamp requires atom style sphere"
  else if narg < 5 then Except.error "Illegal fix cundamp command"
  else
    match numeric (arg 3) with
    | none => Except.error "Expected floating point parameter in input script or data file"
    | some gamma_linear_one =>
      match numeric (arg 4) with
      | none => Except.error "Expected floating point parameter in input script or data file"
      | some gamma_angular_one =>
        let tables : (Nat → ℚ) × (Nat → ℚ) :=
          forLoop (fun j t => (Function.update t.1 (j + 1) gamma_linear_one,
                               Function.update t.2 (j + 1) gamma_angular_one))
            atom.ntypes (mem_linear, mem_angular)
        match FixCundamp.scale_loop numeric inumeric atom.ntypes gamma_linear_one
            gamma_angular_one narg arg 5 tables.1 tables.2 with
        | Except.error e => Except.error e
        | Except.ok t =>
          Except.ok { groupbit := groupbit, respa_level := respa_level, ilevel_respa := 0,
                      gamma_linear := t.1, gamma_angular := t.2 }

/-- The `while (iarg < narg)` loop over the optional arguments of
`FixViscousSphere::FixViscousSphere` (fix_viscous_sphere.cpp, lines 48-58), entered at `iarg`
with the current contents of the table. `numeric` and `inumeric` stand for `force->numeric`
and `force->inumeric` (`force.h` is not among the sources): `none` is their fatal error on
text that is not a number. -/
def FixViscousSphere.scale_loop (numeric : String → Option ℚ) (inumeric : String → Option Int)
    (ntypes : Nat) (gamma_one : ℚ) (narg : Nat) (arg : Nat → String)
    (iarg : Nat) (gamma : Nat → ℚ) : Except String (Nat → ℚ) :=
  if iarg < narg then
    if arg iarg = "scale" then
      if iarg + 3 > narg then Except.error "Illegal fix viscous/sphere command"
      else
        match inumeric (arg (iarg + 1)) with
        | none => Except.error "Expected integer parameter in input script or data file"
        | some itype =>
          match numeric (arg (iarg + 2)) with
          | none => Except.error "Expected floating point parameter in input script or data file"
          | some scale =>
            if itype ≤ 0 ∨ itype > (ntypes : Int) then
              Except.error "Illegal fix viscous/sphere command"
            else
              FixViscousSphere.scale_loop numeric inumeric ntypes gamma_one narg arg (iarg + 3)
                (Function.update gamma itype.toNat (gamma_one * scale))
    else Except.error "Illegal fix viscous/sphere command"
  else Except.ok gamma
termination_by narg - iarg

/-- `FixViscousSphere::FixViscousSphere` after the base-class constructor `Fix::Fix` (not
among the sources) has set `groupbit` and `respa_level`. `mem` is the unspecified contents of
the freshly allocated array. -/
def FixViscousSphere.construct (numeric : String → Option ℚ) (inumeric : String → Option Int)
    (atom : Atom) (groupbit : Nat) (respa_level : Int) (mem : Nat → ℚ)
    (narg : Nat) (arg : Nat → String) : Except String FixViscousSphere :=
  if atom.sphere_flag = false then
    Except.error "Fix viscous/sphere requires atom style sphere"
  else if narg < 4 then Except.error "Illegal fix viscous/sphere command"
  else
    match numeric (arg 3) with
    | none => Except.error "Expected floating point parameter in input script or data file"
    | some gamma_one =>
      let table : Nat → ℚ :=
        forLoop (fun j t => Function.update t (j + 1) gamma_one) atom.ntypes mem
      match FixViscousSphere.scale_loop numeric inumeric atom.ntypes gamma_one narg arg 4
          table with
      | Except.error e => Except.error e
      | Except.ok t =>
        Except.ok { groupbit := groupbit, respa_level := respa_level, ilevel_respa := 0,
                    gamma := t }

/-- The condition under which the optional-argument scan stops with a fatal error at scan
position `p`, as the specification words it: the argument there is not the keyword `scale`,
or the keyword is followed by fewer than two arguments, or the type index `t` that follows it
has `t <= 0` or `t > ntypes`. -/
def scan_position_bad (inumeric : String → Option Int) (ntypes narg : Nat)
    (arg : Nat → String) (p : Nat) : Prop :=
  arg p ≠ "scale" ∨ narg < p + 3 ∨
    ∃ t : Int, inumeric (arg (p + 1)) = some t ∧ (t ≤ 0 ∨ t > (ntypes : Int))

/-- The assumption that numeric arguments parse, for a scan that starts at `start`: after
every keyword `scale` that is followed by two arguments, the first reads as an integer and the
second as a floating point number. -/
def scan_parses (numeric : String → Option ℚ) (inumeric : String → Option Int) (narg : Nat)
    (arg : Nat → String) (start : Nat) : Prop :=
  ∀ j : Nat, start + 3 * j + 3 ≤ narg → arg (start + 3 * j) = "scale" →
    inumeric (arg (start + 3 * j + 1)) ≠ none ∧ numeric (arg (start + 3 * j + 2)) ≠ none

/-- `FixCundamp::setup`. `copy_flevel_f` and `copy_f_flevel` stand for the two members of
`Respa` (`respa.h` is not among the sources) that move forces between the buffer of one level
and the total force arrays; `R` is the state of those buffers. -/
def FixCundamp.setup {R : Type} (fix : FixCundamp) (update : Update)
    (copy_flevel_f copy_f_flevel : Int → Atom × R → Atom × R) (vflag : Int)
    (s : Atom × R) : Atom × R :=
  if strstr update.integrate_style "verlet" then (fix.post_force vflag s.1, s.2)
  else
    let s1 := copy_flevel_f fix.ilevel_respa s
    let s2 := (fix.post_force_respa vflag fix.ilevel_respa 0 s1.1, s1.2)
    copy_f_flevel fix.ilevel_respa s2

/-- `FixViscousSphere::setup`, with `copy_flevel_f` and `copy_f_flevel` as in
`FixCundamp.setup`. -/
def FixViscousSphere.setup {R : Type} (fix : FixViscousSphere) (update : Update)
    (copy_flevel_f copy_f_flevel : Int → Atom × R → Atom × R) (vflag : Int)
    (s : Atom × R) : Atom × R :=
  if strstr update.integrate_style "verlet" then (fix.post_force vflag s.1, s.2)
  else
    let s1 := copy_flevel_f fix.ilevel_respa s
    let s2 := (fix.post_force_respa vflag fix.ilevel_respa 0 s1.1, s1.2)
    copy_f_flevel fix.ilevel_respa s2

/-- `FixCundampRigid::setup`, with `copy_flevel_f` and `copy_f_flevel` as in
`FixCundamp.setup`; the result is the particle store with its level buffers and the body
registry. -/
def FixCundampRigid.setup {R : Type} (fix : FixCundampRigid) (update : Update)
    (copy_flevel_f copy_f_flevel : Int → Atom × R → Atom × R) (vflag : Int)
    (s : Atom × R) (fixrigid : FixRigidSmall) : (Atom × R) × FixRigidSmall :=
  if strstr update.integrate_style "verlet" then (s, fix.post_force vflag s.1 fixrigid)
  else
    let s1 := copy_flevel_f fix.ilevel_respa s
    let fixrigid1 := fix.post_force_respa vflag fix.ilevel_respa 0 s1.1 fixrigid
    (copy_f_flevel fix.ilevel_respa s1, fixrigid1)

/-- `FixViscousRigid::setup`, with `copy_flevel_f` and `copy_f_flevel` as in
`FixCundamp.setup`; the result is the particle store with its level buffers and the body
registry. -/
def FixViscousRigid.setup {R : Type} (fix : FixViscousRigid) (update : Update)
    (copy_flevel_f copy_f_flevel : Int → Atom × R → Atom × R) (vflag : Int)
    (s : Atom × R) (fixrigid : FixRigidSmall) : (Atom × R) × FixRigidSmall :=
  if strstr update.integrate_style "verlet" then (s, fix.post_force vflag s.1 fixrigid)
  else
    let s1 := copy_flevel_f fix.ilevel_respa s
    let fixrigid1 := fix.post_force_respa vflag fix.ilevel_respa 0 s1.1 fixrigid
    (copy_f_flevel fix.ilevel_respa s1, fixrigid1)

/-- `FixCundamp::min_setup`. -/
def FixCundamp.min_setup (fix : FixCundamp) (vflag : Int) (atom : Atom) : Atom :=
  fix.post_force vflag atom

/-- `FixCundamp::min_post_force`. -/
def FixCundamp.min_post_force (fix : FixCundamp) (vflag : Int) (atom : Atom) : Atom :=
  fix.post_force vflag atom

/-- `FixViscousSphere::min_setup`. -/
def FixViscousSphere.min_setup (fix : FixViscousSphere) (vflag : Int) (atom : Atom) : Atom :=
  fix.post_force vflag atom

/-- `FixViscousSphere::min_post_force`. -/
def FixViscousSphere.min_post_force (fix : FixViscousSphere) (vflag : Int) (atom : Atom) :
    Atom :=
  fix.post_force vflag atom

/-- `FixCundampRigid::min_setup`. -/
def FixCundampRigid.min_setup (fix : FixCundampRigid) (vflag : Int) (atom : Atom)
    (fixrigid : FixRigidSmall) : FixRigidSmall :=
  fix.post_force vflag atom fixrigid

/-- `FixCundampRigid::min_post_force`. -/
def FixCundampRigid.min_post_force (fix : FixCundampRigid) (vflag : Int) (atom : Atom)
    (fixrigid : FixRigidSmall) : FixRigidSmall :=
  fix.post_force vflag atom fixrigid

/-- `FixViscousRigid::min_setup`. -/
def FixViscousRigid.min_setup (fix : FixViscousRigid) (vflag : Int) (atom : Atom)
    (fixrigid : FixRigidSmall) : FixRigidSmall :=
  fix.post_force vflag atom fixrigid

/-- `FixViscousRigid::min_post_force`. -/
def FixViscousRigid.min_post_force (fix : FixViscousRigid) (vflag : Int) (atom : Atom)
    (fixrigid : FixRigidSmall) : FixRigidSmall :=
  fix.post_force vflag atom fixrigid

/-- Dot product of two three-component vectors. -/
def dot (a b : Vec3) : ℚ := a 0 * b 0 + a 1 * b 1 + a 2 * b 2

/-- The ordering warning of `FixCundampRigid::init`. -/
def cundamp_rigid_order_warning : String := "Fix cundamp/rigid must be defined after fix rigid"

/-- The ordering warning of `FixViscousRigid::init`. -/
def viscous_rigid_order_warning : String := "Fix viscous/rigid must be defined after fix rigid"

/-- Number of entries of `modify->fix` before position `ifix` whose style name is `style`. -/
def earlier_same_style (modify : Modify) (style : String) (ifix : Nat) : Nat :=
  ((List.range ifix).filter (fun j => decide ((modify.fix j).style = style))).length

/-- Everything a rigid-granularity pass can reach: the members of the modifier itself, the
particle store and the body registry. -/
structure RigidWorld (F : Type) where
  fix : F
  atom : Atom
  fixrigid : FixRigidSmall

/-- `FixCundampRigid::post_force` as a transformer of everything it can reach. The source
assigns to no member of the modifier and to no particle array, so these are carried over; the
registry is the one `FixCundampRigid.post_force` returns. -/
def FixCundampRigid.post_force_world (vflag : Int) (w : RigidWorld FixCundampRigid) :
    RigidWorld FixCundampRigid :=
  { w with fixrigid := w.fix.post_force vflag w.atom w.fixrigid }

/-- `FixViscousRigid::post_force` as a transformer of everything it can reach. The source
assigns to no member of the modifier and to no particle array, so these are carried over; the
registry is the one `FixViscousRigid.post_force` returns. -/
def FixViscousRigid.post_force_world (vflag : Int) (w : RigidWorld FixViscousRigid) :
    RigidWorld FixViscousRigid :=
  { w with fixrigid := w.fix.post_force vflag w.atom w.fixrigid }

/-! ### Rounded arithmetic

The definitions above compute with exact rationals. The definitions below repeat the four
passes with every floating point operation (`*`, `-`) followed by a rounding `rnd : ℚ → ℚ`
(one rounding per operation, no fused multiply-add). With `rnd = id` they are the exact
passes; with `rnd = binary64` they follow IEEE 754 double precision, round to nearest, ties
to even, with gradual underflow. Overflow to infinity and NaN are outside this model. -/

/-- Round to the nearest integer, ties to the even one. -/
def rne (q : ℚ) : ℤ :=
  if q - ⌊q⌋ < 1 / 2 then ⌊q⌋
  else if 1 / 2 < q - ⌊q⌋ then ⌊q⌋ + 1
  else if ⌊q⌋ % 2 = 0 then ⌊q⌋ else ⌊q⌋ + 1

/-- Spacing of the binary64 numbers in the binade of a non-negative `x`: 53 significant
bits, least normal exponent -1022 (below it the spacing stays `2^(-1074)`). -/
def binary64_ulp (x : ℚ) : ℚ := (2 : ℚ) ^ (max (Int.log 2 x) (-1022) - 52)

/-- Rounding of a non-negative rational to binary64, to nearest, ties to even. -/
def binary64_pos (x : ℚ) : ℚ := (rne (x / binary64_ulp x) : ℚ) * binary64_ulp x

/-- Rounding of a rational to binary64, to nearest, ties to even (symmetric in the sign). -/
def binary64 (x : ℚ) : ℚ := if x < 0 then -(binary64_pos (-x)) else binary64_pos x

/-- Statements executed on one body by `FixViscousRigid::post_force`
(fix_viscous_rigid.cpp, lines 145-151), every operation rounded by `rnd`. -/
def FixViscousRigid.damp_body_fl (rnd : ℚ → ℚ) (fix : FixViscousRigid) (body : Body) : Body :=
  let fcm : Vec3 := ![rnd (body.fcm 0 - rnd (fix.gamma_linear * body.vcm 0)),
                      rnd (body.fcm 1 - rnd (fix.gamma_linear * body.vcm 1)),
                      rnd (body.fcm 2 - rnd (fix.gamma_linear * body.vcm 2))]
  let torque : Vec3 := ![rnd (body.torque 0 - rnd (fix.gamma_angular * body.omega 0)),
                         rnd (body.torque 1 - rnd (fix.gamma_angular * body.omega 1)),
                         rnd (body.torque 2 - rnd (fix.gamma_angular * body.omega 2))]
  { body with fcm := fcm, torque := torque }

/-- Body of the particle loop of `FixViscousRigid::post_force`, every operation rounded by
`rnd`. -/
def FixViscousRigid.post_force_body_fl (rnd : ℚ → ℚ) (fix : FixViscousRigid) (atom : Atom)
    (i : Nat) (fixrigid : FixRigidSmall) : FixRigidSmall :=
  if ¬ (atom.mask i &&& fix.groupbit ≠ 0) then fixrigid
  else
    let ibody := fixrigid.bodyown i
    if ibody < 0 then fixrigid
    else
      { fixrigid with
        body := Function.update fixrigid.body ibody.toNat
                  (fix.damp_body_fl rnd (fixrigid.body ibody.toNat)) }

/-- `FixViscousRigid::post_force`, every operation rounded by `rnd`. -/
def FixViscousRigid.post_force_fl (rnd : ℚ → ℚ) (fix : FixViscousRigid) (_vflag : Int)
    (atom : Atom) (fixrigid : FixRigidSmall) : FixRigidSmall :=
  forLoop (fix.post_force_body_fl rnd atom) atom.nlocal fixrigid

/-- Statements executed on one body by `FixCundampRigid::post_force`
(fix_cundamp_rigid.cpp, lines 152-164), every operation rounded by `rnd`: the products
tested for their sign, the product `gamma*sgn`, the difference `1.0 - gamma*sgn` and the
product assigned by `*=`. -/
def FixCundampRigid.damp_body_fl (rnd : ℚ → ℚ) (fix : FixCundampRigid) (body : Body) : Body :=
  let sgnf0 : Int :=
    boolInt (rnd (body.fcm 0 * body.vcm 0) > 0) - boolInt (rnd (body.fcm 0 * body.vcm 0) < 0)
  let sgnf1 : Int :=
    boolInt (rnd (body.fcm 1 * body.vcm 1) > 0) - boolInt (rnd (body.fcm 1 * body.vcm 1) < 0)
  let sgnf2 : Int :=
    boolInt (rnd (body.fcm 2 * body.vcm 2) > 0) - boolInt (rnd (body.fcm 2 * body.vcm 2) < 0)
  let fcm : Vec3 := ![rnd (body.fcm 0 * rnd (1 - rnd (fix.gamma_linear * sgnf0))),
                      rnd (body.fcm 1 * rnd (1 - rnd (fix.gamma_linear * sgnf1))),
                      rnd (body.fcm 2 * rnd (1 - rnd (fix.gamma_linear * sgnf2)))]
  let sgntq0 : Int :=
    boolInt (rnd (body.torque 0 * body.omega 0) > 0)
      - boolInt (rnd (body.torque 0 * body.omega 0) < 0)
  let sgntq1 : Int :=
    boolInt (rnd (body.torque 1 * body.omega 1) > 0)
      - boolInt (rnd (body.torque 1 * body.omega 1) < 0)
  let sgntq2 : Int :=
    boolInt (rnd (body.torque 2 * body.omega 2) > 0)
      - boolInt (rnd (body.torque 2 * body.omega 2) < 0)
  let torque : Vec3 := ![rnd (body.torque 0 * rnd (1 - rnd (fix.gamma_angular * sgntq0))),
                         rnd (body.torque 1 * rnd (1 - rnd (fix.gamma_angular * sgntq1))),
                         rnd (body.torque 2 * rnd (1 - rnd (fix.gamma_angular * sgntq2)))]
  { body with fcm := fcm, torque := torque }

/-- Body of the particle loop of `FixCundampRigid::post_force`, every operation rounded by
`rnd`. -/
def FixCundampRigid.post_force_body_fl (rnd : ℚ → ℚ) (fix : FixCundampRigid) (atom : Atom)
    (i : Nat) (fixrigid : FixRigidSmall) : FixRigidSmall :=
  if ¬ (atom.mask i &&& fix.groupbit ≠ 0) then fixrigid
  else
    let ibody := fixrigid.bodyown i
    if ibody < 0 then fixrigid
    else
      { fixrigid with
        body := Function.update fixrigid.body ibody.toNat
                  (fix.damp_body_fl rnd (fixrigid.body ibody.toNat)) }

/-- `FixCundampRigid::post_force`, every operation rounded by `rnd`. -/
def FixCundampRigid.post_force_fl (rnd : ℚ → ℚ) (fix : FixCundampRigid) (_vflag : Int)
    (atom : Atom) (fixrigid : FixRigidSmall) : FixRigidSmall :=
  forLoop (fix.post_force_body_fl rnd atom) atom.nlocal fixrigid

/-- Body of the particle loop of `FixCundamp::post_force` (fix_cundamp.cpp, lines 144-161),
every operation rounded by `rnd`. -/
def FixCundamp.post_force_body_fl (rnd : ℚ → ℚ) (fix : FixCundamp) (i : Nat) (atom : Atom) :
    Atom :=
  if atom.mask i &&& fix.groupbit ≠ 0 then
    let gamma_l := fix.gamma_linear (atom.type i)
    let gamma_a := fix.gamma_angular (atom.type i)
    let sgnf0 : Int :=
      boolInt (rnd (atom.f i 0 * atom.v i 0) > 0) - boolInt (rnd (atom.f i 0 * atom.v i 0) < 0)
    let sgnf1 : Int :=
      boolInt (rnd (atom.f i 1 * atom.v i 1) > 0) - boolInt (rnd (atom.f i 1 * atom.v i 1) < 0)
    let sgnf2 : Int :=
      boolInt (rnd (atom.f i 2 * atom.v i 2) > 0) - boolInt (rnd (atom.f i 2 * atom.v i 2) < 0)
    let fi : Vec3 := ![rnd (atom.f i 0 * rnd (1 - rnd (gamma_l * sgnf0))),
                       rnd (atom.f i 1 * rnd (1 - rnd (gamma_l * sgnf1))),
                       rnd (atom.f i 2 * rnd (1 - rnd (gamma_l * sgnf2)))]
    let sgntq0 : Int :=
      boolInt (rnd (atom.torque i 0 * atom.omega i 0) > 0)
        - boolInt (rnd (atom.torque i 0 * atom.omega i 0) < 0)
    let sgntq1 : Int :=
      boolInt (rnd (atom.torque i 1 * atom.omega i 1) > 0)
        - boolInt (rnd (atom.torque i 1 * atom.omega i 1) < 0)
    let sgntq2 : Int :=
      boolInt (rnd (atom.torque i 2 * atom.omega i 2) > 0)
        - boolInt (rnd (atom.torque i 2 * atom.omega i 2) < 0)
    let tqi : Vec3 := ![rnd (atom.torque i 0 * rnd (1 - rnd (gamma_a * sgntq0))),
                        rnd (atom.torque i 1 * rnd (1 - rnd (gamma_a * sgntq1))),
                        rnd (atom.torque i 2 * rnd (1 - rnd (gamma_a * sgntq2)))]
    { atom with f := Function.update atom.f i fi, torque := Function.update atom.torque i tqi }
  else atom

/-- `FixCundamp::post_force`, every operation rounded by `rnd`. -/
def FixCundamp.post_force_fl (rnd : ℚ → ℚ) (fix : FixCundamp) (_vflag : Int) (atom : Atom) :
    Atom :=
  forLoop (fix.post_force_body_fl rnd) atom.nlocal atom

/-- Body of the particle loop of `FixViscousSphere::post_force`
(fix_viscous_sphere.cpp, lines 131-136), every operation rounded by `rnd`. -/
def FixViscousSphere.post_force_body_fl (rnd : ℚ → ℚ) (fix : FixViscousSphere) (i : Nat)
    (atom : Atom) : Atom :=
  if atom.mask i &&& fix.groupbit ≠ 0 then
    let drag := fix.gamma (atom.type i)
    let tqi : Vec3 := ![rnd (atom.torque i 0 - rnd (drag * atom.omega i 0)),
                        rnd (atom.torque i 1 - rnd (drag * atom.omega i 1)),
                        rnd (atom.torque i 2 - rnd (drag * atom.omega i 2))]
    { atom with torque := Function.update atom.torque i tqi }
  else atom

/-- `FixViscousSphere::post_force`, every operation rounded by `rnd`. -/
def FixViscousSphere.post_force_fl (rnd : ℚ → ℚ) (fix : FixViscousSphere) (_vflag : Int)
    (atom : Atom) : Atom :=
  forLoop (fix.post_force_body_fl rnd) atom.nlocal atom

/-- The sign of a power as the specification words it: +1 if positive, -1 if negative,
0 if zero. -/
def spec_sign (power : ℚ) : ℚ :=
  if power > 0 then 1 else if power < 0 then -1 else 0

/-- The end-to-end scenario of the specification: one local particle, type 1, in group 1,
velocity (2,0,0), force (5,0,0), no angular velocity and no torque. -/
def scenario_atom : Atom where
  nlocal := 1
  ntypes := 1
  sphere_flag := true
  mask := fun _ => 1
  type := fun _ => 1
  v := fun _ => ![2, 0, 0]
  omega := fun _ => ![0, 0, 0]
  f := fun _ => ![5, 0, 0]
  torque := fun _ => ![0, 0, 0]

/-- The power-reduction modifier of the end-to-end scenario: group bit 1, both coefficients
0.5 for every type. -/
def scenario_cundamp : FixCundamp where
  groupbit := 1
  respa_level := -1
  ilevel_respa := 0
  gamma_linear := fun _ => 1 / 2
  gamma_angular := fun _ => 1 / 2

/-- The viscous modifier of the end-to-end scenario: group bit 1, coefficient 0.5 for every
type. -/
def scenario_viscous : FixViscousSphere where
  groupbit := 1
  respa_level := -1
  ilevel_respa := 0
  gamma := fun _ => 1 / 2

/-- Three local particles: particles 0 and 1 carry group bit 1, particle 2 carries group bit
2 only; each has velocity (2,0,-1), angular velocity (0,1,0), force (5,0,3), torque (0,4,0). -/
def scenario_atom3 : Atom where
  nlocal := 3
  ntypes := 1
  sphere_flag := true
  mask := fun i => if i = 2 then 2 else 1
  type := fun _ => 1
  v := fun _ => ![2, 0, -1]
  omega := fun _ => ![0, 1, 0]
  f := fun _ => ![5, 0, 3]
  torque := fun _ => ![0, 4, 0]

/-- A body registry for `scenario_atom3`: particle 0 maps to body 0, particle 1 to no body,
particle 2 to body 1; every body has vcm (2,0,-1), omega (0,1,0), fcm (5,0,3),
torque (0,4,0). -/
def scenario_registry : FixRigidSmall where
  id := "rb"
  style := "rigid/small"
  earlyflag := true
  bodyown := fun i => if i = 0 then 0 else if i = 1 then -1 else 1
  body := fun _ => { vcm := ![2, 0, -1], omega := ![0, 1, 0], fcm := ![5, 0, 3],
                     torque := ![0, 4, 0] }

/-- A rigid-granularity viscous modifier: group bit 1, gamma_linear 1/2, gamma_angular 1/4,
bound to level 1. -/
def scenario_viscous_rigid : FixViscousRigid where
  id := "damp"
  groupbit := 1
  respa_level := -1
  ilevel_respa := 1
  gamma_linear := 1 / 2
  gamma_angular := 1 / 4
  idrigid := "rb"
  fixrigid := some 0

/-- A rigid-granularity power-reduction modifier: group bit 1, gamma_linear 1,
gamma_angular 1/4, bound to level 1. -/
def scenario_cundamp_rigid : FixCundampRigid where
  id := "damp"
  groupbit := 1
  respa_level := -1
  ilevel_respa := 1
  gamma_linear := 1
  gamma_angular := 1 / 4
  idrigid := "rb"
  fixrigid := some 0

/-- A modifier list holding the registry of `scenario_registry` at position 0. -/
def scenario_modify : Modify where
  nfix := 1
  fix := fun _ => scenario_registry

/-- A multi-rate integrator with three levels. -/
def scenario_update : Update where
  integrate_style := "respa"
  nlevels := 3

/-- A reading of floating point arguments for the constructor scenarios. -/
def scenario_numeric (s : String) : Option ℚ :=
  if s = "0.5" then some (1 / 2)
  else if s = "0.25" then some (1 / 4)
  else if s = "2" then some 2
  else if s = "3" then some 3
  else if s = "5" then some 5
  else none

/-- A reading of integer arguments for the constructor scenarios. -/
def scenario_inumeric (s : String) : Option Int :=
  if s = "1" then some 1
  else if s = "2" then some 2
  else if s = "3" then some 3
  else if s = "9" then some 9
  else none

/-- The command `fix damp all cundamp 0.5 0.25 scale 2 3 scale 2 5` (11 arguments). -/
def scenario_arg_cundamp (i : Nat) : String :=
  ["damp", "all", "cundamp", "0.5", "0.25", "scale", "2", "3", "scale", "2", "5"].getD i ""

/-- The command `fix damp all viscous/sphere 0.5 scale 9 2` (7 arguments), whose type index
9 exceeds the three types of the scenario. -/
def scenario_arg_viscous_bad (i : Nat) : String :=
  ["damp", "all", "viscous/sphere", "0.5", "scale", "9", "2"].getD i ""

/-- A particle store with three particle types and angular state. -/
def scenario_atom_types3 : Atom := { scenario_atom with ntypes := 3 }

/-- A modifier list with two power-reduction rigid modifiers `d1`, `d2` declared before the
body registry `rb`. -/
def scenario_modify3 : Modify where
  nfix := 3
  fix := fun j =>
    if j = 0 then { scenario_registry with id := "d1", style := "cundamp/rigid" }
    else if j = 1 then { scenario_registry with id := "d2", style := "cundamp/rigid" }
    else scenario_registry

/-- A single-rate integrator. -/
def scenario_update_verlet : Update where
  integrate_style := "verlet"
  nlevels := 0

/-- A model of `Respa::copy_flevel_f` for the scenarios: the level buffers are one force
array per level, and the forces of level `ilevel` are copied into the total force array. -/
def scenario_copy_flevel_f (ilevel : Int) (s : Atom × (Int → Nat → Vec3)) :
    Atom × (Int → Nat → Vec3) :=
  ({ s.1 with f := s.2 ilevel }, s.2)

/-- A model of `Respa::copy_f_flevel` for the scenarios: the total force array is copied
into the buffer of level `ilevel`. -/
def scenario_copy_f_flevel (ilevel : Int) (s : Atom × (Int → Nat → Vec3)) :
    Atom × (Int → Nat → Vec3) :=
  (s.1, Function.update s.2 ilevel s.1.f)

/-- The viscous rigid modifier, the three-particle store and the scenario registry together. -/
def scenario_world_viscous : RigidWorld FixViscousRigid where
  fix := scenario_viscous_rigid
  atom := scenario_atom3
  fixrigid := scenario_registry

/-- One viscous update of `f` against `v` incurs no rounding error: the product `gamma*v`
and the difference `f - gamma*v` are both values of the rounding. -/
def viscous_update_exact (rnd : ℚ → ℚ) (gamma f v : ℚ) : Prop :=
  rnd (gamma * v) = gamma * v ∧ rnd (f - gamma * v) = f - gamma * v

instance (rnd : ℚ → ℚ) (gamma f v : ℚ) : Decidable (viscous_update_exact rnd gamma f v) := by
  unfold viscous_update_exact
  infer_instance

/-- One power-reduction update of `f` against `v` incurs no rounding error: the computed
power has the sign of the exact one, and the product `gamma*sgn`, the difference
`1 - gamma*sgn` and the product assigned to `f` are values of the rounding. -/
def cundamp_update_exact (rnd : ℚ → ℚ) (gamma f v : ℚ) : Prop :=
  spec_sign (rnd (f * v)) = spec_sign (f * v) ∧
  rnd (gamma * spec_sign (f * v)) = gamma * spec_sign (f * v) ∧
  rnd (1 - gamma * spec_sign (f * v)) = 1 - gamma * spec_sign (f * v) ∧
  rnd (f * (1 - gamma * spec_sign (f * v))) = f * (1 - gamma * spec_sign (f * v))

instance (rnd : ℚ → ℚ) (gamma f v : ℚ) : Decidable (cundamp_update_exact rnd gamma f v) := by
  unfold cundamp_update_exact
  infer_instance

/-- A rigid-granularity viscous modifier with both coefficients 1. -/
def scenario_viscous_rigid_unit : FixViscousRigid :=
  { scenario_viscous_rigid with gamma_linear := 1, gamma_angular := 1 }

/-- A body whose force is far larger than its velocity: vcm (1,0,0), omega (1/2^60,0,0),
fcm (10^16,0,0), torque (1,0,0). -/
def scenario_body_large : Body where
  vcm := ![1, 0, 0]
  omega := ![1 / 2 ^ 60, 0, 0]
  fcm := ![10 ^ 16, 0, 0]
  torque := ![1, 0, 0]

/-- The registry of `scenario_registry` with every particle mapped to body 0. -/
def scenario_registry_shared : FixRigidSmall :=
  { scenario_registry with bodyown := fun _ => 0 }

/-- A registry whose particles all map to body 0 and whose bodies are
`scenario_body_large`. -/
def scenario_registry_large : FixRigidSmall :=
  { scenario_registry with bodyown := fun _ => 0, body := fun _ => scenario_body_large }

/-- A rigid-granularity power-reduction modifier with gamma_linear 1/4. -/
def scenario_cundamp_rigid_quarter : FixCundampRigid :=
  { scenario_cundamp_rigid with gamma_linear := 1 / 4 }

/-- A rigid-granularity power-reduction modifier with gamma_linear 1/2. -/
def scenario_cundamp_rigid_half : FixCundampRigid :=
  { scenario_cundamp_rigid with gamma_linear := 1 / 2 }

/-- A body whose damped force falls halfway between two binary64 numbers: vcm (1,0,0),
fcm (2^53+2,0,0), no rotation. -/
def scenario_body_halfway : Body where
  vcm := ![1, 0, 0]
  omega := ![0, 0, 0]
  fcm := ![2 ^ 53 + 2, 0, 0]
  torque := ![0, 0, 0]

/-- A registry whose particles all map to body 0 and whose bodies are
`scenario_body_halfway`. -/
def scenario_registry_halfway : FixRigidSmall :=
  { scenario_registry with bodyown := fun _ => 0, body := fun _ => scenario_body_halfway }

/-- The power-reduction modifier of the end-to-end scenario with the linear coefficient
`2^(-60)` for every type. -/
def scenario_cundamp_tiny : FixCundamp :=
  { scenario_cundamp with gamma_linear := fun _ => 1 / 2 ^ 60 }

/-- The power-reduction modifier of the end-to-end scenario with the linear coefficient 3
(above 1) for every type. -/
def scenario_cundamp_strong : FixCundamp :=
  { scenario_cundamp with gamma_linear := fun _ => 3 }

/-! ## Loop lemmas for the particle-granularity fixes -/

theorem boolInt_sub_cast (p : ℚ) :
    ((boolInt (p > 0) - boolInt (p < 0) : Int) : ℚ) = spec_sign p := by
  unfold boolInt spec_sign
  rcases lt_trichotomy p 0 with h | h | h
  · have h2 : ¬ p > 0 := not_lt.mpr (le_of_lt h)
    simp [h, h2]
  · subst h; simp
  · have h2 : ¬ p < 0 := not_lt.mpr (le_of_lt h)
    simp [h, h2]

theorem cundamp_forLoop_frame (fix : FixCundamp) (atom : Atom) (n : Nat) :
    (forLoop fix.post_force_body n atom).nlocal = atom.nlocal ∧
    (forLoop fix.post_force_body n atom).ntypes = atom.ntypes ∧
    (forLoop fix.post_force_body n atom).sphere_flag = atom.sphere_flag ∧
    (forLoop fix.post_force_body n atom).mask = atom.mask ∧
    (forLoop fix.post_force_body n atom).type = atom.type ∧
    (forLoop fix.post_force_body n atom).v = atom.v ∧
    (forLoop fix.post_force_body n atom).omega = atom.omega := by
  induction n with
  | zero => simp [forLoop]
  | succ n ih =>
    simp only [forLoop, FixCundamp.post_force_body]
    split_ifs <;> simpa using ih

theorem cundamp_forLoop_f_torque (fix : FixCundamp) (atom : Atom) (n j : Nat) :
    (forLoop fix.post_force_body n atom).f j
      = (if j < n then (fix.post_force_body j atom).f j else atom.f j) ∧
    (forLoop fix.post_force_body n atom).torque j
      = (if j < n then (fix.post_force_body j atom).torque j else atom.torque j) := by
  induction n generalizing j with
  | zero => simp [forLoop]
  | succ n ih =>
    obtain ⟨_, _, _, hm, ht, hv, ho⟩ := cundamp_forLoop_frame fix atom n
    have hfn := (ih n).1
    have htn := (ih n).2
    simp only [lt_irrefl, if_false] at hfn htn
    rcases Nat.lt_trichotomy j n with hlt | heq | hgt
    · have hne : j ≠ n := Nat.ne_of_lt hlt
      have hj := ih j
      simp only [hlt, if_true] at hj
      simp only [forLoop, Nat.lt_succ_of_lt hlt, if_true]
      rw [← hj.1, ← hj.2]
      generalize forLoop fix.post_force_body n atom = S
      unfold FixCundamp.post_force_body
      split_ifs <;> simp [Function.update_noteq hne]
    · subst heq
      simp only [forLoop, Nat.lt_succ_self, if_true]
      generalize hS : forLoop fix.post_force_body j atom = S at hm ht hv ho hfn htn
      unfold FixCundamp.post_force_body
      simp only [hm, ht, hv, ho, hfn, htn]
      split_ifs <;> simp [hfn, htn]
    · have hne : j ≠ n := Nat.ne_of_gt hgt
      have hj := ih j
      have h1 : ¬ j < n := Nat.not_lt_of_gt hgt
      have h2 : ¬ j < n + 1 := by omega
      simp only [h1, if_false] at hj
      simp only [forLoop, h2, if_false]
      rw [← hj.1, ← hj.2]
      generalize forLoop fix.post_force_body n atom = S
      unfold FixCundamp.post_force_body
      split_ifs <;> simp [Function.update_noteq hne]

theorem viscous_sphere_forLoop_frame (fix : FixViscousSphere) (atom : Atom) (n : Nat) :
    (forLoop fix.post_force_body n atom).nlocal = atom.nlocal ∧
    (forLoop fix.post_force_body n atom).ntypes = atom.ntypes ∧
    (forLoop fix.post_force_body n atom).sphere_flag = atom.sphere_flag ∧
    (forLoop fix.post_force_body n atom).mask = atom.mask ∧
    (forLoop fix.post_force_body n atom).type = atom.type ∧
    (forLoop fix.post_force_body n atom).v = atom.v ∧
    (forLoop fix.post_force_body n atom).omega = atom.omega ∧
    (forLoop fix.post_force_body n atom).f = atom.f := by
  induction n with
  | zero => simp [forLoop]
  | succ n ih =>
    simp only [forLoop, FixViscousSphere.post_force_body]
    split_ifs <;> simpa using ih

theorem viscous_sphere_forLoop_torque (fix : FixViscousSphere) (atom : Atom) (n j : Nat) :
    (forLoop fix.post_force_body n atom).torque j
      = (if j < n then (fix.post_force_body j atom).torque j else atom.torque j) := by
  induction n generalizing j with
  | zero => simp [forLoop]
  | succ n ih =>
    obtain ⟨_, _, _, hm, ht, _, ho, _⟩ := viscous_sphere_forLoop_frame fix atom n
    have htn := ih n
    simp only [lt_irrefl, if_false] at htn
    rcases Nat.lt_trichotomy j n with hlt | heq | hgt
    · have hne : j ≠ n := Nat.ne_of_lt hlt
      have hj := ih j
      simp only [hlt, if_true] at hj
      simp only [forLoop, Nat.lt_succ_of_lt hlt, if_true]
      rw [← hj]
      generalize forLoop fix.post_force_body n atom = S
      unfold FixViscousSphere.post_force_body
      split_ifs <;> simp [Function.update_noteq hne]
    · subst heq
      simp only [forLoop, Nat.lt_succ_self, if_true]
      generalize hS : forLoop fix.post_force_body j atom = S at hm ht ho htn
      unfold FixViscousSphere.post_force_body
      simp only [hm, ht, ho, htn]
      split_ifs <;> simp [htn]
    · have hne : j ≠ n := Nat.ne_of_gt hgt
      have hj := ih j
      have h1 : ¬ j < n := Nat.not_lt_of_gt hgt
      have h2 : ¬ j < n + 1 := by omega
      simp only [h1, if_false] at hj
      simp only [forLoop, h2, if_false]
      rw [← hj]
      generalize forLoop fix.post_force_body n atom = S
      unfold FixViscousSphere.post_force_body
      split_ifs <;> simp [Function.update_noteq hne]

/-- Value of `f[i]` and `torque[i]` after `FixCundamp::post_force`, for an in-group local
particle, componentwise. -/
theorem cundamp_post_force_in_group (fix : FixCundamp) (vflag : Int) (atom : Atom)
    (i : Nat) (hi : i < atom.nlocal) (hg : atom.mask i &&& fix.groupbit ≠ 0) (k : Fin 3) :
    (fix.post_force vflag atom).f i k
        = atom.f i k * (1 - fix.gamma_linear (atom.type i)
            * spec_sign (atom.f i k * atom.v i k)) ∧
    (fix.post_force vflag atom).torque i k
        = atom.torque i k * (1 - fix.gamma_angular (atom.type i)
            * spec_sign (atom.torque i k * atom.omega i k)) := by
  have h := cundamp_forLoop_f_torque fix atom atom.nlocal i
  simp only [hi, if_true] at h
  unfold FixCundamp.post_force
  rw [h.1, h.2]
  unfold FixCundamp.post_force_body
  simp only [hg, if_true, ne_eq, not_false_eq_true, Function.update_same]
  simp only [← boolInt_sub_cast]
  fin_cases k <;> simp

/-- Particles outside the group keep `f[i]` and `torque[i]` under `FixCundamp::post_force`. -/
theorem cundamp_post_force_out_group (fix : FixCundamp) (vflag : Int) (atom : Atom)
    (i : Nat) (hg : atom.mask i &&& fix.groupbit = 0) :
    (fix.post_force vflag atom).f i = atom.f i ∧
    (fix.post_force vflag atom).torque i = atom.torque i := by
  have h := cundamp_forLoop_f_torque fix atom atom.nlocal i
  unfold FixCundamp.post_force
  rw [h.1, h.2]
  unfold FixCundamp.post_force_body
  simp [hg]

/-- Value of `torque[i]` after `FixViscousSphere::post_force`, for an in-group local
particle, componentwise. -/
theorem viscous_sphere_post_force_in_group (fix : FixViscousSphere) (vflag : Int)
    (atom : Atom) (i : Nat) (hi : i < atom.nlocal) (hg : atom.mask i &&& fix.groupbit ≠ 0)
    (k : Fin 3) :
    (fix.post_force vflag atom).torque i k
        = atom.torque i k - fix.gamma (atom.type i) * atom.omega i k := by
  have h := viscous_sphere_forLoop_torque fix atom atom.nlocal i
  simp only [hi, if_true] at h
  unfold FixViscousSphere.post_force
  rw [h]
  unfold FixViscousSphere.post_force_body
  simp only [hg, if_true, ne_eq, not_false_eq_true, Function.update_same]
  fin_cases k <;> simp

/-- Particles outside the group keep `torque[i]` under `FixViscousSphere::post_force`. -/
theorem viscous_sphere_post_force_out_group (fix : FixViscousSphere) (vflag : Int)
    (atom : Atom) (i : Nat) (hg : atom.mask i &&& fix.groupbit = 0) :
    (fix.post_force vflag atom).torque i = atom.torque i := by
  have h := viscous_sphere_forLoop_torque fix atom atom.nlocal i
  unfold FixViscousSphere.post_force
  rw [h]
  unfold FixViscousSphere.post_force_body
  simp [hg]

/-- No particle's force is written by `FixViscousSphere::post_force`. -/
theorem viscous_sphere_post_force_f (fix : FixViscousSphere) (vflag : Int) (atom : Atom) :
    (fix.post_force vflag atom).f = atom.f :=
  (viscous_sphere_forLoop_frame fix atom atom.nlocal).2.2.2.2.2.2.2

/-! ## Particle-granularity laws -/

/-- C1: power-reduction law of `FixCundamp::post_force`. For every local particle `i` whose
mask intersects the group bit and every axis `k`, the new force component is
`f[i][k] * (1 - gamma_linear[type[i]] * sgn(f[i][k]*v[i][k]))` and the new torque component is
`torque[i][k] * (1 - gamma_angular[type[i]] * sgn(torque[i][k]*omega[i][k]))`, with `sgn`
being +1, -1, 0 on a positive, negative, zero product of the values before the pass. -/
theorem C1_cundamp_power_reduction_law (fix : FixCundamp) (vflag : Int) (atom : Atom)
    (i : Nat) (hi : i < atom.nlocal) (hg : atom.mask i &&& fix.groupbit ≠ 0) (k : Fin 3) :
    (fix.post_force vflag atom).f i k
        = atom.f i k * (1 - fix.gamma_linear (atom.type i)
            * spec_sign (atom.f i k * atom.v i k)) ∧
    (fix.post_force vflag atom).torque i k
        = atom.torque i k * (1 - fix.gamma_angular (atom.type i)
            * spec_sign (atom.torque i k * atom.omega i k)) :=
  cundamp_post_force_in_group fix vflag atom i hi hg k

/-- C1, end-to-end scenario: the in-group particle of type 1 with v = (2,0,0), f = (5,0,0)
and gamma_linear = 0.5 ends the pass with f = (2.5,0,0). -/
theorem C1_cundamp_power_reduction_law_witness :
    0 < scenario_atom.nlocal ∧ scenario_atom.mask 0 &&& scenario_cundamp.groupbit ≠ 0 ∧
    (scenario_cundamp.post_force 0 scenario_atom).f 0 = ![5 / 2, 0, 0] ∧
    (scenario_cundamp.post_force 0 scenario_atom).torque 0 = ![0, 0, 0] := by
  have hi : 0 < scenario_atom.nlocal := by decide
  have hg : scenario_atom.mask 0 &&& scenario_cundamp.groupbit ≠ 0 := by decide
  refine ⟨hi, hg, ?_, ?_⟩
  · funext k
    rw [(C1_cundamp_power_reduction_law scenario_cundamp 0 scenario_atom 0 hi hg k).1]
    fin_cases k <;> norm_num [scenario_atom, scenario_cundamp, spec_sign]
  · funext k
    rw [(C1_cundamp_power_reduction_law scenario_cundamp 0 scenario_atom 0 hi hg k).2]
    fin_cases k <;> norm_num [scenario_atom, scenario_cundamp, spec_sign]

/-- C4 (as stated, refuted): in the end-to-end scenario `FixViscousSphere::post_force` leaves
the force of the in-group particle at (5,0,0); it does not become (4,0,0). -/
theorem C4_viscous_sphere_force_counterexample :
    (scenario_viscous.post_force 0 scenario_atom).f 0 = ![5, 0, 0] ∧
    (scenario_viscous.post_force 0 scenario_atom).f 0 ≠ ![4, 0, 0] := by
  have h : (scenario_viscous.post_force 0 scenario_atom).f 0 = ![5, 0, 0] := by
    rw [viscous_sphere_post_force_f]; rfl
  refine ⟨h, ?_⟩
  rw [h]
  intro hc
  have := congrFun hc 0
  norm_num at this

/-- C4 (amended): `FixViscousSphere::post_force` applies no linear drag. The force of every
particle, in the group or not, is the same after the pass as before it, whatever the velocity
and the coefficient table; only the torque of in-group local particles is damped. -/
theorem C4_viscous_sphere_force_unchanged (fix : FixViscousSphere) (vflag : Int)
    (atom : Atom) (i : Nat) :
    (fix.post_force vflag atom).f i = atom.f i ∧
    (i < atom.nlocal → atom.mask i &&& fix.groupbit ≠ 0 → ∀ k : Fin 3,
      (fix.post_force vflag atom).torque i k
        = atom.torque i k - fix.gamma (atom.type i) * atom.omega i k) := by
  refine ⟨?_, fun hi hg k => viscous_sphere_post_force_in_group fix vflag atom i hi hg k⟩
  rw [viscous_sphere_post_force_f]

/-- C4 (amended) at the end-to-end scenario: the force stays (5,0,0). -/
theorem C4_viscous_sphere_force_unchanged_witness :
    (scenario_viscous.post_force 0 scenario_atom).f 0 = ![5, 0, 0] ∧
    (scenario_viscous.post_force 0 scenario_atom).torque 0 0 = 0 := by
  have h := C4_viscous_sphere_force_unchanged scenario_viscous 0 scenario_atom 0
  refine ⟨h.1.trans rfl, ?_⟩
  rw [h.2 (by decide) (by decide) 0]
  norm_num [scenario_atom, scenario_viscous]

/-! ## Loop lemmas for the rigid-granularity fixes -/

/-- Count of the indices below `n` that are in the group and map to body `B`. -/
theorem count_succ (p : Nat → Bool) (n : Nat) :
    ((List.range (n + 1)).filter p).length
      = ((List.range n).filter p).length + (if p n then 1 else 0) := by
  rw [List.range_succ, List.filter_append, List.length_append]
  by_cases h : p n <;> simp [h]

theorem rigid_forLoop (g : Body → Body) (groupbit : Nat) (atom : Atom)
    (step : Nat → FixRigidSmall → FixRigidSmall)
    (hstep : ∀ i fr, step i fr =
      if ¬ (atom.mask i &&& groupbit ≠ 0) then fr
      else if fr.bodyown i < 0 then fr
      else { fr with body := Function.update fr.body (fr.bodyown i).toNat
                               (g (fr.body (fr.bodyown i).toNat)) })
    (n : Nat) (fr : FixRigidSmall) :
    (forLoop step n fr).id = fr.id ∧
    (forLoop step n fr).style = fr.style ∧
    (forLoop step n fr).earlyflag = fr.earlyflag ∧
    (forLoop step n fr).bodyown = fr.bodyown ∧
    ∀ B : Nat, (forLoop step n fr).body B
      = g^[((List.range n).filter
            (fun i => decide (atom.mask i &&& groupbit ≠ 0 ∧ fr.bodyown i = (B : Int)))).length]
          (fr.body B) := by
  induction n with
  | zero => simp [forLoop]
  | succ n ih =>
    obtain ⟨h1, h2, h3, h4, h5⟩ := ih
    simp only [forLoop]
    rw [hstep]
    generalize forLoop step n fr = S at h1 h2 h3 h4 h5
    by_cases hg : atom.mask n &&& groupbit ≠ 0
    · have hg2 : ¬ ¬ (atom.mask n &&& groupbit ≠ 0) := not_not.mpr hg
      rw [if_neg hg2]
      by_cases hb : S.bodyown n < 0
      · rw [if_pos hb]
        refine ⟨h1, h2, h3, h4, fun B => ?_⟩
        rw [h5 B, count_succ]
        have : ¬ fr.bodyown n = (B : Int) := by
          rw [← h4]; intro h; rw [h] at hb; exact absurd hb (by omega)
        simp [this]
      · rw [if_neg hb]
        refine ⟨h1, h2, h3, h4, fun B => ?_⟩
        rw [count_succ]
        have hnn : 0 ≤ S.bodyown n := not_lt.mp hb
        by_cases hB : B = (S.bodyown n).toNat
        · have hp : fr.bodyown n = (B : Int) := by
            rw [← h4, hB, Int.toNat_of_nonneg hnn]
          rw [← hB]
          simp only [Function.update_same, hg, hp, and_self, decide_True, if_true, ne_eq,
            not_false_eq_true]
          rw [Function.iterate_succ_apply', h5 B]
        · have hp : ¬ fr.bodyown n = (B : Int) := by
            rw [← h4]; intro h; apply hB; rw [h]; simp
          simp only [Function.update_noteq hB, hp, and_false, decide_False, Bool.false_eq_true,
            if_false, add_zero]
          exact h5 B
    · rw [if_pos hg]
      refine ⟨h1, h2, h3, h4, fun B => ?_⟩
      rw [h5 B, count_succ]
      simp [hg]


theorem count_perm (σ : Equiv.Perm Nat) (n : Nat) (hσ : ∀ i, σ i < n ↔ i < n)
    (p : Nat → Bool) :
    ((List.range n).filter (p ∘ σ)).length = ((List.range n).filter p).length := by
  have hperm : List.Perm ((List.range n).map σ) (List.range n) := by
    rw [List.perm_ext_iff_of_nodup ((List.nodup_range n).map σ.injective) (List.nodup_range n)]
    intro a
    simp only [List.mem_map, List.mem_range]
    constructor
    · rintro ⟨b, hb, rfl⟩; exact (hσ b).2 hb
    · intro ha
      refine ⟨σ.symm a, ?_, by simp⟩
      have := hσ (σ.symm a)
      simpa using this.1 (by simpa using ha)
  calc ((List.range n).filter (p ∘ σ)).length
      = (((List.range n).filter (p ∘ σ)).map σ).length := by rw [List.length_map]
    _ = (((List.range n).map σ).filter p).length := by rw [List.filter_map]
    _ = ((List.range n).filter p).length := (hperm.filter p).length_eq

theorem cundamp_rigid_post_force_spec (fix : FixCundampRigid) (vflag : Int) (atom : Atom)
    (fr : FixRigidSmall) :
    (fix.post_force vflag atom fr).id = fr.id ∧
    (fix.post_force vflag atom fr).style = fr.style ∧
    (fix.post_force vflag atom fr).earlyflag = fr.earlyflag ∧
    (fix.post_force vflag atom fr).bodyown = fr.bodyown ∧
    ∀ B : Nat, (fix.post_force vflag atom fr).body B
      = fix.damp_body^[group_count fix.groupbit atom fr B] (fr.body B) :=
  rigid_forLoop fix.damp_body fix.groupbit atom (fix.post_force_body atom)
    (fun _ _ => rfl) atom.nlocal fr

theorem viscous_rigid_post_force_spec (fix : FixViscousRigid) (vflag : Int) (atom : Atom)
    (fr : FixRigidSmall) :
    (fix.post_force vflag atom fr).id = fr.id ∧
    (fix.post_force vflag atom fr).style = fr.style ∧
    (fix.post_force vflag atom fr).earlyflag = fr.earlyflag ∧
    (fix.post_force vflag atom fr).bodyown = fr.bodyown ∧
    ∀ B : Nat, (fix.post_force vflag atom fr).body B
      = fix.damp_body^[group_count fix.groupbit atom fr B] (fr.body B) :=
  rigid_forLoop fix.damp_body fix.groupbit atom (fix.post_force_body atom)
    (fun _ _ => rfl) atom.nlocal fr

/-- Componentwise form of one application of the power-reduction law to a body. -/
theorem cundamp_rigid_damp_body_apply (fix : FixCundampRigid) (body : Body) (k : Fin 3) :
    (fix.damp_body body).fcm k
        = body.fcm k * (1 - fix.gamma_linear * spec_sign (body.fcm k * body.vcm k)) ∧
    (fix.damp_body body).torque k
        = body.torque k * (1 - fix.gamma_angular * spec_sign (body.torque k * body.omega k)) ∧
    (fix.damp_body body).vcm = body.vcm ∧ (fix.damp_body body).omega = body.omega := by
  unfold FixCundampRigid.damp_body
  simp only [← boolInt_sub_cast]
  fin_cases k <;> simp

/-- Componentwise form of one application of the viscous law to a body. -/
theorem viscous_rigid_damp_body_apply (fix : FixViscousRigid) (body : Body) (k : Fin 3) :
    (fix.damp_body body).fcm k = body.fcm k - fix.gamma_linear * body.vcm k ∧
    (fix.damp_body body).torque k = body.torque k - fix.gamma_angular * body.omega k ∧
    (fix.damp_body body).vcm = body.vcm ∧ (fix.damp_body body).omega = body.omega := by
  unfold FixViscousRigid.damp_body
  fin_cases k <;> simp

/-- Closed form of `n` successive applications of the viscous law to a body. -/
theorem viscous_rigid_damp_body_iterate (fix : FixViscousRigid) (body : Body) (n : Nat)
    (k : Fin 3) :
    (fix.damp_body^[n] body).fcm k = body.fcm k - n * fix.gamma_linear * body.vcm k ∧
    (fix.damp_body^[n] body).torque k = body.torque k - n * fix.gamma_angular * body.omega k ∧
    (fix.damp_body^[n] body).vcm = body.vcm ∧ (fix.damp_body^[n] body).omega = body.omega := by
  induction n with
  | zero => simp
  | succ n ih =>
    obtain ⟨h1, h2, h3, h4⟩ := ih
    rw [Function.iterate_succ_apply']
    obtain ⟨a1, a2, a3, a4⟩ := viscous_rigid_damp_body_apply fix (fix.damp_body^[n] body) k
    rw [a1, a2, a3, a4, h1, h2, h3, h4]
    refine ⟨?_, ?_, rfl, rfl⟩ <;> push_cast <;> ring

theorem group_count_eq_zero (groupbit : Nat) (atom : Atom) (fr : FixRigidSmall) (B : Nat)
    (h : ∀ i, i < atom.nlocal → atom.mask i &&& groupbit ≠ 0 → fr.bodyown i ≠ (B : Int)) :
    group_count groupbit atom fr B = 0 := by
  unfold group_count
  rw [List.length_eq_zero, List.filter_eq_nil_iff]
  intro i hi
  have hi2 : i < atom.nlocal := List.mem_range.mp hi
  simp only [decide_eq_true_eq, not_and]
  exact fun hg => h i hi2 hg

/-! ## Rigid-body viscous law -/

/-- C6: group eligibility for both particle-granularity modifiers. A particle `i` with
`(mask[i] & groupbit) == 0` has the same force and torque after `FixCundamp::post_force` and
after `FixViscousSphere::post_force` as before, whatever the other particles are; a local
particle whose mask intersects the group bit takes part, that is, its force and torque are
the values the damping law gives. -/
theorem C6_group_eligibility (fixc : FixCundamp) (fixv : FixViscousSphere) (vflag : Int)
    (atom : Atom) (i : Nat) :
    (atom.mask i &&& fixc.groupbit = 0 →
      (fixc.post_force vflag atom).f i = atom.f i ∧
      (fixc.post_force vflag atom).torque i = atom.torque i) ∧
    (atom.mask i &&& fixv.groupbit = 0 →
      (fixv.post_force vflag atom).f i = atom.f i ∧
      (fixv.post_force vflag atom).torque i = atom.torque i) ∧
    (i < atom.nlocal → atom.mask i &&& fixc.groupbit ≠ 0 → ∀ k : Fin 3,
      (fixc.post_force vflag atom).f i k
        = atom.f i k * (1 - fixc.gamma_linear (atom.type i)
            * spec_sign (atom.f i k * atom.v i k)) ∧
      (fixc.post_force vflag atom).torque i k
        = atom.torque i k * (1 - fixc.gamma_angular (atom.type i)
            * spec_sign (atom.torque i k * atom.omega i k))) ∧
    (i < atom.nlocal → atom.mask i &&& fixv.groupbit ≠ 0 → ∀ k : Fin 3,
      (fixv.post_force vflag atom).torque i k
        = atom.torque i k - fixv.gamma (atom.type i) * atom.omega i k) := by
  refine ⟨fun h => cundamp_post_force_out_group fixc vflag atom i h,
    fun h => ⟨?_, viscous_sphere_post_force_out_group fixv vflag atom i h⟩,
    fun hi hg k => cundamp_post_force_in_group fixc vflag atom i hi hg k,
    fun hi hg k => viscous_sphere_post_force_in_group fixv vflag atom i hi hg k⟩
  rw [viscous_sphere_post_force_f]

/-- C6 at a concrete input: in `scenario_atom3` particle 2 is outside group 1 and keeps force
(5,0,3) and torque (0,4,0) under both modifiers, while in-group particle 0 gets force x
component 5/2 under the power-reduction modifier. -/
theorem C6_group_eligibility_witness :
    scenario_atom3.mask 2 &&& scenario_cundamp.groupbit = 0 ∧
    (scenario_cundamp.post_force 0 scenario_atom3).f 2 = ![5, 0, 3] ∧
    (scenario_cundamp.post_force 0 scenario_atom3).torque 2 = ![0, 4, 0] ∧
    (scenario_viscous.post_force 0 scenario_atom3).torque 2 = ![0, 4, 0] ∧
    (scenario_cundamp.post_force 0 scenario_atom3).f 0 0 = 5 / 2 := by
  have hm : scenario_atom3.mask 2 &&& scenario_cundamp.groupbit = 0 := by decide
  have hm2 : scenario_atom3.mask 2 &&& scenario_viscous.groupbit = 0 := by decide
  have h := C6_group_eligibility scenario_cundamp scenario_viscous 0 scenario_atom3 2
  have h0 := C6_group_eligibility scenario_cundamp scenario_viscous 0 scenario_atom3 0
  refine ⟨hm, (h.1 hm).1.trans rfl, (h.1 hm).2.trans rfl, (h.2.1 hm2).2.trans rfl, ?_⟩
  rw [(h0.2.2.1 (by decide) (by decide) 0).1]
  norm_num [scenario_atom3, scenario_cundamp, spec_sign]

/-! ## Rigid-body indirection and compounding -/

/-- C7: rigid-body indirection, for `FixCundampRigid::post_force` and
`FixViscousRigid::post_force`. A particle whose `bodyown` entry is negative changes nothing
in the registry when the loop visits it; a body that is not the `bodyown` value of any
in-group local particle has the same `fcm` and `torque` (indeed the same state) after the
pass; and visiting a particle that maps to body `B` leaves every other body as it was. -/
theorem C7_rigid_indirection (fixc : FixCundampRigid) (fixv : FixViscousRigid) (vflag : Int)
    (atom : Atom) (fr : FixRigidSmall) :
    (∀ i : Nat, fr.bodyown i < 0 →
      fixc.post_force_body atom i fr = fr ∧ fixv.post_force_body atom i fr = fr) ∧
    (∀ B : Nat,
      (∀ i, i < atom.nlocal → atom.mask i &&& fixc.groupbit ≠ 0 → fr.bodyown i ≠ (B : Int)) →
      (fixc.post_force vflag atom fr).body B = fr.body B) ∧
    (∀ B : Nat,
      (∀ i, i < atom.nlocal → atom.mask i &&& fixv.groupbit ≠ 0 → fr.bodyown i ≠ (B : Int)) →
      (fixv.post_force vflag atom fr).body B = fr.body B) ∧
    (∀ (i B C : Nat), fr.bodyown i = (B : Int) → C ≠ B →
      (fixc.post_force_body atom i fr).body C = fr.body C ∧
      (fixv.post_force_body atom i fr).body C = fr.body C) := by
  refine ⟨fun i hneg => ?_, fun B hB => ?_, fun B hB => ?_, fun i B C hiB hC => ?_⟩
  · unfold FixCundampRigid.post_force_body FixViscousRigid.post_force_body
    simp [hneg]
  · rw [(cundamp_rigid_post_force_spec fixc vflag atom fr).2.2.2.2 B,
      group_count_eq_zero fixc.groupbit atom fr B hB]
    rfl
  · rw [(viscous_rigid_post_force_spec fixv vflag atom fr).2.2.2.2 B,
      group_count_eq_zero fixv.groupbit atom fr B hB]
    rfl
  · have hne : C ≠ (fr.bodyown i).toNat := by rw [hiB]; simpa using hC
    have hnn : ¬ fr.bodyown i < 0 := by rw [hiB]; omega
    unfold FixCundampRigid.post_force_body FixViscousRigid.post_force_body
    simp only [if_neg hnn]
    constructor <;> split_ifs <;> simp [Function.update_noteq hne]

/-- C7 at a concrete input: in the scenario particle 1 has no body and visiting it changes
nothing; body 1 is the target of out-of-group particle 2 only and keeps fcm (5,0,3); body 2 is
nobody's target and is unchanged when in-group particle 0 (mapped to body 0) is visited. -/
theorem C7_rigid_indirection_witness :
    scenario_registry.bodyown 1 < 0 ∧
    scenario_cundamp_rigid.post_force_body scenario_atom3 1 scenario_registry
      = scenario_registry ∧
    ((scenario_viscous_rigid.post_force 0 scenario_atom3 scenario_registry).body 1).fcm
      = ![5, 0, 3] ∧
    (scenario_viscous_rigid.post_force_body scenario_atom3 0 scenario_registry).body 2
      = scenario_registry.body 2 := by
  have h := C7_rigid_indirection scenario_cundamp_rigid scenario_viscous_rigid 0
    scenario_atom3 scenario_registry
  have hneg : scenario_registry.bodyown 1 < 0 := by decide
  refine ⟨hneg, (h.1 1 hneg).1, ?_, (h.2.2.2 0 0 2 (by decide) (by decide)).2⟩
  rw [h.2.2.1 1 ?_]
  · rfl
  · intro i hi hg
    have hi3 : i < 3 := hi
    interval_cases i
    · decide
    · decide
    · exact absurd hg (by decide)

/-! ## Level gating and level resolution -/

/-- C9: level gating. For each of the four modifiers, `post_force_respa(vflag, ilevel, iloop)`
with `ilevel` different from the bound level `ilevel_respa` returns the state unchanged (all
per-particle and per-body forces and torques), with `ilevel` equal to the bound level it
returns exactly the state `post_force` returns, and the result does not depend on `iloop`. -/
theorem C9_level_gating (fixc : FixCundamp) (fixv : FixViscousSphere)
    (fixcr : FixCundampRigid) (fixvr : FixViscousRigid) (vflag ilevel iloop : Int)
    (atom : Atom) (fr : FixRigidSmall) :
    (ilevel ≠ fixc.ilevel_respa → fixc.post_force_respa vflag ilevel iloop atom = atom) ∧
    (ilevel ≠ fixv.ilevel_respa → fixv.post_force_respa vflag ilevel iloop atom = atom) ∧
    (ilevel ≠ fixcr.ilevel_respa → fixcr.post_force_respa vflag ilevel iloop atom fr = fr) ∧
    (ilevel ≠ fixvr.ilevel_respa → fixvr.post_force_respa vflag ilevel iloop atom fr = fr) ∧
    fixc.post_force_respa vflag fixc.ilevel_respa iloop atom = fixc.post_force vflag atom ∧
    fixv.post_force_respa vflag fixv.ilevel_respa iloop atom = fixv.post_force vflag atom ∧
    fixcr.post_force_respa vflag fixcr.ilevel_respa iloop atom fr
      = fixcr.post_force vflag atom fr ∧
    fixvr.post_force_respa vflag fixvr.ilevel_respa iloop atom fr
      = fixvr.post_force vflag atom fr ∧
    (∀ iloop2 : Int,
      fixc.post_force_respa vflag ilevel iloop atom
        = fixc.post_force_respa vflag ilevel iloop2 atom ∧
      fixv.post_force_respa vflag ilevel iloop atom
        = fixv.post_force_respa vflag ilevel iloop2 atom ∧
      fixcr.post_force_respa vflag ilevel iloop atom fr
        = fixcr.post_force_respa vflag ilevel iloop2 atom fr ∧
      fixvr.post_force_respa vflag ilevel iloop atom fr
        = fixvr.post_force_respa vflag ilevel iloop2 atom fr) := by
  unfold FixCundamp.post_force_respa FixViscousSphere.post_force_respa
    FixCundampRigid.post_force_respa FixViscousRigid.post_force_respa
  refine ⟨fun h => if_neg h, fun h => if_neg h, fun h => if_neg h, fun h => if_neg h,
    if_pos rfl, if_pos rfl, if_pos rfl, if_pos rfl, fun _ => ⟨rfl, rfl, rfl, rfl⟩⟩

/-- C9 at a concrete input: the scenario modifiers are bound to level 0 (particle) and level 1
(rigid); a call at level 2 leaves the particle force (5,0,0) and the body force (5,0,3) as
they were, and a call at the bound level gives the damped force (5/2,0,0). -/
theorem C9_level_gating_witness :
    (scenario_cundamp.post_force_respa 0 2 0 scenario_atom).f 0 = ![5, 0, 0] ∧
    ((scenario_viscous_rigid.post_force_respa 0 2 0 scenario_atom3 scenario_registry).body 0).fcm
      = ![5, 0, 3] ∧
    (scenario_cundamp.post_force_respa 0 0 7 scenario_atom).f 0 0 = 5 / 2 := by
  have h := C9_level_gating scenario_cundamp scenario_viscous scenario_cundamp_rigid
    scenario_viscous_rigid 0 2 0 scenario_atom3 scenario_registry
  have h1 := C9_level_gating scenario_cundamp scenario_viscous scenario_cundamp_rigid
    scenario_viscous_rigid 0 2 0 scenario_atom scenario_registry
  have h2 := C9_level_gating scenario_cundamp scenario_viscous scenario_cundamp_rigid
    scenario_viscous_rigid 0 0 7 scenario_atom scenario_registry
  refine ⟨?_, ?_, ?_⟩
  · rw [h1.1 (by decide)]; rfl
  · rw [h.2.2.2.1 (by decide)]; rfl
  · have e : (0 : Int) = scenario_cundamp.ilevel_respa := rfl
    have := h2.2.2.2.2.1
    rw [← e] at this
    rw [this, (cundamp_post_force_in_group scenario_cundamp 0 scenario_atom 0 (by decide)
      (by decide) 0).1]
    norm_num [scenario_atom, scenario_cundamp, spec_sign]

theorem MIN_eq_min (a b : Int) : MIN a b = min a b := by
  unfold MIN
  split_ifs with h
  · exact (min_eq_left (le_of_lt h)).symm
  · exact (min_eq_right (not_lt.mp h)).symm

theorem init_ilevel_respa_multirate (update : Update) (respa_level ilevel_respa : Int)
    (hr : strstr update.integrate_style "respa" = true) :
    init_ilevel_respa update respa_level ilevel_respa
      = (if respa_level < 0 then update.nlevels - 1
         else min respa_level (update.nlevels - 1)) := by
  unfold init_ilevel_respa
  rw [if_pos hr]
  by_cases h : respa_level < 0
  · have : ¬ respa_level ≥ 0 := by omega
    simp only [this, if_false, h, if_true]
  · have : respa_level ≥ 0 := by omega
    simp only [this, if_true, h, if_false, MIN_eq_min]

theorem cundamp_rigid_init_ok_level (fix fix2 : FixCundampRigid) (update : Update)
    (modify : Modify) (w : List String) (h : fix.init update modify = Except.ok (fix2, w)) :
    fix2.ilevel_respa = init_ilevel_respa update fix.respa_level fix.ilevel_respa := by
  unfold FixCundampRigid.init at h
  simp only at h
  split_ifs at h
  all_goals (cases h; rfl)

theorem viscous_rigid_init_ok_level (fix fix2 : FixViscousRigid) (update : Update)
    (modify : Modify) (w : List String) (h : fix.init update modify = Except.ok (fix2, w)) :
    fix2.ilevel_respa = init_ilevel_respa update fix.respa_level fix.ilevel_respa := by
  unfold FixViscousRigid.init at h
  simp only at h
  split_ifs at h
  all_goals (cases h; rfl)

theorem cundamp_rigid_init_completes (fix : FixCundampRigid) (update : Update)
    (modify : Modify) (h1 : 0 ≤ modify.find_fix fix.idrigid)
    (h2 : strstr (modify.fix (modify.find_fix fix.idrigid).toNat).style "rigid/" = true)
    (h3 : strstr (modify.fix (modify.find_fix fix.idrigid).toNat).style "/small" = true) :
    ∃ fix2 w, fix.init update modify = Except.ok (fix2, w) := by
  unfold FixCundampRigid.init
  have h1n : ¬ modify.find_fix fix.idrigid < 0 := not_lt.mpr h1
  simp only [h1n, if_false, h2, h3, Bool.true_eq_false, ne_eq, not_true_eq_false]
  split_ifs <;> exact ⟨_, _, rfl⟩

theorem viscous_rigid_init_completes (fix : FixViscousRigid) (update : Update)
    (modify : Modify) (h1 : 0 ≤ modify.find_fix fix.idrigid)
    (h2 : strstr (modify.fix (modify.find_fix fix.idrigid).toNat).style "rigid/" = true)
    (h3 : strstr (modify.fix (modify.find_fix fix.idrigid).toNat).style "/small" = true) :
    ∃ fix2 w, fix.init update modify = Except.ok (fix2, w) := by
  unfold FixViscousRigid.init
  have h1n : ¬ modify.find_fix fix.idrigid < 0 := not_lt.mpr h1
  simp only [h1n, if_false, h2, h3, Bool.true_eq_false, ne_eq, not_true_eq_false]
  split_ifs <;> exact ⟨_, _, rfl⟩

/-- C10: level resolution at init. When the integrator is multi-rate (its style contains
"respa") with `nlevels >= 1`, the bound level after `init` is the outermost level
`nlevels - 1` if no level was configured (`respa_level < 0`) and `min(respa_level, nlevels-1)`
otherwise, and in both cases it lies in `[0, nlevels-1]`. This holds for `FixCundamp::init`
and `FixViscousSphere::init`, and for every completed `FixCundampRigid::init` and
`FixViscousRigid::init`, which do complete whenever the registry checks pass. -/
theorem C10_level_resolution (fixc : FixCundamp) (fixv : FixViscousSphere)
    (fixcr : FixCundampRigid) (fixvr : FixViscousRigid) (update : Update) (modify : Modify)
    (hr : strstr update.integrate_style "respa" = true) (hn : 1 ≤ update.nlevels) :
    let L : Int → Int := fun respa_level =>
      if respa_level < 0 then update.nlevels - 1 else min respa_level (update.nlevels - 1)
    (fixc.init update).ilevel_respa = L fixc.respa_level ∧
    (fixv.init update).ilevel_respa = L fixv.respa_level ∧
    (∀ fix2 w, fixcr.init update modify = Except.ok (fix2, w) →
      fix2.ilevel_respa = L fixcr.respa_level) ∧
    (∀ fix2 w, fixvr.init update modify = Except.ok (fix2, w) →
      fix2.ilevel_respa = L fixvr.respa_level) ∧
    (0 ≤ modify.find_fix fixcr.idrigid →
      strstr (modify.fix (modify.find_fix fixcr.idrigid).toNat).style "rigid/" = true →
      strstr (modify.fix (modify.find_fix fixcr.idrigid).toNat).style "/small" = true →
      ∃ fix2 w, fixcr.init update modify = Except.ok (fix2, w)) ∧
    (0 ≤ modify.find_fix fixvr.idrigid →
      strstr (modify.fix (modify.find_fix fixvr.idrigid).toNat).style "rigid/" = true →
      strstr (modify.fix (modify.find_fix fixvr.idrigid).toNat).style "/small" = true →
      ∃ fix2 w, fixvr.init update modify = Except.ok (fix2, w)) ∧
    (∀ respa_level : Int, 0 ≤ L respa_level ∧ L respa_level ≤ update.nlevels - 1) := by
  intro L
  refine ⟨init_ilevel_respa_multirate update _ _ hr, init_ilevel_respa_multirate update _ _ hr,
    fun fix2 w h => ?_, fun fix2 w h => ?_,
    cundamp_rigid_init_completes fixcr update modify,
    viscous_rigid_init_completes fixvr update modify, fun r => ?_⟩
  · rw [cundamp_rigid_init_ok_level fixcr fix2 update modify w h]
    exact init_ilevel_respa_multirate update _ _ hr
  · rw [viscous_rigid_init_ok_level fixvr fix2 update modify w h]
    exact init_ilevel_respa_multirate update _ _ hr
  · simp only [L]
    split_ifs with h
    · omega
    · have h0 : 0 ≤ r := not_lt.mp h
      exact ⟨le_min h0 (by omega), min_le_right _ _⟩

/-- C10 at a concrete input: under a three-level multi-rate integrator a modifier with no
configured level is bound to level 2, one configured with level 1 is bound to level 1, one
configured with level 9 is bound to level 2, and the rigid modifier's init completes. -/
theorem C10_level_resolution_witness :
    strstr scenario_update.integrate_style "respa" = true ∧ 1 ≤ scenario_update.nlevels ∧
    (scenario_cundamp.init scenario_update).ilevel_respa = 2 ∧
    (({ scenario_cundamp with respa_level := 1 } : FixCundamp).init scenario_update).ilevel_respa
      = 1 ∧
    (({ scenario_cundamp with respa_level := 9 } : FixCundamp).init scenario_update).ilevel_respa
      = 2 ∧
    (∃ fix2 w, scenario_cundamp_rigid.init scenario_update scenario_modify
      = Except.ok (fix2, w) ∧ fix2.ilevel_respa = 2) := by
  have hr : strstr scenario_update.integrate_style "respa" = true := by decide
  have hn : 1 ≤ scenario_update.nlevels := by decide
  have h := C10_level_resolution scenario_cundamp scenario_viscous scenario_cundamp_rigid
    scenario_viscous_rigid scenario_update scenario_modify hr hn
  have h1 := C10_level_resolution { scenario_cundamp with respa_level := 1 } scenario_viscous
    scenario_cundamp_rigid scenario_viscous_rigid scenario_update scenario_modify hr hn
  have h9 := C10_level_resolution { scenario_cundamp with respa_level := 9 } scenario_viscous
    scenario_cundamp_rigid scenario_viscous_rigid scenario_update scenario_modify hr hn
  refine ⟨hr, hn, h.1.trans (by decide), h1.1.trans (by decide), h9.1.trans (by decide), ?_⟩
  obtain ⟨fix2, w, hok⟩ := h.2.2.2.2.1 (by decide) (by decide) (by decide)
  exact ⟨fix2, w, hok, (h.2.2.1 fix2 w hok).trans (by decide)⟩

/-! ## Constructors: the optional-argument scan -/

theorem scan_parses_shift (numeric : String → Option ℚ) (inumeric : String → Option Int)
    (narg : Nat) (arg : Nat → String) (start : Nat)
    (h : scan_parses numeric inumeric narg arg start) :
    scan_parses numeric inumeric narg arg (start + 3) := by
  intro j hj hs
  have e : start + 3 + 3 * j = start + 3 * (j + 1) := by ring
  rw [e] at hj hs ⊢
  exact h (j + 1) hj hs

theorem scan_bad_shift (inumeric : String → Option Int) (ntypes narg : Nat)
    (arg : Nat → String) (start : Nat)
    (h0 : ¬ scan_position_bad inumeric ntypes narg arg start) :
    (∃ j, start + 3 + 3 * j < narg ∧ scan_position_bad inumeric ntypes narg arg (start + 3 + 3 * j))
      ↔ (∃ j, start + 3 * j < narg ∧ scan_position_bad inumeric ntypes narg arg (start + 3 * j)) := by
  constructor
  · rintro ⟨j, hj, hb⟩
    refine ⟨j + 1, ?_, ?_⟩
    · have e : start + 3 * (j + 1) = start + 3 + 3 * j := by ring
      rw [e]; exact hj
    · have e : start + 3 * (j + 1) = start + 3 + 3 * j := by ring
      rw [e]; exact hb
  · rintro ⟨j, hj, hb⟩
    cases j with
    | zero => exact absurd hb h0
    | succ j =>
      have e : start + 3 * (j + 1) = start + 3 + 3 * j := by ring
      rw [e] at hj hb
      exact ⟨j, hj, hb⟩

theorem cundamp_scale_loop_error_iff (numeric : String → Option ℚ)
    (inumeric : String → Option Int) (ntypes : Nat) (gl1 ga1 : ℚ) (narg : Nat)
    (arg : Nat → String) (iarg : Nat) (gL gA : Nat → ℚ)
    (hp : scan_parses numeric inumeric narg arg iarg) :
    (∃ e, FixCundamp.scale_loop numeric inumeric ntypes gl1 ga1 narg arg iarg gL gA
        = Except.error e)
      ↔ ∃ j, iarg + 3 * j < narg ∧ scan_position_bad inumeric ntypes narg arg (iarg + 3 * j) := by
  induction iarg, gL, gA using FixCundamp.scale_loop.induct numeric inumeric ntypes gl1 ga1
      narg arg with
  | case1 iarg gL gA h1 h2 h3 =>
    rw [FixCundamp.scale_loop]
    simp only [h1, h2, h3, if_true]
    exact ⟨fun _ => ⟨0, h1, Or.inr (Or.inl (by omega))⟩, fun _ => ⟨_, rfl⟩⟩
  | case2 iarg gL gA h1 h2 h3 h4 =>
    exact absurd h4 (hp 0 (by omega) h2).1
  | case3 iarg gL gA h1 h2 h3 itype h4 h5 =>
    exact absurd h5 (hp 0 (by omega) h2).2
  | case4 iarg gL gA h1 h2 h3 itype h4 scale h5 h6 =>
    rw [FixCundamp.scale_loop]
    simp only [h1, h2, h3, h4, h5, h6, if_true, if_false]
    exact ⟨fun _ => ⟨0, h1, Or.inr (Or.inr ⟨itype, h4, h6⟩)⟩, fun _ => ⟨_, rfl⟩⟩
  | case5 iarg gL gA h1 h2 h3 itype h4 scale h5 h6 ih =>
    rw [FixCundamp.scale_loop]
    simp only [h1, h2, h3, h4, h5, h6, if_true, if_false]
    rw [ih (scan_parses_shift numeric inumeric narg arg iarg hp)]
    apply scan_bad_shift
    rintro (hb | hb | ⟨t, ht, hb⟩)
    · exact hb h2
    · omega
    · rw [h4] at ht; cases ht; exact h6 hb
  | case6 iarg gL gA h1 h2 =>
    rw [FixCundamp.scale_loop]
    simp only [h1, h2, if_true, if_false]
    exact ⟨fun _ => ⟨0, h1, Or.inl h2⟩, fun _ => ⟨_, rfl⟩⟩
  | case7 iarg gL gA h1 =>
    rw [FixCundamp.scale_loop]
    simp only [h1, if_false]
    constructor
    · rintro ⟨e, he⟩; cases he
    · rintro ⟨j, hj, _⟩; omega

theorem viscous_sphere_scale_loop_error_iff (numeric : String → Option ℚ)
    (inumeric : String → Option Int) (ntypes : Nat) (g1 : ℚ) (narg : Nat)
    (arg : Nat → String) (iarg : Nat) (g : Nat → ℚ)
    (hp : scan_parses numeric inumeric narg arg iarg) :
    (∃ e, FixViscousSphere.scale_loop numeric inumeric ntypes g1 narg arg iarg g
        = Except.error e)
      ↔ ∃ j, iarg + 3 * j < narg ∧ scan_position_bad inumeric ntypes narg arg (iarg + 3 * j) := by
  induction iarg, g using FixViscousSphere.scale_loop.induct numeric inumeric ntypes g1
      narg arg with
  | case1 iarg g h1 h2 h3 =>
    rw [FixViscousSphere.scale_loop]
    simp only [h1, h2, h3, if_true]
    exact ⟨fun _ => ⟨0, h1, Or.inr (Or.inl (by omega))⟩, fun _ => ⟨_, rfl⟩⟩
  | case2 iarg g h1 h2 h3 h4 =>
    exact absurd h4 (hp 0 (by omega) h2).1
  | case3 iarg g h1 h2 h3 itype h4 h5 =>
    exact absurd h5 (hp 0 (by omega) h2).2
  | case4 iarg g h1 h2 h3 itype h4 scale h5 h6 =>
    rw [FixViscousSphere.scale_loop]
    simp only [h1, h2, h3, h4, h5, h6, if_true, if_false]
    exact ⟨fun _ => ⟨0, h1, Or.inr (Or.inr ⟨itype, h4, h6⟩)⟩, fun _ => ⟨_, rfl⟩⟩
  | case5 iarg g h1 h2 h3 itype h4 scale h5 h6 ih =>
    rw [FixViscousSphere.scale_loop]
    simp only [h1, h2, h3, h4, h5, h6, if_true, if_false]
    rw [ih (scan_parses_shift numeric inumeric narg arg iarg hp)]
    apply scan_bad_shift
    rintro (hb | hb | ⟨t, ht, hb⟩)
    · exact hb h2
    · omega
    · rw [h4] at ht; cases ht; exact h6 hb
  | case6 iarg g h1 h2 =>
    rw [FixViscousSphere.scale_loop]
    simp only [h1, h2, if_true, if_false]
    exact ⟨fun _ => ⟨0, h1, Or.inl h2⟩, fun _ => ⟨_, rfl⟩⟩
  | case7 iarg g h1 =>
    rw [FixViscousSphere.scale_loop]
    simp only [h1, if_false]
    constructor
    · rintro ⟨e, he⟩; cases he
    · rintro ⟨j, hj, _⟩; omega

theorem cundamp_construct_error_iff (numeric : String → Option ℚ)
    (inumeric : String → Option Int) (atom : Atom) (groupbit : Nat) (respa_level : Int)
    (mem_l mem_a : Nat → ℚ) (narg : Nat) (arg : Nat → String)
    (h3 : 5 ≤ narg → numeric (arg 3) ≠ none) (h4 : 5 ≤ narg → numeric (arg 4) ≠ none)
    (hs : scan_parses numeric inumeric narg arg 5) :
    (∃ e, FixCundamp.construct numeric inumeric atom groupbit respa_level mem_l mem_a narg arg
        = Except.error e)
      ↔ (atom.sphere_flag = false ∨ narg < 5 ∨
          ∃ j, 5 + 3 * j < narg ∧ scan_position_bad inumeric atom.ntypes narg arg (5 + 3 * j)) := by
  unfold FixCundamp.construct
  by_cases hsf : atom.sphere_flag = false
  · simp [hsf]
  by_cases hn : narg < 5
  · simp [hsf, hn]
  have hn5 : 5 ≤ narg := not_lt.mp hn
  obtain ⟨gl1, hgl⟩ := Option.ne_none_iff_exists'.mp (h3 hn5)
  obtain ⟨ga1, hga⟩ := Option.ne_none_iff_exists'.mp (h4 hn5)
  have hsf2 : atom.sphere_flag = true := by simpa using hsf
  simp only [hsf2, Bool.true_eq_false, hn, if_false, hgl, hga, false_or]
  refine Iff.trans ?_ (cundamp_scale_loop_error_iff numeric inumeric atom.ntypes gl1 ga1 narg
    arg 5
    (forLoop (fun j (t : (Nat → ℚ) × (Nat → ℚ)) =>
      (Function.update t.1 (j + 1) gl1, Function.update t.2 (j + 1) ga1)) atom.ntypes
      (mem_l, mem_a)).1
    (forLoop (fun j (t : (Nat → ℚ) × (Nat → ℚ)) =>
      (Function.update t.1 (j + 1) gl1, Function.update t.2 (j + 1) ga1)) atom.ntypes
      (mem_l, mem_a)).2 hs)
  split <;> rename_i heq <;> simp [heq]

theorem viscous_sphere_construct_error_iff (numeric : String → Option ℚ)
    (inumeric : String → Option Int) (atom : Atom) (groupbit : Nat) (respa_level : Int)
    (mem : Nat → ℚ) (narg : Nat) (arg : Nat → String)
    (h3 : 4 ≤ narg → numeric (arg 3) ≠ none)
    (hs : scan_parses numeric inumeric narg arg 4) :
    (∃ e, FixViscousSphere.construct numeric inumeric atom groupbit respa_level mem narg arg
        = Except.error e)
      ↔ (atom.sphere_flag = false ∨ narg < 4 ∨
          ∃ j, 4 + 3 * j < narg ∧ scan_position_bad inumeric atom.ntypes narg arg (4 + 3 * j)) := by
  unfold FixViscousSphere.construct
  by_cases hsf : atom.sphere_flag = false
  · simp [hsf]
  by_cases hn : narg < 4
  · simp [hsf, hn]
  have hn4 : 4 ≤ narg := not_lt.mp hn
  obtain ⟨g1, hg⟩ := Option.ne_none_iff_exists'.mp (h3 hn4)
  have hsf2 : atom.sphere_flag = true := by simpa using hsf
  simp only [hsf2, Bool.true_eq_false, hn, if_false, hg, false_or]
  refine Iff.trans ?_ (viscous_sphere_scale_loop_error_iff numeric inumeric atom.ntypes g1 narg
    arg 4 (forLoop (fun j (t : Nat → ℚ) => Function.update t (j + 1) g1) atom.ntypes mem) hs)
  split <;> rename_i heq <;> simp [heq]

theorem except_ok_iff_not_error {α : Type} (x : Except String α) :
    (∃ a, x = Except.ok a) ↔ ¬ ∃ e, x = Except.error e := by
  cases x with
  | error e => simp
  | ok a => simp

/-- C12: configuration errors of the particle-granularity constructors. Assuming numeric
arguments parse, constructing `FixCundamp` fails with a fatal error if and only if
`sphere_flag` is false, or fewer than 5 arguments are given, or at some scan position
(5, 8, 11, ... below `narg`) the argument is not the keyword `scale`, or the keyword is
followed by fewer than two arguments, or its type index `t` has `t <= 0` or `t > ntypes`;
otherwise construction succeeds. `FixViscousSphere` is the same with 4 required arguments and
scan positions 4, 7, 10, ... -/
theorem C12_constructor_errors (numeric : String → Option ℚ) (inumeric : String → Option Int)
    (atom : Atom) (groupbit : Nat) (respa_level : Int) (mem_l mem_a mem : Nat → ℚ)
    (nargc : Nat) (argc : Nat → String) (nargv : Nat) (argv : Nat → String)
    (h3c : 5 ≤ nargc → numeric (argc 3) ≠ none) (h4c : 5 ≤ nargc → numeric (argc 4) ≠ none)
    (hsc : scan_parses numeric inumeric nargc argc 5)
    (h3v : 4 ≤ nargv → numeric (argv 3) ≠ none)
    (hsv : scan_parses numeric inumeric nargv argv 4) :
    ((∃ e, FixCundamp.construct numeric inumeric atom groupbit respa_level mem_l mem_a nargc
        argc = Except.error e)
      ↔ (atom.sphere_flag = false ∨ nargc < 5 ∨
          ∃ j, 5 + 3 * j < nargc ∧
            scan_position_bad inumeric atom.ntypes nargc argc (5 + 3 * j))) ∧
    ((∃ fix, FixCundamp.construct numeric inumeric atom groupbit respa_level mem_l mem_a nargc
        argc = Except.ok fix)
      ↔ ¬ (atom.sphere_flag = false ∨ nargc < 5 ∨
          ∃ j, 5 + 3 * j < nargc ∧
            scan_position_bad inumeric atom.ntypes nargc argc (5 + 3 * j))) ∧
    ((∃ e, FixViscousSphere.construct numeric inumeric atom groupbit respa_level mem nargv
        argv = Except.error e)
      ↔ (atom.sphere_flag = false ∨ nargv < 4 ∨
          ∃ j, 4 + 3 * j < nargv ∧
            scan_position_bad inumeric atom.ntypes nargv argv (4 + 3 * j))) ∧
    ((∃ fix, FixViscousSphere.construct numeric inumeric atom groupbit respa_level mem nargv
        argv = Except.ok fix)
      ↔ ¬ (atom.sphere_flag = false ∨ nargv < 4 ∨
          ∃ j, 4 + 3 * j < nargv ∧
            scan_position_bad inumeric atom.ntypes nargv argv (4 + 3 * j))) := by
  have hc := cundamp_construct_error_iff numeric inumeric atom groupbit respa_level mem_l mem_a
    nargc argc h3c h4c hsc
  have hv := viscous_sphere_construct_error_iff numeric inumeric atom groupbit respa_level mem
    nargv argv h3v hsv
  refine ⟨hc, ?_, hv, ?_⟩
  · rw [except_ok_iff_not_error, hc]
  · rw [except_ok_iff_not_error, hv]

/-- C12 at a concrete input, with three particle types: the command
`fix damp all cundamp 0.5 0.25 scale 2 3 scale 2 5` is accepted; the same command cut after
its ninth argument (a `scale` keyword followed by nothing) is rejected; and
`fix damp all viscous/sphere 0.5 scale 9 2` is rejected because type 9 is out of range. -/
theorem C12_constructor_errors_witness :
    (∃ fix, FixCundamp.construct scenario_numeric scenario_inumeric scenario_atom_types3 1 (-1)
      (fun _ => 0) (fun _ => 0) 11 scenario_arg_cundamp = Except.ok fix) ∧
    (∃ e, FixCundamp.construct scenario_numeric scenario_inumeric scenario_atom_types3 1 (-1)
      (fun _ => 0) (fun _ => 0) 9 scenario_arg_cundamp = Except.error e) ∧
    (∃ e, FixViscousSphere.construct scenario_numeric scenario_inumeric scenario_atom_types3 1
      (-1) (fun _ => 0) 7 scenario_arg_viscous_bad = Except.error e) := by
  have hpc : ∀ n, n ≤ 11 →
      scan_parses scenario_numeric scenario_inumeric n scenario_arg_cundamp 5 := by
    intro n hn j hj _
    have hj2 : j = 0 ∨ j = 1 := by omega
    rcases hj2 with rfl | rfl <;> exact ⟨by decide, by decide⟩
  have hpv : scan_parses scenario_numeric scenario_inumeric 7 scenario_arg_viscous_bad 4 := by
    intro j hj _
    have hj2 : j = 0 := by omega
    subst hj2
    exact ⟨by decide, by decide⟩
  have h11 := C12_constructor_errors scenario_numeric scenario_inumeric scenario_atom_types3 1
    (-1) (fun _ => 0) (fun _ => 0) (fun _ => 0) 11 scenario_arg_cundamp 7
    scenario_arg_viscous_bad (fun _ => by decide) (fun _ => by decide) (hpc 11 (by decide))
    (fun _ => by decide) hpv
  have h9 := C12_constructor_errors scenario_numeric scenario_inumeric scenario_atom_types3 1
    (-1) (fun _ => 0) (fun _ => 0) (fun _ => 0) 9 scenario_arg_cundamp 7
    scenario_arg_viscous_bad (fun _ => by decide) (fun _ => by decide) (hpc 9 (by decide))
    (fun _ => by decide) hpv
  refine ⟨h11.2.1.2 ?_, h9.1.2 ?_, h11.2.2.1.2 ?_⟩
  · rintro (h | h | ⟨j, hj, hb⟩)
    · exact absurd h (by decide)
    · omega
    · have hj2 : j = 0 ∨ j = 1 := by omega
      rcases hj2 with rfl | rfl
      · rcases hb with hb | hb | ⟨t, ht, hb⟩
        · exact hb (by decide)
        · omega
        · have : t = 2 := (Option.some.inj ht).symm
          subst this
          revert hb; decide
      · rcases hb with hb | hb | ⟨t, ht, hb⟩
        · exact hb (by decide)
        · omega
        · have : t = 2 := (Option.some.inj ht).symm
          subst this
          revert hb; decide
  · exact Or.inr (Or.inr ⟨1, by decide, Or.inr (Or.inl (by decide))⟩)
  · exact Or.inr (Or.inr ⟨0, by decide, Or.inr (Or.inr ⟨9, by decide, Or.inr (by decide)⟩)⟩)


/-! ## Body-registry validation and warnings at init -/

theorem find_fix_neg_iff (modify : Modify) (id : String) :
    modify.find_fix id < 0 ↔ ∀ j, j < modify.nfix → (modify.fix j).id ≠ id := by
  unfold Modify.find_fix
  generalize hf : (List.range modify.nfix).find? (fun j => decide ((modify.fix j).id = id)) = o
  cases o with
  | none =>
    rw [List.find?_eq_none] at hf
    simp only [Int.reduceNeg, Int.neg_neg_iff_pos, zero_lt_one, true_iff]
    intro j hj
    simpa using hf j (List.mem_range.mpr hj)
  | some j =>
    have h1 := List.find?_some hf
    have h2 := List.mem_range.mp (List.mem_of_find?_eq_some hf)
    simp only [decide_eq_true_eq] at h1
    show ((j : Int) < 0) ↔ _
    constructor
    · intro hneg
      have : (0 : Int) ≤ (j : Int) := Int.ofNat_nonneg j
      omega
    · intro hall; exact absurd h1 (hall j h2)

theorem find_fix_nonneg_spec (modify : Modify) (id : String) (h : 0 ≤ modify.find_fix id) :
    (modify.find_fix id).toNat < modify.nfix ∧
    (modify.fix (modify.find_fix id).toNat).id = id := by
  unfold Modify.find_fix at h ⊢
  generalize hf : (List.range modify.nfix).find? (fun j => decide ((modify.fix j).id = id)) = o
    at h ⊢
  cases o with
  | none => simp at h
  | some j =>
    have h1 := List.find?_some hf
    have h2 := List.mem_range.mp (List.mem_of_find?_eq_some hf)
    simp only [decide_eq_true_eq] at h1
    simp only [Int.toNat_ofNat]
    exact ⟨h2, h1⟩

theorem cundamp_rigid_init_error_iff (fix : FixCundampRigid) (update : Update)
    (modify : Modify) :
    (∃ e, fix.init update modify = Except.error e) ↔
      (modify.find_fix fix.idrigid < 0 ∨
       strstr (modify.fix (modify.find_fix fix.idrigid).toNat).style "rigid/" = false ∨
       strstr (modify.fix (modify.find_fix fix.idrigid).toNat).style "/small" = false) := by
  unfold FixCundampRigid.init
  by_cases h1 : modify.find_fix fix.idrigid < 0
  · simp [h1]
  by_cases h2 : strstr (modify.fix (modify.find_fix fix.idrigid).toNat).style "rigid/" = false
  · by_cases h3 : strstr (modify.fix (modify.find_fix fix.idrigid).toNat).style "/small" = false
    · simp [h1, h2, h3]
    · simp [h1, h2, h3]
  by_cases h3 : strstr (modify.fix (modify.find_fix fix.idrigid).toNat).style "/small" = false
  · simp [h1, h2, h3]
  · have h2t : strstr (modify.fix (modify.find_fix fix.idrigid).toNat).style "rigid/" = true := by
      simpa using h2
    have h3t : strstr (modify.fix (modify.find_fix fix.idrigid).toNat).style "/small" = true := by
      simpa using h3
    simp [h1, h2t, h3t]

theorem viscous_rigid_init_error_iff (fix : FixViscousRigid) (update : Update)
    (modify : Modify) :
    (∃ e, fix.init update modify = Except.error e) ↔
      (modify.find_fix fix.idrigid < 0 ∨
       strstr (modify.fix (modify.find_fix fix.idrigid).toNat).style "rigid/" = false ∨
       strstr (modify.fix (modify.find_fix fix.idrigid).toNat).style "/small" = false) := by
  unfold FixViscousRigid.init
  by_cases h1 : modify.find_fix fix.idrigid < 0
  · simp [h1]
  by_cases h2 : strstr (modify.fix (modify.find_fix fix.idrigid).toNat).style "rigid/" = false
  · by_cases h3 : strstr (modify.fix (modify.find_fix fix.idrigid).toNat).style "/small" = false
    · simp [h1, h2, h3]
    · simp [h1, h2, h3]
  by_cases h3 : strstr (modify.fix (modify.find_fix fix.idrigid).toNat).style "/small" = false
  · simp [h1, h2, h3]
  · have h2t : strstr (modify.fix (modify.find_fix fix.idrigid).toNat).style "rigid/" = true := by
      simpa using h2
    have h3t : strstr (modify.fix (modify.find_fix fix.idrigid).toNat).style "/small" = true := by
      simpa using h3
    simp [h1, h2t, h3t]


theorem order_loop_eq (modify : Modify) (style msg : String) (n : Nat) :
    forLoop (fun j (w : List String) =>
        if (modify.fix j).style = style then w ++ [msg] else w) n []
      = List.replicate (earlier_same_style modify style n) msg := by
  induction n with
  | zero => rfl
  | succ n ih =>
    simp only [forLoop, ih, earlier_same_style, count_succ]
    by_cases h : (modify.fix n).style = style
    · simp only [h, if_true, decide_True]
      rw [← List.append_replicate_replicate]
      rfl
    · simp only [h, if_false, decide_False, Bool.false_eq_true, add_zero]

theorem take_length (s : String) (n : Nat) : (s.take n).length = min n s.length := by
  show (s.take n).data.length = min n s.data.length
  rw [String.data_take, List.length_take]

theorem efficacy_ne_order (id tail msg : String) (n : Nat) (hn : msg.length < n)
    (ht : msg.length < 4 + tail.length) :
    ("Fix " ++ id ++ tail).take n ≠ msg := by
  intro h
  have hl := congrArg String.length h
  rw [take_length, String.length_append, String.length_append] at hl
  have h4 : ("Fix " : String).length = 4 := by decide
  rw [h4] at hl
  have : min n (4 + id.length + tail.length) = msg.length := hl
  rcases Nat.le_total n (4 + id.length + tail.length) with hle | hle
  · rw [Nat.min_eq_left hle] at this; omega
  · rw [Nat.min_eq_right hle] at this; omega

theorem cundamp_rigid_init_warnings (fix : FixCundampRigid) (update : Update)
    (modify : Modify) (h1 : 0 ≤ modify.find_fix fix.idrigid)
    (h2 : strstr (modify.fix (modify.find_fix fix.idrigid).toNat).style "rigid/" = true)
    (h3 : strstr (modify.fix (modify.find_fix fix.idrigid).toNat).style "/small" = true) :
    ∃ fix2 w, fix.init update modify = Except.ok (fix2, w) ∧
      w.count cundamp_rigid_order_warning
        = earlier_same_style modify "cundamp/rigid" (modify.find_fix fix.idrigid).toNat := by
  unfold FixCundampRigid.init
  have h1n : ¬ modify.find_fix fix.idrigid < 0 := not_lt.mpr h1
  simp only [h1n, if_false, h2, h3, Bool.true_eq_false, ne_eq, not_true_eq_false, order_loop_eq]
  split_ifs
  · refine ⟨_, _, rfl, ?_⟩
    have hne := efficacy_ne_order fix.id
      " alters rigid body forces before fix rigid defines them: useless"
      cundamp_rigid_order_warning 127 (by decide) (by decide)
    unfold cundamp_rigid_order_warning at hne ⊢
    rw [List.count_append, List.count_replicate_self, List.count_singleton]
    simp [hne]
  · refine ⟨_, _, rfl, ?_⟩
    have hne := efficacy_ne_order fix.id
      " rightfully alters rigid body forces after fix rigid. Disregard warnings from fix rigid/small for this fix"
      cundamp_rigid_order_warning 255 (by decide) (by decide)
    unfold cundamp_rigid_order_warning at hne ⊢
    rw [List.count_append, List.count_replicate_self, List.count_singleton]
    simp [hne]

theorem viscous_rigid_init_warnings (fix : FixViscousRigid) (update : Update)
    (modify : Modify) (h1 : 0 ≤ modify.find_fix fix.idrigid)
    (h2 : strstr (modify.fix (modify.find_fix fix.idrigid).toNat).style "rigid/" = true)
    (h3 : strstr (modify.fix (modify.find_fix fix.idrigid).toNat).style "/small" = true) :
    ∃ fix2 w, fix.init update modify = Except.ok (fix2, w) ∧
      w.count viscous_rigid_order_warning
        = earlier_same_style modify "viscous/rigid" (modify.find_fix fix.idrigid).toNat := by
  unfold FixViscousRigid.init
  have h1n : ¬ modify.find_fix fix.idrigid < 0 := not_lt.mpr h1
  simp only [h1n, if_false, h2, h3, Bool.true_eq_false, ne_eq, not_true_eq_false, order_loop_eq]
  split_ifs
  · refine ⟨_, _, rfl, ?_⟩
    have hne := efficacy_ne_order fix.id
      " alters rigid body forces before fix rigid defines them: useless"
      viscous_rigid_order_warning 127 (by decide) (by decide)
    unfold viscous_rigid_order_warning at hne ⊢
    rw [List.count_append, List.count_replicate_self, List.count_singleton]
    simp [hne]
  · refine ⟨_, _, rfl, ?_⟩
    have hne := efficacy_ne_order fix.id
      " rightfully alters rigid body forces after fix rigid. Disregard warnings from fix rigid/small for this fix"
      viscous_rigid_order_warning 255 (by decide) (by decide)
    unfold viscous_rigid_order_warning at hne ⊢
    rw [List.count_append, List.count_replicate_self, List.count_singleton]
    simp [hne]

/-- C13: body-registry validation at init, for `FixCundampRigid::init` and
`FixViscousRigid::init`. Init stops with a fatal error if and only if no modifier of the
modifier list has the configured id, or the modifier found under that id has a style name
that does not contain "rigid/" or does not contain "/small"; in every other case init
completes (with warnings only). The modifier found under the id is an entry of the list and
carries that id. -/
theorem C13_registry_validation (fixc : FixCundampRigid) (fixv : FixViscousRigid)
    (update : Update) (modify : Modify) :
    ((∃ e, fixc.init update modify = Except.error e) ↔
      ((∀ j, j < modify.nfix → (modify.fix j).id ≠ fixc.idrigid) ∨
       strstr (modify.fix (modify.find_fix fixc.idrigid).toNat).style "rigid/" = false ∨
       strstr (modify.fix (modify.find_fix fixc.idrigid).toNat).style "/small" = false)) ∧
    ((∃ fix2 w, fixc.init update modify = Except.ok (fix2, w)) ↔
      ¬ ((∀ j, j < modify.nfix → (modify.fix j).id ≠ fixc.idrigid) ∨
       strstr (modify.fix (modify.find_fix fixc.idrigid).toNat).style "rigid/" = false ∨
       strstr (modify.fix (modify.find_fix fixc.idrigid).toNat).style "/small" = false)) ∧
    ((∃ e, fixv.init update modify = Except.error e) ↔
      ((∀ j, j < modify.nfix → (modify.fix j).id ≠ fixv.idrigid) ∨
       strstr (modify.fix (modify.find_fix fixv.idrigid).toNat).style "rigid/" = false ∨
       strstr (modify.fix (modify.find_fix fixv.idrigid).toNat).style "/small" = false)) ∧
    ((∃ fix2 w, fixv.init update modify = Except.ok (fix2, w)) ↔
      ¬ ((∀ j, j < modify.nfix → (modify.fix j).id ≠ fixv.idrigid) ∨
       strstr (modify.fix (modify.find_fix fixv.idrigid).toNat).style "rigid/" = false ∨
       strstr (modify.fix (modify.find_fix fixv.idrigid).toNat).style "/small" = false)) ∧
    (∀ id : String, (∃ j, j < modify.nfix ∧ (modify.fix j).id = id) →
      (modify.find_fix id).toNat < modify.nfix ∧
      (modify.fix (modify.find_fix id).toNat).id = id) := by
  have hc := cundamp_rigid_init_error_iff fixc update modify
  have hv := viscous_rigid_init_error_iff fixv update modify
  rw [find_fix_neg_iff] at hc hv
  refine ⟨hc, ?_, hv, ?_, fun id hid => ?_⟩
  · rw [← hc, ← except_ok_iff_not_error]
    exact ⟨fun ⟨a, b, h⟩ => ⟨(a, b), h⟩, fun ⟨a, h⟩ => ⟨a.1, a.2, h⟩⟩
  · rw [← hv, ← except_ok_iff_not_error]
    exact ⟨fun ⟨a, b, h⟩ => ⟨(a, b), h⟩, fun ⟨a, h⟩ => ⟨a.1, a.2, h⟩⟩
  · apply find_fix_nonneg_spec
    by_contra hneg
    obtain ⟨j, hj, hjid⟩ := hid
    exact (find_fix_neg_iff modify id).mp (not_le.mp hneg) j hj hjid

/-- C13 at a concrete input: with the registry `rb` of style `rigid/small` in the list, init
of the modifier referring to `rb` completes; referring to the absent id `nope` it fails; and
referring to `d2`, whose style is `cundamp/rigid`, it fails. -/
theorem C13_registry_validation_witness :
    (∃ fix2 w, scenario_cundamp_rigid.init scenario_update scenario_modify
      = Except.ok (fix2, w)) ∧
    (∃ e, ({ scenario_viscous_rigid with idrigid := "nope" } : FixViscousRigid).init
      scenario_update scenario_modify = Except.error e) ∧
    (∃ e, ({ scenario_cundamp_rigid with idrigid := "d2" } : FixCundampRigid).init
      scenario_update scenario_modify3 = Except.error e) := by
  have h := C13_registry_validation scenario_cundamp_rigid
    { scenario_viscous_rigid with idrigid := "nope" } scenario_update scenario_modify
  have h3 := C13_registry_validation { scenario_cundamp_rigid with idrigid := "d2" }
    scenario_viscous_rigid scenario_update scenario_modify3
  refine ⟨h.2.1.2 ?_, h.2.2.1.2 (Or.inl ?_), h3.1.2 (Or.inr (Or.inl (by decide)))⟩
  · rintro (hno | hs | hs)
    · exact hno 0 (by decide) (by decide)
    · exact absurd hs (by decide)
    · exact absurd hs (by decide)
  · intro j hj
    have : j = 0 := by
      have : j < 1 := hj
      omega
    subst this
    decide

/-- C19 (as stated, refuted): with two power-reduction rigid modifiers `d1`, `d2` declared
before the body registry `rb`, init of `d1` passes the fatal checks and reports the ordering
warning twice, not exactly once. -/
theorem C19_ordering_warning_counterexample :
    ∃ fix2 w, ({ scenario_cundamp_rigid with id := "d1" } : FixCundampRigid).init
        scenario_update scenario_modify3 = Except.ok (fix2, w) ∧
      w.count cundamp_rigid_order_warning = 2 ∧ w.count cundamp_rigid_order_warning ≠ 1 := by
  obtain ⟨fix2, w, hok, hc⟩ := cundamp_rigid_init_warnings
    { scenario_cundamp_rigid with id := "d1" } scenario_update scenario_modify3
    (by decide) (by decide) (by decide)
  have h2 : earlier_same_style scenario_modify3 "cundamp/rigid"
      (scenario_modify3.find_fix "rb").toNat = 2 := by decide
  have hc2 : w.count cundamp_rigid_order_warning = 2 := hc.trans h2
  exact ⟨fix2, w, hok, hc2, by rw [hc2]; decide⟩

/-- C19 (amended): ordering warning at init, for `FixCundampRigid::init` and
`FixViscousRigid::init`. An init that passes the fatal checks completes, and reports the
ordering warning once for each modifier of the same style name positioned before the
referenced body registry: the number of reports equals the number of such modifiers, so it is
at least one when there is one (this modifier itself included), and zero when there is
none. -/
theorem C19_ordering_warning_per_modifier (fixc : FixCundampRigid) (fixv : FixViscousRigid)
    (update : Update) (modify : Modify) :
    (0 ≤ modify.find_fix fixc.idrigid →
      strstr (modify.fix (modify.find_fix fixc.idrigid).toNat).style "rigid/" = true →
      strstr (modify.fix (modify.find_fix fixc.idrigid).toNat).style "/small" = true →
      ∃ fix2 w, fixc.init update modify = Except.ok (fix2, w) ∧
        w.count cundamp_rigid_order_warning
          = earlier_same_style modify "cundamp/rigid" (modify.find_fix fixc.idrigid).toNat) ∧
    (0 ≤ modify.find_fix fixv.idrigid →
      strstr (modify.fix (modify.find_fix fixv.idrigid).toNat).style "rigid/" = true →
      strstr (modify.fix (modify.find_fix fixv.idrigid).toNat).style "/small" = true →
      ∃ fix2 w, fixv.init update modify = Except.ok (fix2, w) ∧
        w.count viscous_rigid_order_warning
          = earlier_same_style modify "viscous/rigid" (modify.find_fix fixv.idrigid).toNat) ∧
    (∀ (style : String) (ifix : Nat),
      ((∃ j, j < ifix ∧ (modify.fix j).style = style) →
        1 ≤ earlier_same_style modify style ifix) ∧
      ((∀ j, j < ifix → (modify.fix j).style ≠ style) →
        earlier_same_style modify style ifix = 0)) := by
  refine ⟨cundamp_rigid_init_warnings fixc update modify,
    viscous_rigid_init_warnings fixv update modify, fun style ifix => ⟨?_, ?_⟩⟩
  · rintro ⟨j, hj, hs⟩
    unfold earlier_same_style
    apply List.length_pos_of_mem (a := j)
    rw [List.mem_filter]
    exact ⟨List.mem_range.mpr hj, by simpa using hs⟩
  · intro hno
    unfold earlier_same_style
    rw [List.length_eq_zero, List.filter_eq_nil_iff]
    intro j hj
    simpa using hno j (List.mem_range.mp hj)

/-- C19 (amended) at a concrete input: with only the body registry in the list the ordering
warning is not reported; with `d1` and `d2` declared before the registry it is reported
twice. -/
theorem C19_ordering_warning_per_modifier_witness :
    (∃ fix2 w, scenario_cundamp_rigid.init scenario_update scenario_modify
        = Except.ok (fix2, w) ∧ w.count cundamp_rigid_order_warning = 0) ∧
    (∃ fix2 w, ({ scenario_cundamp_rigid with id := "d1" } : FixCundampRigid).init
        scenario_update scenario_modify3 = Except.ok (fix2, w) ∧
      w.count cundamp_rigid_order_warning = 2) := by
  have h1 := (C19_ordering_warning_per_modifier scenario_cundamp_rigid scenario_viscous_rigid
    scenario_update scenario_modify).1 (by decide) (by decide) (by decide)
  have h3 := (C19_ordering_warning_per_modifier { scenario_cundamp_rigid with id := "d1" }
    scenario_viscous_rigid scenario_update scenario_modify3).1 (by decide) (by decide)
    (by decide)
  obtain ⟨f1, w1, hok1, hc1⟩ := h1
  obtain ⟨f3, w3, hok3, hc3⟩ := h3
  exact ⟨⟨f1, w1, hok1, hc1.trans (by decide)⟩, ⟨f3, w3, hok3, hc3.trans (by decide)⟩⟩

/-! ## Schedule adapter: setup and minimization hooks -/

/-- C14: setup applies damping exactly once, for each of the four modifiers. Under a
single-rate integrator (style containing "verlet") setup has exactly the effect of one
`post_force`; otherwise it performs `copy_flevel_f(L)`, then exactly one `post_force` (the
level gate passes because the level handed to `post_force_respa` is the bound level `L`),
then `copy_f_flevel(L)`, with `L = ilevel_respa`, for every value of `L`. -/
theorem C14_setup_once {R : Type} (fixc : FixCundamp) (fixv : FixViscousSphere)
    (fixcr : FixCundampRigid) (fixvr : FixViscousRigid) (update : Update)
    (copy_flevel_f copy_f_flevel : Int → Atom × R → Atom × R) (vflag : Int)
    (s : Atom × R) (fr : FixRigidSmall) :
    (strstr update.integrate_style "verlet" = true →
      fixc.setup update copy_flevel_f copy_f_flevel vflag s = (fixc.post_force vflag s.1, s.2) ∧
      fixv.setup update copy_flevel_f copy_f_flevel vflag s = (fixv.post_force vflag s.1, s.2) ∧
      fixcr.setup update copy_flevel_f copy_f_flevel vflag s fr
        = (s, fixcr.post_force vflag s.1 fr) ∧
      fixvr.setup update copy_flevel_f copy_f_flevel vflag s fr
        = (s, fixvr.post_force vflag s.1 fr)) ∧
    (strstr update.integrate_style "verlet" = false →
      fixc.setup update copy_flevel_f copy_f_flevel vflag s
        = copy_f_flevel fixc.ilevel_respa
            (fixc.post_force vflag (copy_flevel_f fixc.ilevel_respa s).1,
             (copy_flevel_f fixc.ilevel_respa s).2) ∧
      fixv.setup update copy_flevel_f copy_f_flevel vflag s
        = copy_f_flevel fixv.ilevel_respa
            (fixv.post_force vflag (copy_flevel_f fixv.ilevel_respa s).1,
             (copy_flevel_f fixv.ilevel_respa s).2) ∧
      fixcr.setup update copy_flevel_f copy_f_flevel vflag s fr
        = (copy_f_flevel fixcr.ilevel_respa (copy_flevel_f fixcr.ilevel_respa s),
           fixcr.post_force vflag (copy_flevel_f fixcr.ilevel_respa s).1 fr) ∧
      fixvr.setup update copy_flevel_f copy_f_flevel vflag s fr
        = (copy_f_flevel fixvr.ilevel_respa (copy_flevel_f fixvr.ilevel_respa s),
           fixvr.post_force vflag (copy_flevel_f fixvr.ilevel_respa s).1 fr)) := by
  unfold FixCundamp.setup FixViscousSphere.setup FixCundampRigid.setup FixViscousRigid.setup
    FixCundamp.post_force_respa FixViscousSphere.post_force_respa
    FixCundampRigid.post_force_respa FixViscousRigid.post_force_respa
  constructor
  · intro h
    simp only [h, if_true, and_self]
  · intro h
    simp only [h, Bool.false_eq_true, if_false, if_true, and_self]

/-- C14 at a concrete input: for the end-to-end scenario, setup under `verlet` turns the
force (5,0,0) into (5/2,0,0); under `respa`, with the modifier bound to level 0 and every
level buffer holding (5,0,0), the buffer of level 0 ends as (5/2,0,0) (one application, not
(5/4,0,0) and not (5,0,0)) and the buffer of level 1 is unchanged. -/
theorem C14_setup_once_witness :
    (scenario_cundamp.setup scenario_update_verlet scenario_copy_flevel_f
      scenario_copy_f_flevel 0 (scenario_atom, fun _ _ => ![5, 0, 0])).1.f 0 = ![5 / 2, 0, 0] ∧
    (scenario_cundamp.setup scenario_update scenario_copy_flevel_f
      scenario_copy_f_flevel 0 (scenario_atom, fun _ _ => ![5, 0, 0])).2 0 0 = ![5 / 2, 0, 0] ∧
    (scenario_cundamp.setup scenario_update scenario_copy_flevel_f
      scenario_copy_f_flevel 0 (scenario_atom, fun _ _ => ![5, 0, 0])).2 1 0 = ![5, 0, 0] := by
  have hv := (C14_setup_once scenario_cundamp scenario_viscous scenario_cundamp_rigid
    scenario_viscous_rigid scenario_update_verlet scenario_copy_flevel_f scenario_copy_f_flevel
    0 (scenario_atom, fun _ _ => ![5, 0, 0]) scenario_registry).1 (by decide)
  have hr := (C14_setup_once scenario_cundamp scenario_viscous scenario_cundamp_rigid
    scenario_viscous_rigid scenario_update scenario_copy_flevel_f scenario_copy_f_flevel
    0 (scenario_atom, fun _ _ => ![5, 0, 0]) scenario_registry).2 (by decide)
  have key : ∀ a : Atom, a.nlocal = 1 → a.mask 0 = 1 → a.f 0 = ![5, 0, 0] →
      a.v 0 = ![2, 0, 0] → (scenario_cundamp.post_force 0 a).f 0 = ![5 / 2, 0, 0] := by
    intro a hn hm hf hvv
    funext k
    rw [(cundamp_post_force_in_group scenario_cundamp 0 a 0 (by omega)
      (by rw [hm]; decide) k).1, hf, hvv]
    fin_cases k <;> norm_num [scenario_cundamp, spec_sign]
  refine ⟨?_, ?_, ?_⟩
  · rw [hv.1]
    exact key scenario_atom rfl rfl rfl rfl
  · rw [hr.1]
    have e : scenario_cundamp.ilevel_respa = 0 := rfl
    simp only [e, scenario_copy_f_flevel, scenario_copy_flevel_f, Function.update_same]
    exact key _ rfl rfl rfl rfl
  · rw [hr.1]
    have e : scenario_cundamp.ilevel_respa = 0 := rfl
    simp only [e, scenario_copy_f_flevel, scenario_copy_flevel_f]
    rw [Function.update_noteq (by decide)]

/-- C15: minimization hooks are unconditional. For each of the four modifiers `min_setup`
and `min_post_force` return exactly the state `post_force` returns on the same input, for
every value of the bound level `ilevel_respa` (they consult no level and no integrator). -/
theorem C15_min_hooks_unconditional (fixc : FixCundamp) (fixv : FixViscousSphere)
    (fixcr : FixCundampRigid) (fixvr : FixViscousRigid) (vflag L : Int) (atom : Atom)
    (fr : FixRigidSmall) :
    ({ fixc with ilevel_respa := L } : FixCundamp).min_setup vflag atom
      = fixc.post_force vflag atom ∧
    ({ fixc with ilevel_respa := L } : FixCundamp).min_post_force vflag atom
      = fixc.post_force vflag atom ∧
    ({ fixv with ilevel_respa := L } : FixViscousSphere).min_setup vflag atom
      = fixv.post_force vflag atom ∧
    ({ fixv with ilevel_respa := L } : FixViscousSphere).min_post_force vflag atom
      = fixv.post_force vflag atom ∧
    ({ fixcr with ilevel_respa := L } : FixCundampRigid).min_setup vflag atom fr
      = fixcr.post_force vflag atom fr ∧
    ({ fixcr with ilevel_respa := L } : FixCundampRigid).min_post_force vflag atom fr
      = fixcr.post_force vflag atom fr ∧
    ({ fixvr with ilevel_respa := L } : FixViscousRigid).min_setup vflag atom fr
      = fixvr.post_force vflag atom fr ∧
    ({ fixvr with ilevel_respa := L } : FixViscousRigid).min_post_force vflag atom fr
      = fixvr.post_force vflag atom fr :=
  ⟨rfl, rfl, rfl, rfl, rfl, rfl, rfl, rfl⟩

/-! ## Algebraic properties of the damping laws -/

theorem spec_sign_neg_neg (f v : ℚ) : spec_sign (-f * -v) = spec_sign (f * v) := by
  rw [neg_mul_neg]

theorem spec_sign_of_zero (p : ℚ) (h : p = 0) : spec_sign p = 0 := by
  subst h; simp [spec_sign]

/-- C16: sign symmetry of the power-reduction law. The sign of the power is the same for
`(f, v)` and `(-f, -v)`, so is the scale factor `1 - gamma * sgn(power)`, and the damped
component for `(-f, -v)` is the negation of the damped component for `(f, v)`: for the force
and the torque of an in-group local particle under `FixCundamp::post_force` when the
components on one axis are negated, and for one application of the law to a body in
`FixCundampRigid::post_force`. -/
theorem C16_sign_symmetry (fix : FixCundamp) (vflag : Int) (atom : Atom) (i : Nat)
    (fixr : FixCundampRigid) (body : Body) (k : Fin 3) (gamma f v : ℚ) :
    (boolInt (-f * -v > 0) - boolInt (-f * -v < 0) = boolInt (f * v > 0) - boolInt (f * v < 0)) ∧
    (1 - gamma * ((boolInt (-f * -v > 0) - boolInt (-f * -v < 0) : Int) : ℚ)
      = 1 - gamma * ((boolInt (f * v > 0) - boolInt (f * v < 0) : Int) : ℚ)) ∧
    (-f * (1 - gamma * ((boolInt (-f * -v > 0) - boolInt (-f * -v < 0) : Int) : ℚ))
      = -(f * (1 - gamma * ((boolInt (f * v > 0) - boolInt (f * v < 0) : Int) : ℚ)))) ∧
    (i < atom.nlocal → atom.mask i &&& fix.groupbit ≠ 0 →
      (fix.post_force vflag { atom with
          f := Function.update atom.f i (Function.update (atom.f i) k (-(atom.f i k))),
          v := Function.update atom.v i (Function.update (atom.v i) k (-(atom.v i k))) }).f i k
        = -((fix.post_force vflag atom).f i k) ∧
      (fix.post_force vflag { atom with
          torque := Function.update atom.torque i
            (Function.update (atom.torque i) k (-(atom.torque i k))),
          omega := Function.update atom.omega i
            (Function.update (atom.omega i) k (-(atom.omega i k))) }).torque i k
        = -((fix.post_force vflag atom).torque i k)) ∧
    ((fixr.damp_body { body with
        fcm := Function.update body.fcm k (-(body.fcm k)),
        vcm := Function.update body.vcm k (-(body.vcm k)) }).fcm k
      = -((fixr.damp_body body).fcm k)) ∧
    ((fixr.damp_body { body with
        torque := Function.update body.torque k (-(body.torque k)),
        omega := Function.update body.omega k (-(body.omega k)) }).torque k
      = -((fixr.damp_body body).torque k)) := by
  have e : -f * -v = f * v := neg_mul_neg f v
  refine ⟨by rw [e], by rw [e], by rw [e]; ring, fun hi hg => ⟨?_, ?_⟩, ?_, ?_⟩
  · rw [(cundamp_post_force_in_group fix vflag atom i hi hg k).1,
      (cundamp_post_force_in_group fix vflag { atom with
          f := Function.update atom.f i (Function.update (atom.f i) k (-(atom.f i k))),
          v := Function.update atom.v i (Function.update (atom.v i) k (-(atom.v i k))) }
        i hi hg k).1]
    simp only [Function.update_same, neg_mul_neg]
    ring
  · rw [(cundamp_post_force_in_group fix vflag atom i hi hg k).2,
      (cundamp_post_force_in_group fix vflag { atom with
          torque := Function.update atom.torque i
            (Function.update (atom.torque i) k (-(atom.torque i k))),
          omega := Function.update atom.omega i
            (Function.update (atom.omega i) k (-(atom.omega i k))) }
        i hi hg k).2]
    simp only [Function.update_same, neg_mul_neg]
    ring
  · rw [(cundamp_rigid_damp_body_apply fixr body k).1, (cundamp_rigid_damp_body_apply fixr _ k).1]
    simp only [Function.update_same, neg_mul_neg]
    ring
  · rw [(cundamp_rigid_damp_body_apply fixr body k).2.1,
      (cundamp_rigid_damp_body_apply fixr _ k).2.1]
    simp only [Function.update_same, neg_mul_neg]
    ring

/-- C16 at a concrete input: the scenario particle with force (-5,0,0) and velocity (-2,0,0)
ends with force x component -5/2, the negation of the 5/2 obtained for (5,0,0) and
(2,0,0). -/
theorem C16_sign_symmetry_witness :
    (scenario_cundamp.post_force 0 { scenario_atom with
        f := Function.update scenario_atom.f 0
          (Function.update (scenario_atom.f 0) 0 (-(scenario_atom.f 0 0))),
        v := Function.update scenario_atom.v 0
          (Function.update (scenario_atom.v 0) 0 (-(scenario_atom.v 0 0))) }).f 0 0
      = -(5 / 2) := by
  have h := (C16_sign_symmetry scenario_cundamp 0 scenario_atom 0 scenario_cundamp_rigid
    (scenario_registry.body 0) 0 0 0 0).2.2.2.1 (by decide) (by decide)
  rw [h.1, (cundamp_post_force_in_group scenario_cundamp 0 scenario_atom 0 (by decide)
    (by decide) 0).1]
  norm_num [scenario_atom, scenario_cundamp, spec_sign]

theorem cundamp_rigid_iterate_zero_power (fix : FixCundampRigid) (body : Body) (n : Nat)
    (k : Fin 3) :
    (body.fcm k * body.vcm k = 0 → (fix.damp_body^[n] body).fcm k = body.fcm k) ∧
    (body.torque k * body.omega k = 0 → (fix.damp_body^[n] body).torque k = body.torque k) ∧
    (fix.damp_body^[n] body).vcm = body.vcm ∧ (fix.damp_body^[n] body).omega = body.omega := by
  induction n with
  | zero => simp
  | succ n ih =>
    obtain ⟨h1, h2, h3, h4⟩ := ih
    rw [Function.iterate_succ_apply']
    obtain ⟨a1, a2, a3, a4⟩ := cundamp_rigid_damp_body_apply fix (fix.damp_body^[n] body) k
    refine ⟨fun hz => ?_, fun hz => ?_, a3.trans h3, a4.trans h4⟩
    · rw [a1, h3, h1 hz, spec_sign_of_zero _ hz]; ring
    · rw [a2, h4, h2 hz, spec_sign_of_zero _ hz]; ring

/-- C17: zero-power edge case of the power-reduction law. On any axis where the velocity
component is zero, or the force component is zero, or their product is zero, the force
component is unchanged by the pass for every coefficient; likewise the torque component when
the angular velocity component, the torque component or their product is zero. This holds
for in-group local particles under `FixCundamp::post_force` and for every body under
`FixCundampRigid::post_force`, however many in-group particles map to it. -/
theorem C17_zero_power_unchanged (fix : FixCundamp) (fixr : FixCundampRigid) (vflag : Int)
    (atom : Atom) (fr : FixRigidSmall) (i B : Nat) (k : Fin 3) :
    (i < atom.nlocal → atom.mask i &&& fix.groupbit ≠ 0 →
      (atom.v i k = 0 ∨ atom.f i k = 0 ∨ atom.f i k * atom.v i k = 0) →
      (fix.post_force vflag atom).f i k = atom.f i k) ∧
    (i < atom.nlocal → atom.mask i &&& fix.groupbit ≠ 0 →
      (atom.omega i k = 0 ∨ atom.torque i k = 0 ∨ atom.torque i k * atom.omega i k = 0) →
      (fix.post_force vflag atom).torque i k = atom.torque i k) ∧
    (((fr.body B).vcm k = 0 ∨ (fr.body B).fcm k = 0 ∨ (fr.body B).fcm k * (fr.body B).vcm k = 0) →
      ((fixr.post_force vflag atom fr).body B).fcm k = (fr.body B).fcm k) ∧
    (((fr.body B).omega k = 0 ∨ (fr.body B).torque k = 0
        ∨ (fr.body B).torque k * (fr.body B).omega k = 0) →
      ((fixr.post_force vflag atom fr).body B).torque k = (fr.body B).torque k) := by
  have prod_zero : ∀ a b : ℚ, (b = 0 ∨ a = 0 ∨ a * b = 0) → a * b = 0 := by
    intro a b h
    rcases h with h | h | h
    · rw [h, mul_zero]
    · rw [h, zero_mul]
    · exact h
  refine ⟨fun hi hg hz => ?_, fun hi hg hz => ?_, fun hz => ?_, fun hz => ?_⟩
  · rw [(cundamp_post_force_in_group fix vflag atom i hi hg k).1,
      spec_sign_of_zero _ (prod_zero _ _ hz)]
    ring
  · rw [(cundamp_post_force_in_group fix vflag atom i hi hg k).2,
      spec_sign_of_zero _ (prod_zero _ _ hz)]
    ring
  · rw [(cundamp_rigid_post_force_spec fixr vflag atom fr).2.2.2.2 B]
    exact (cundamp_rigid_iterate_zero_power fixr _ _ k).1 (prod_zero _ _ hz)
  · rw [(cundamp_rigid_post_force_spec fixr vflag atom fr).2.2.2.2 B]
    exact (cundamp_rigid_iterate_zero_power fixr _ _ k).2.1 (prod_zero _ _ hz)

/-- C17 at a concrete input: in the end-to-end scenario the y and z components of force and
velocity are zero and the force keeps y component 0; body 0 of the scenario registry has
vcm y component 0 and keeps fcm y component 0, and torque x component 0 and keeps it. -/
theorem C17_zero_power_unchanged_witness :
    (scenario_cundamp.post_force 0 scenario_atom).f 0 1 = 0 ∧
    ((scenario_cundamp_rigid.post_force 0 scenario_atom3 scenario_registry).body 0).fcm 1 = 0 ∧
    ((scenario_cundamp_rigid.post_force 0 scenario_atom3 scenario_registry).body 0).torque 0
      = 0 := by
  have h := C17_zero_power_unchanged scenario_cundamp scenario_cundamp_rigid 0 scenario_atom
    scenario_registry 0 0 1
  have h3 := C17_zero_power_unchanged scenario_cundamp scenario_cundamp_rigid 0 scenario_atom3
    scenario_registry 0 0 1
  have h0 := C17_zero_power_unchanged scenario_cundamp scenario_cundamp_rigid 0 scenario_atom3
    scenario_registry 0 0 0
  refine ⟨?_, ?_, ?_⟩
  · rw [h.1 (by decide) (by decide) (Or.inl (by norm_num [scenario_atom]))]
    norm_num [scenario_atom]
  · rw [h3.2.2.1 (Or.inl (by norm_num [scenario_registry]))]
    norm_num [scenario_registry]
  · rw [h0.2.2.2 (Or.inr (Or.inl (by norm_num [scenario_registry])))]
    norm_num [scenario_registry]

/-- C18 (as stated, refuted): under a three-level multi-rate integrator, with no level
configured (`respa_level = -1`), `FixCundamp::init` and `FixViscousSphere::init` bind the
modifier to level 2, not to the innermost level 0. -/
theorem C18_level_default_counterexample :
    strstr scenario_update.integrate_style "respa" = true ∧ scenario_cundamp.respa_level < 0 ∧
    (scenario_cundamp.init scenario_update).ilevel_respa = 2 ∧
    (scenario_cundamp.init scenario_update).ilevel_respa ≠ 0 ∧
    (scenario_viscous.init scenario_update).ilevel_respa ≠ 0 := by
  refine ⟨by decide, by decide, by decide, by decide, by decide⟩

/-- C18 (amended): when the integrator is multi-rate and no level was configured
(`respa_level < 0`), init binds the modifier to the outermost level `nlevels - 1`; this is
the innermost level 0 only when the integrator has a single level. -/
theorem C18_level_default_outermost (fixc : FixCundamp) (fixv : FixViscousSphere)
    (update : Update) (hr : strstr update.integrate_style "respa" = true)
    (hc : fixc.respa_level < 0) (hv : fixv.respa_level < 0) :
    (fixc.init update).ilevel_respa = update.nlevels - 1 ∧
    (fixv.init update).ilevel_respa = update.nlevels - 1 ∧
    ((fixc.init update).ilevel_respa = 0 ↔ update.nlevels = 1) ∧
    ((fixv.init update).ilevel_respa = 0 ↔ update.nlevels = 1) := by
  have h1 : (fixc.init update).ilevel_respa = update.nlevels - 1 := by
    show init_ilevel_respa update fixc.respa_level fixc.ilevel_respa = _
    rw [init_ilevel_respa_multirate update _ _ hr, if_pos hc]
  have h2 : (fixv.init update).ilevel_respa = update.nlevels - 1 := by
    show init_ilevel_respa update fixv.respa_level fixv.ilevel_respa = _
    rw [init_ilevel_respa_multirate update _ _ hr, if_pos hv]
  refine ⟨h1, h2, ?_, ?_⟩
  · rw [h1]; omega
  · rw [h2]; omega

/-- C18 (amended) at a concrete input: with three levels and no level configured the bound
level is 2. -/
theorem C18_level_default_outermost_witness :
    (scenario_cundamp.init scenario_update).ilevel_respa = 2 ∧
    (scenario_viscous.init scenario_update).ilevel_respa = 2 := by
  have h := C18_level_default_outermost scenario_cundamp scenario_viscous scenario_update
    (by decide) (by decide) (by decide)
  exact ⟨h.1.trans (by decide), h.2.1.trans (by decide)⟩

theorem dot_self_nonneg (a : Vec3) : 0 ≤ dot a a := by
  unfold dot
  nlinarith [mul_self_nonneg (a 0), mul_self_nonneg (a 1), mul_self_nonneg (a 2)]

theorem spec_sign_mul_pos (p c : ℚ) (hc : 0 < c) : spec_sign (p * c) = spec_sign p := by
  unfold spec_sign
  rcases lt_trichotomy p 0 with h | h | h
  · have h1 : p * c < 0 := mul_neg_of_neg_of_pos h hc
    have h2 : ¬ p * c > 0 := not_lt.mpr (le_of_lt h1)
    have h3 : ¬ p > 0 := not_lt.mpr (le_of_lt h)
    simp [h, h1, h2, h3]
  · subst h; simp
  · have h1 : p * c > 0 := mul_pos h hc
    simp [h, h1]

theorem spec_sign_range (p : ℚ) : spec_sign p = 1 ∨ spec_sign p = -1 ∨ spec_sign p = 0 := by
  unfold spec_sign
  split_ifs
  · exact Or.inl rfl
  · exact Or.inr (Or.inl rfl)
  · exact Or.inr (Or.inr rfl)

theorem compound_scalar (gamma f v : ℚ) (n : Nat) (h0 : 0 ≤ gamma) (h1 : gamma ≤ 1) :
    f * (1 - gamma * spec_sign (f * v)) ^ n
        * (1 - gamma * spec_sign (f * (1 - gamma * spec_sign (f * v)) ^ n * v))
      = f * (1 - gamma * spec_sign (f * v)) ^ (n + 1) := by
  have hc : 0 ≤ 1 - gamma * spec_sign (f * v) := by
    rcases spec_sign_range (f * v) with h | h | h <;> rw [h] <;> linarith
  rcases (pow_nonneg hc n).eq_or_lt with hz | hpos
  · rw [pow_succ, ← hz]; ring
  · have e : f * (1 - gamma * spec_sign (f * v)) ^ n * v
        = f * v * (1 - gamma * spec_sign (f * v)) ^ n := by ring
    rw [e, spec_sign_mul_pos _ _ hpos, pow_succ]
    ring

theorem cundamp_rigid_iterate_closed (fix : FixCundampRigid) (body : Body) (n : Nat)
    (k : Fin 3) :
    (0 ≤ fix.gamma_linear → fix.gamma_linear ≤ 1 →
      (fix.damp_body^[n] body).fcm k
        = body.fcm k * (1 - fix.gamma_linear * spec_sign (body.fcm k * body.vcm k)) ^ n) ∧
    (0 ≤ fix.gamma_angular → fix.gamma_angular ≤ 1 →
      (fix.damp_body^[n] body).torque k
        = body.torque k
            * (1 - fix.gamma_angular * spec_sign (body.torque k * body.omega k)) ^ n) := by
  induction n with
  | zero => simp
  | succ n ih =>
    obtain ⟨h1, h2⟩ := ih
    obtain ⟨_, _, h3, h4⟩ := cundamp_rigid_iterate_zero_power fix body n k
    rw [Function.iterate_succ_apply']
    obtain ⟨a1, a2, _, _⟩ := cundamp_rigid_damp_body_apply fix (fix.damp_body^[n] body) k
    refine ⟨fun g0 g1 => ?_, fun g0 g1 => ?_⟩
    · rw [a1, h3, h1 g0 g1]
      exact compound_scalar _ _ _ n g0 g1
    · rw [a2, h4, h2 g0 g1]
      exact compound_scalar _ _ _ n g0 g1

theorem power_scalar (gamma f v : ℚ) (h0 : 0 ≤ gamma) :
    f * (1 - gamma * spec_sign (f * v)) * v ≤ f * v ∧
    (f * (1 - gamma * spec_sign (f * v)) * v = f * v ↔ (gamma = 0 ∨ f * v = 0)) := by
  rcases lt_trichotomy (f * v) 0 with h | h | h
  · have hs : spec_sign (f * v) = -1 := by
      have : ¬ f * v > 0 := not_lt.mpr (le_of_lt h)
      simp [spec_sign, h, this]
    have e : f * (1 - gamma * spec_sign (f * v)) * v = f * v + gamma * (f * v) := by
      rw [hs]; ring
    rw [e]
    refine ⟨by nlinarith, ?_⟩
    constructor
    · intro heq
      have : gamma * (f * v) = 0 := by linarith
      rcases mul_eq_zero.mp this with hg | hp
      · exact Or.inl hg
      · exact Or.inr hp
    · rintro (hg | hp)
      · rw [hg]; ring
      · rw [hp]; ring
  · have hs : spec_sign (f * v) = 0 := spec_sign_of_zero _ h
    have e : f * (1 - gamma * spec_sign (f * v)) * v = f * v := by rw [hs]; ring
    rw [e]
    exact ⟨le_refl _, ⟨fun _ => Or.inr h, fun _ => rfl⟩⟩
  · have hs : spec_sign (f * v) = 1 := by simp [spec_sign, h]
    have e : f * (1 - gamma * spec_sign (f * v)) * v = f * v - gamma * (f * v) := by
      rw [hs]; ring
    rw [e]
    refine ⟨by nlinarith, ?_⟩
    constructor
    · intro heq
      have : gamma * (f * v) = 0 := by linarith
      rcases mul_eq_zero.mp this with hg | hp
      · exact Or.inl hg
      · exact Or.inr hp
    · rintro (hg | hp)
      · rw [hg]; ring
      · rw [hp]; ring

/-! ## Frame of the rigid-granularity passes -/

/-- C24: frame of the rigid-granularity passes. `FixCundampRigid::post_force` and
`FixViscousRigid::post_force` change nothing but the `fcm` and `torque` fields of bodies: the
particle store (force, torque, velocity, angular velocity, type, mask of every particle) is
the same after the pass, the modifier's `gamma_linear`, `gamma_angular` and bound level are
the same, the `bodyown` mapping and the other members of the registry are the same, and
every body keeps its `vcm` and `omega`. -/
theorem C24_rigid_frame (vflag : Int) (wc : RigidWorld FixCundampRigid)
    (wv : RigidWorld FixViscousRigid) :
    ((FixCundampRigid.post_force_world vflag wc).atom = wc.atom ∧
     (FixCundampRigid.post_force_world vflag wc).fix = wc.fix ∧
     (FixCundampRigid.post_force_world vflag wc).fixrigid.bodyown = wc.fixrigid.bodyown ∧
     (FixCundampRigid.post_force_world vflag wc).fixrigid.id = wc.fixrigid.id ∧
     (FixCundampRigid.post_force_world vflag wc).fixrigid.style = wc.fixrigid.style ∧
     (FixCundampRigid.post_force_world vflag wc).fixrigid.earlyflag = wc.fixrigid.earlyflag ∧
     ∀ B : Nat,
       ((FixCundampRigid.post_force_world vflag wc).fixrigid.body B).vcm
         = (wc.fixrigid.body B).vcm ∧
       ((FixCundampRigid.post_force_world vflag wc).fixrigid.body B).omega
         = (wc.fixrigid.body B).omega) ∧
    ((FixViscousRigid.post_force_world vflag wv).atom = wv.atom ∧
     (FixViscousRigid.post_force_world vflag wv).fix = wv.fix ∧
     (FixViscousRigid.post_force_world vflag wv).fixrigid.bodyown = wv.fixrigid.bodyown ∧
     (FixViscousRigid.post_force_world vflag wv).fixrigid.id = wv.fixrigid.id ∧
     (FixViscousRigid.post_force_world vflag wv).fixrigid.style = wv.fixrigid.style ∧
     (FixViscousRigid.post_force_world vflag wv).fixrigid.earlyflag = wv.fixrigid.earlyflag ∧
     ∀ B : Nat,
       ((FixViscousRigid.post_force_world vflag wv).fixrigid.body B).vcm
         = (wv.fixrigid.body B).vcm ∧
       ((FixViscousRigid.post_force_world vflag wv).fixrigid.body B).omega
         = (wv.fixrigid.body B).omega) := by
  obtain ⟨c1, c2, c3, c4, c5⟩ := cundamp_rigid_post_force_spec wc.fix vflag wc.atom wc.fixrigid
  obtain ⟨v1, v2, v3, v4, v5⟩ := viscous_rigid_post_force_spec wv.fix vflag wv.atom wv.fixrigid
  refine ⟨⟨rfl, rfl, c4, c1, c2, c3, fun B => ?_⟩, ⟨rfl, rfl, v4, v1, v2, v3, fun B => ?_⟩⟩
  · show ((wc.fix.post_force vflag wc.atom wc.fixrigid).body B).vcm = _ ∧
      ((wc.fix.post_force vflag wc.atom wc.fixrigid).body B).omega = _
    rw [c5 B]
    exact (cundamp_rigid_iterate_zero_power wc.fix _ _ 0).2.2
  · show ((wv.fix.post_force vflag wv.atom wv.fixrigid).body B).vcm = _ ∧
      ((wv.fix.post_force vflag wv.atom wv.fixrigid).body B).omega = _
    rw [v5 B]
    exact (viscous_rigid_damp_body_iterate wv.fix _ _ 0).2.2

/-- C24 at a concrete input: after the viscous pass on the scenario, body 0 has a new fcm
(4,0,7/2) while its vcm is still (2,0,-1), particle 0 still maps to body 0, and the particle
forces are still (5,0,3). -/
theorem C24_rigid_frame_witness :
    ((FixViscousRigid.post_force_world 0 scenario_world_viscous).fixrigid.body 0).fcm
      = ![4, 0, 7 / 2] ∧
    ((FixViscousRigid.post_force_world 0 scenario_world_viscous).fixrigid.body 0).vcm
      = ![2, 0, -1] ∧
    (FixViscousRigid.post_force_world 0 scenario_world_viscous).fixrigid.bodyown 0 = 0 ∧
    (FixViscousRigid.post_force_world 0 scenario_world_viscous).atom.f 0 = ![5, 0, 3] := by
  have h := (C24_rigid_frame 0
    { fix := scenario_cundamp_rigid, atom := scenario_atom3, fixrigid := scenario_registry }
    scenario_world_viscous).2
  refine ⟨?_, (h.2.2.2.2.2.2 0).1.trans rfl, (congrFun h.2.2.1 0).trans rfl, ?_⟩
  · show ((scenario_viscous_rigid.post_force 0 scenario_atom3 scenario_registry).body 0).fcm
      = ![4, 0, 7 / 2]
    rw [(viscous_rigid_post_force_spec scenario_viscous_rigid 0 scenario_atom3
      scenario_registry).2.2.2.2 0]
    have hk : group_count scenario_viscous_rigid.groupbit scenario_atom3 scenario_registry 0 = 1 :=
      by decide
    rw [hk]
    funext k
    rw [Function.iterate_one, (viscous_rigid_damp_body_apply scenario_viscous_rigid _ k).1]
    fin_cases k <;> norm_num [scenario_registry, scenario_viscous_rigid]
  · rw [h.1]
    rfl

/-! ## Rounded arithmetic: the exact passes are the rounded passes with `rnd = id` -/

theorem post_force_fl_id (fixc : FixCundamp) (fixv : FixViscousSphere)
    (fixcr : FixCundampRigid) (fixvr : FixViscousRigid) (vflag : Int) (atom : Atom)
    (fr : FixRigidSmall) :
    fixc.post_force_fl id vflag atom = fixc.post_force vflag atom ∧
    fixv.post_force_fl id vflag atom = fixv.post_force vflag atom ∧
    fixcr.post_force_fl id vflag atom fr = fixcr.post_force vflag atom fr ∧
    fixvr.post_force_fl id vflag atom fr = fixvr.post_force vflag atom fr ∧
    fixcr.damp_body_fl id = fixcr.damp_body ∧ fixvr.damp_body_fl id = fixvr.damp_body :=
  ⟨rfl, rfl, rfl, rfl, rfl, rfl⟩

/-! ## Rounding to binary64 -/

theorem rne_floor_le (q : ℚ) : ⌊q⌋ ≤ rne q ∧ rne q ≤ ⌊q⌋ + 1 := by
  unfold rne
  split_ifs <;> constructor <;> omega

theorem rne_intCast (m : ℤ) : rne (m : ℚ) = m := by
  unfold rne
  simp

theorem rne_mono {p q : ℚ} (h : p ≤ q) : rne p ≤ rne q := by
  have hf : ⌊p⌋ ≤ ⌊q⌋ := Int.floor_mono h
  rcases hf.lt_or_eq with hlt | heq
  · have := (rne_floor_le p).2
    have := (rne_floor_le q).1
    omega
  · unfold rne
    rw [← heq]
    have hpq : p - ⌊p⌋ ≤ q - ⌊p⌋ := by linarith
    split_ifs <;> first | omega | (exfalso; linarith)

theorem rne_le_of_le {q : ℚ} {m : ℤ} (h : q ≤ m) : rne q ≤ m := by
  have := rne_mono h
  rwa [rne_intCast] at this

theorem le_rne_of_le {q : ℚ} {m : ℤ} (h : (m : ℚ) ≤ q) : m ≤ rne q := by
  have := rne_mono h
  rwa [rne_intCast] at this

theorem binary64_ulp_pos (x : ℚ) : 0 < binary64_ulp x := by
  unfold binary64_ulp
  positivity

theorem binary64_pos_nonneg {x : ℚ} (h : 0 ≤ x) : 0 ≤ binary64_pos x := by
  unfold binary64_pos
  have hu := binary64_ulp_pos x
  have : (0 : ℤ) ≤ rne (x / binary64_ulp x) := by
    apply le_rne_of_le
    simp only [Int.cast_zero]
    positivity
  have : (0 : ℚ) ≤ (rne (x / binary64_ulp x) : ℚ) := by exact_mod_cast this
  positivity

theorem binary64_pos_zero : binary64_pos 0 = 0 := by
  unfold binary64_pos
  simp [rne]


theorem binary64_exp_mono {x y : ℚ} (hx : 0 < x) (h : x ≤ y) :
    max (Int.log 2 x) (-1022) ≤ max (Int.log 2 y) (-1022) :=
  max_le_max (Int.log_mono_right hx h) (le_refl _)

theorem two_zpow_split (e : ℤ) (k : ℕ) :
    ((2 ^ k : ℤ) : ℚ) * (2 : ℚ) ^ (e - 52) = (2 : ℚ) ^ (e - 52 + k) := by
  rw [zpow_add₀ (by norm_num : (2 : ℚ) ≠ 0), zpow_natCast]
  push_cast
  ring

theorem binary64_pos_le_pow (x : ℚ) :
    binary64_pos x ≤ (2 : ℚ) ^ (max (Int.log 2 x) (-1022) + 1) := by
  unfold binary64_pos binary64_ulp
  set e := max (Int.log 2 x) (-1022) with he
  have hu : (0 : ℚ) < (2 : ℚ) ^ (e - 52) := by positivity
  have hxlt : x < (2 : ℚ) ^ (e + 1) := by
    have h1 : x < ((2 : ℕ) : ℚ) ^ (Int.log 2 x + 1) := Int.lt_zpow_succ_log_self (by norm_num) x
    have h2 : ((2 : ℕ) : ℚ) ^ (Int.log 2 x + 1) ≤ (2 : ℚ) ^ (e + 1) := by
      push_cast
      apply zpow_le_zpow_right₀ (by norm_num)
      have : Int.log 2 x ≤ e := le_max_left _ _
      omega
    exact lt_of_lt_of_le h1 h2
  have hq : x / (2 : ℚ) ^ (e - 52) ≤ ((2 ^ 53 : ℤ) : ℚ) := by
    rw [div_le_iff₀ hu, two_zpow_split]
    have : e - 52 + ((53 : ℕ) : ℤ) = e + 1 := by push_cast; ring
    rw [this]
    exact le_of_lt hxlt
  have hr : rne (x / (2 : ℚ) ^ (e - 52)) ≤ 2 ^ 53 := rne_le_of_le hq
  have hr2 : (rne (x / (2 : ℚ) ^ (e - 52)) : ℚ) ≤ ((2 ^ 53 : ℤ) : ℚ) := by exact_mod_cast hr
  calc (rne (x / (2 : ℚ) ^ (e - 52)) : ℚ) * (2 : ℚ) ^ (e - 52)
      ≤ ((2 ^ 53 : ℤ) : ℚ) * (2 : ℚ) ^ (e - 52) := mul_le_mul_of_nonneg_right hr2 (le_of_lt hu)
    _ = (2 : ℚ) ^ (e + 1) := by
        rw [two_zpow_split]
        congr 1
        push_cast; ring

theorem pow_le_binary64_pos {y : ℚ} (hy : 0 < y) (hn : -1022 ≤ Int.log 2 y) :
    (2 : ℚ) ^ (Int.log 2 y) ≤ binary64_pos y := by
  unfold binary64_pos binary64_ulp
  rw [max_eq_left hn]
  set e := Int.log 2 y with he
  have hu : (0 : ℚ) < (2 : ℚ) ^ (e - 52) := by positivity
  have hle : (2 : ℚ) ^ e ≤ y := by
    have := Int.zpow_log_le_self (b := 2) (r := y) (by norm_num) hy
    simpa using this
  have hq : ((2 ^ 52 : ℤ) : ℚ) ≤ y / (2 : ℚ) ^ (e - 52) := by
    rw [le_div_iff₀ hu, two_zpow_split]
    have : e - 52 + ((52 : ℕ) : ℤ) = e := by push_cast; ring
    rw [this]
    exact hle
  have hr : 2 ^ 52 ≤ rne (y / (2 : ℚ) ^ (e - 52)) := le_rne_of_le hq
  have hr2 : ((2 ^ 52 : ℤ) : ℚ) ≤ (rne (y / (2 : ℚ) ^ (e - 52)) : ℚ) := by exact_mod_cast hr
  calc (2 : ℚ) ^ e = ((2 ^ 52 : ℤ) : ℚ) * (2 : ℚ) ^ (e - 52) := by
        rw [two_zpow_split]
        congr 1
        push_cast; ring
    _ ≤ (rne (y / (2 : ℚ) ^ (e - 52)) : ℚ) * (2 : ℚ) ^ (e - 52) :=
        mul_le_mul_of_nonneg_right hr2 (le_of_lt hu)

theorem binary64_pos_mono {x y : ℚ} (hx : 0 ≤ x) (h : x ≤ y) :
    binary64_pos x ≤ binary64_pos y := by
  rcases hx.eq_or_lt with h0 | hpos
  · rw [← h0, binary64_pos_zero]
    exact binary64_pos_nonneg (le_trans hx h)
  have hy : 0 < y := lt_of_lt_of_le hpos h
  have he := binary64_exp_mono hpos h
  rcases he.lt_or_eq with hlt | heq
  · have hn : -1022 ≤ Int.log 2 y := by
      by_contra hc
      have h1 : max (Int.log 2 y) (-1022) = -1022 := max_eq_right (by omega)
      have h2 : -1022 ≤ max (Int.log 2 x) (-1022) := le_max_right _ _
      omega
    have hey : max (Int.log 2 y) (-1022) = Int.log 2 y := max_eq_left hn
    calc binary64_pos x ≤ (2 : ℚ) ^ (max (Int.log 2 x) (-1022) + 1) := binary64_pos_le_pow x
      _ ≤ (2 : ℚ) ^ (Int.log 2 y) := by
          apply zpow_le_zpow_right₀ (by norm_num)
          omega
      _ ≤ binary64_pos y := pow_le_binary64_pos hy hn
  · unfold binary64_pos binary64_ulp
    rw [← heq]
    have hu : (0 : ℚ) < (2 : ℚ) ^ (max (Int.log 2 x) (-1022) - 52) := by positivity
    apply mul_le_mul_of_nonneg_right _ (le_of_lt hu)
    have : rne (x / (2 : ℚ) ^ (max (Int.log 2 x) (-1022) - 52))
        ≤ rne (y / (2 : ℚ) ^ (max (Int.log 2 x) (-1022) - 52)) :=
      rne_mono (div_le_div_of_nonneg_right h (le_of_lt hu))
    exact_mod_cast this

theorem binary64_zero : binary64 0 = 0 := by
  unfold binary64
  simp [binary64_pos_zero]

theorem binary64_mono : Monotone binary64 := by
  intro x y h
  unfold binary64
  by_cases hx : x < 0
  · by_cases hy : y < 0
    · rw [if_pos hx, if_pos hy]
      have := binary64_pos_mono (x := -y) (y := -x) (by linarith) (by linarith)
      linarith
    · rw [if_pos hx, if_neg hy]
      have h1 := binary64_pos_nonneg (x := -x) (by linarith)
      have h2 := binary64_pos_nonneg (x := y) (not_lt.mp hy)
      linarith
  · have hy : ¬ y < 0 := by
      intro hc; exact hx (lt_of_le_of_lt h hc)
    rw [if_neg hx, if_neg hy]
    exact binary64_pos_mono (not_lt.mp hx) h

theorem binary64_neg (x : ℚ) : binary64 (-x) = -binary64 x := by
  unfold binary64
  rcases lt_trichotomy x 0 with h | h | h
  · have h2 : ¬ -x < 0 := by linarith
    rw [if_pos h, if_neg h2, neg_neg]
  · subst h; simp [binary64_pos_zero]
  · have h2 : -x < 0 := by linarith
    have h3 : ¬ x < 0 := by linarith
    rw [if_pos h2, if_neg h3, neg_neg]


theorem rne_of_near (q : ℚ) (n : ℤ) (h1 : (n : ℚ) - 1 / 2 < q) (h2 : q < n + 1 / 2) :
    rne q = n := by
  have hfl : ⌊q⌋ = n ∨ ⌊q⌋ = n - 1 := by
    have a1 : n - 1 ≤ ⌊q⌋ := by
      rw [Int.le_floor]; push_cast; linarith
    have a2 : ⌊q⌋ < n + 1 := by
      rw [Int.floor_lt]; push_cast; linarith
    omega
  unfold rne
  rcases hfl with h | h
  · rw [h]
    have : q - (n : ℚ) < 1 / 2 := by linarith
    rw [if_pos this]
  · rw [h]
    have e : ((n - 1 : ℤ) : ℚ) = (n : ℚ) - 1 := by push_cast; ring
    have a : ¬ q - ((n - 1 : ℤ) : ℚ) < 1 / 2 := by rw [e]; linarith
    have b : 1 / 2 < q - ((n - 1 : ℤ) : ℚ) := by rw [e]; linarith
    rw [if_neg a, if_pos b]
    ring

theorem rne_tie (n : ℤ) : rne ((n : ℚ) + 1 / 2) = if n % 2 = 0 then n else n + 1 := by
  have hfl : ⌊(n : ℚ) + 1 / 2⌋ = n := by
    rw [Int.floor_eq_iff]; constructor <;> linarith
  unfold rne
  rw [hfl]
  have a : ¬ (n : ℚ) + 1 / 2 - (n : ℚ) < 1 / 2 := by linarith
  have b : ¬ (1 / 2 : ℚ) < (n : ℚ) + 1 / 2 - (n : ℚ) := by linarith
  rw [if_neg a, if_neg b]

/-- Evaluation of the rounding at a positive `x` whose binade `2^e <= x < 2^(e+1)` is
known. -/
theorem binary64_pos_eval (x : ℚ) (e : ℤ) (h1 : (2 : ℚ) ^ e ≤ x) (h2 : x < (2 : ℚ) ^ (e + 1))
    (he : -1022 ≤ e) :
    binary64_pos x = (rne (x / (2 : ℚ) ^ (e - 52)) : ℚ) * (2 : ℚ) ^ (e - 52) := by
  have hx : 0 < x := lt_of_lt_of_le (by positivity) h1
  have hlog : Int.log 2 x = e := by
    have a : e ≤ Int.log 2 x := by
      rw [← Int.zpow_le_iff_le_log (by norm_num) hx]; simpa using h1
    have b : Int.log 2 x < e + 1 := by
      rw [← Int.lt_zpow_iff_log_lt (by norm_num) hx]; simpa using h2
    omega
  unfold binary64_pos binary64_ulp
  rw [hlog, max_eq_left he]

/-- A number with at most 53 significant bits and exponent at least -1022 is its own
rounding. -/
theorem binary64_pos_repr (m e : ℤ) (h1 : 2 ^ 52 ≤ m) (h2 : m < 2 ^ 53) (he : -1022 ≤ e) :
    binary64_pos ((m : ℚ) * (2 : ℚ) ^ (e - 52)) = (m : ℚ) * (2 : ℚ) ^ (e - 52) := by
  have hu : (0 : ℚ) < (2 : ℚ) ^ (e - 52) := by positivity
  have c1 : ((2 ^ 52 : ℤ) : ℚ) ≤ (m : ℚ) := by exact_mod_cast h1
  have c2 : (m : ℚ) < ((2 ^ 53 : ℤ) : ℚ) := by exact_mod_cast h2
  have b1 : (2 : ℚ) ^ e ≤ (m : ℚ) * (2 : ℚ) ^ (e - 52) := by
    have : (2 : ℚ) ^ e = ((2 ^ 52 : ℤ) : ℚ) * (2 : ℚ) ^ (e - 52) := by
      rw [two_zpow_split]; congr 1; push_cast; ring
    rw [this]
    exact mul_le_mul_of_nonneg_right c1 (le_of_lt hu)
  have b2 : (m : ℚ) * (2 : ℚ) ^ (e - 52) < (2 : ℚ) ^ (e + 1) := by
    have : (2 : ℚ) ^ (e + 1) = ((2 ^ 53 : ℤ) : ℚ) * (2 : ℚ) ^ (e - 52) := by
      rw [two_zpow_split]; congr 1; push_cast; ring
    rw [this]
    exact mul_lt_mul_of_pos_right c2 hu
  rw [binary64_pos_eval _ e b1 b2 he, mul_div_assoc, div_self (ne_of_gt hu), mul_one,
    rne_intCast]

theorem binary64_of_nonneg {x : ℚ} (h : 0 ≤ x) : binary64 x = binary64_pos x := by
  unfold binary64
  rw [if_neg (not_lt.mpr h)]

theorem binary64_one : binary64 1 = 1 := by
  rw [binary64_of_nonneg (by norm_num)]
  have := binary64_pos_repr (2 ^ 52) 0 (le_refl _) (by norm_num) (by norm_num)
  norm_num at this
  exact this

theorem binary64_pos_near (x : ℚ) (e n : ℤ) (h1 : (2 : ℚ) ^ e ≤ x)
    (h2 : x < (2 : ℚ) ^ (e + 1)) (he : -1022 ≤ e)
    (n1 : (n : ℚ) - 1 / 2 < x / (2 : ℚ) ^ (e - 52))
    (n2 : x / (2 : ℚ) ^ (e - 52) < n + 1 / 2) :
    binary64_pos x = (n : ℚ) * (2 : ℚ) ^ (e - 52) := by
  rw [binary64_pos_eval x e h1 h2 he, rne_of_near _ n n1 n2]

theorem binary64_pos_tie (x : ℚ) (e n : ℤ) (h1 : (2 : ℚ) ^ e ≤ x)
    (h2 : x < (2 : ℚ) ^ (e + 1)) (he : -1022 ≤ e)
    (ht : x / (2 : ℚ) ^ (e - 52) = n + 1 / 2) :
    binary64_pos x = ((if n % 2 = 0 then n else n + 1 : ℤ) : ℚ) * (2 : ℚ) ^ (e - 52) := by
  rw [binary64_pos_eval x e h1 h2 he, ht, rne_tie]

/-! ## Loop lemma for particle-granularity passes of any per-particle update -/

theorem particle_forLoop (F T : Vec3 → Vec3 → Nat → Vec3) (groupbit : Nat)
    (step : Nat → Atom → Atom)
    (hstep : ∀ i a, step i a =
      if a.mask i &&& groupbit ≠ 0 then
        { a with f := Function.update a.f i (F (a.f i) (a.v i) (a.type i)),
                 torque := Function.update a.torque i (T (a.torque i) (a.omega i) (a.type i)) }
      else a)
    (n : Nat) (atom : Atom) :
    (forLoop step n atom).nlocal = atom.nlocal ∧
    (forLoop step n atom).ntypes = atom.ntypes ∧
    (forLoop step n atom).sphere_flag = atom.sphere_flag ∧
    (forLoop step n atom).mask = atom.mask ∧
    (forLoop step n atom).type = atom.type ∧
    (forLoop step n atom).v = atom.v ∧
    (forLoop step n atom).omega = atom.omega ∧
    ∀ j, (forLoop step n atom).f j
          = (if j < n ∧ atom.mask j &&& groupbit ≠ 0
             then F (atom.f j) (atom.v j) (atom.type j) else atom.f j) ∧
         (forLoop step n atom).torque j
          = (if j < n ∧ atom.mask j &&& groupbit ≠ 0
             then T (atom.torque j) (atom.omega j) (atom.type j) else atom.torque j) := by
  induction n with
  | zero => simp [forLoop]
  | succ n ih =>
    obtain ⟨h1, h2, h3, hm, ht, hv, ho, hft⟩ := ih
    simp only [forLoop]
    rw [hstep]
    generalize forLoop step n atom = S at h1 h2 h3 hm ht hv ho hft
    have hfn := (hft n).1
    have htn := (hft n).2
    simp only [lt_irrefl, false_and, if_false] at hfn htn
    by_cases hg : atom.mask n &&& groupbit ≠ 0
    · have hgS : S.mask n &&& groupbit ≠ 0 := by rw [hm]; exact hg
      rw [if_pos hgS]
      refine ⟨h1, h2, h3, hm, ht, hv, ho, fun j => ?_⟩
      by_cases hj : j = n
      · subst hj
        simp only [Function.update_same, Nat.lt_succ_self, hg, ne_eq, not_false_eq_true,
          and_self, if_true, hfn, htn, hv, ho, ht]
      · have hjn : (j < n + 1) ↔ (j < n) := by omega
        simp only [Function.update_noteq hj, hjn]
        exact hft j
    · have hgS : ¬ S.mask n &&& groupbit ≠ 0 := by rw [hm]; exact hg
      rw [if_neg hgS]
      refine ⟨h1, h2, h3, hm, ht, hv, ho, fun j => ?_⟩
      by_cases hj : j = n
      · subst hj
        have a : ¬ (j < j + 1 ∧ atom.mask j &&& groupbit ≠ 0) := fun h => hg h.2
        rw [if_neg a, if_neg a]
        exact ⟨hfn, htn⟩
      · have hjn : (j < n + 1) ↔ (j < n) := by omega
        simp only [hjn]
        exact hft j

/-! ## Rounded rigid-granularity passes -/

theorem cundamp_rigid_post_force_fl_spec (rnd : ℚ → ℚ) (fix : FixCundampRigid) (vflag : Int)
    (atom : Atom) (fr : FixRigidSmall) :
    (fix.post_force_fl rnd vflag atom fr).id = fr.id ∧
    (fix.post_force_fl rnd vflag atom fr).style = fr.style ∧
    (fix.post_force_fl rnd vflag atom fr).earlyflag = fr.earlyflag ∧
    (fix.post_force_fl rnd vflag atom fr).bodyown = fr.bodyown ∧
    ∀ B : Nat, (fix.post_force_fl rnd vflag atom fr).body B
      = (fix.damp_body_fl rnd)^[group_count fix.groupbit atom fr B] (fr.body B) :=
  rigid_forLoop (fix.damp_body_fl rnd) fix.groupbit atom (fix.post_force_body_fl rnd atom)
    (fun _ _ => rfl) atom.nlocal fr

theorem viscous_rigid_post_force_fl_spec (rnd : ℚ → ℚ) (fix : FixViscousRigid) (vflag : Int)
    (atom : Atom) (fr : FixRigidSmall) :
    (fix.post_force_fl rnd vflag atom fr).id = fr.id ∧
    (fix.post_force_fl rnd vflag atom fr).style = fr.style ∧
    (fix.post_force_fl rnd vflag atom fr).earlyflag = fr.earlyflag ∧
    (fix.post_force_fl rnd vflag atom fr).bodyown = fr.bodyown ∧
    ∀ B : Nat, (fix.post_force_fl rnd vflag atom fr).body B
      = (fix.damp_body_fl rnd)^[group_count fix.groupbit atom fr B] (fr.body B) :=
  rigid_forLoop (fix.damp_body_fl rnd) fix.groupbit atom (fix.post_force_body_fl rnd atom)
    (fun _ _ => rfl) atom.nlocal fr

/-- Componentwise form of one rounded application of the viscous law to a body. -/
theorem viscous_rigid_damp_body_fl_apply (rnd : ℚ → ℚ) (fix : FixViscousRigid) (body : Body)
    (k : Fin 3) :
    (fix.damp_body_fl rnd body).fcm k = rnd (body.fcm k - rnd (fix.gamma_linear * body.vcm k)) ∧
    (fix.damp_body_fl rnd body).torque k
      = rnd (body.torque k - rnd (fix.gamma_angular * body.omega k)) ∧
    (fix.damp_body_fl rnd body).vcm = body.vcm ∧
    (fix.damp_body_fl rnd body).omega = body.omega := by
  unfold FixViscousRigid.damp_body_fl
  fin_cases k <;> simp

/-- Componentwise form of one rounded application of the power-reduction law to a body. -/
theorem cundamp_rigid_damp_body_fl_apply (rnd : ℚ → ℚ) (fix : FixCundampRigid) (body : Body)
    (k : Fin 3) :
    (fix.damp_body_fl rnd body).fcm k
      = rnd (body.fcm k
          * rnd (1 - rnd (fix.gamma_linear * spec_sign (rnd (body.fcm k * body.vcm k))))) ∧
    (fix.damp_body_fl rnd body).torque k
      = rnd (body.torque k
          * rnd (1 - rnd (fix.gamma_angular
              * spec_sign (rnd (body.torque k * body.omega k))))) ∧
    (fix.damp_body_fl rnd body).vcm = body.vcm ∧
    (fix.damp_body_fl rnd body).omega = body.omega := by
  unfold FixCundampRigid.damp_body_fl
  simp only [← boolInt_sub_cast]
  fin_cases k <;> simp

/-- One rounded viscous application with coefficients 1 leaves `scenario_body_large` as it
is: `10^16 - 1` rounds back to `10^16` and `1 - 2^(-60)` rounds back to 1. -/
theorem viscous_rigid_absorb_step :
    scenario_viscous_rigid_unit.damp_body_fl binary64 scenario_body_large
      = scenario_body_large := by
  have e1 : binary64 ((10 : ℚ) ^ 16 - 1) = 10 ^ 16 := by
    rw [binary64_of_nonneg (by norm_num)]
    have := binary64_pos_tie (10 ^ 16 - 1) 53 (5 * 10 ^ 15 - 1) (by norm_num) (by norm_num)
      (by norm_num) (by norm_num)
    rw [this]
    norm_num
  have e2 : binary64 ((1 : ℚ) - 1 / 2 ^ 60) = 1 := by
    rw [binary64_of_nonneg (by norm_num)]
    have := binary64_pos_near (1 - 1 / 2 ^ 60) (-1) (2 ^ 53) (by norm_num) (by norm_num)
      (by norm_num) (by norm_num) (by norm_num)
    rw [this]
    norm_num
  have e3 : binary64 ((1 : ℚ) / 2 ^ 60) = 1 / 2 ^ 60 := by
    rw [binary64_of_nonneg (by norm_num)]
    have := binary64_pos_repr (2 ^ 52) (-60) (le_refl _) (by norm_num) (by norm_num)
    norm_num at this
    norm_num
    exact this
  unfold FixViscousRigid.damp_body_fl scenario_viscous_rigid_unit scenario_body_large
  simp only [Matrix.cons_val_zero, Matrix.cons_val_one, Matrix.head_cons, Matrix.cons_val_two,
    Matrix.tail_cons, mul_zero, mul_one, one_mul, sub_zero, binary64_zero, binary64_one, e1, e2,
    e3]

/-! ## Rounded particle-granularity passes -/

theorem cundamp_post_force_fl_spec (rnd : ℚ → ℚ) (fix : FixCundamp) (vflag : Int)
    (atom : Atom) :
    (fix.post_force_fl rnd vflag atom).v = atom.v ∧
    (fix.post_force_fl rnd vflag atom).omega = atom.omega ∧
    ∀ i, i < atom.nlocal → atom.mask i &&& fix.groupbit ≠ 0 → ∀ k : Fin 3,
      (fix.post_force_fl rnd vflag atom).f i k
        = rnd (atom.f i k * rnd (1 - rnd (fix.gamma_linear (atom.type i)
            * spec_sign (rnd (atom.f i k * atom.v i k))))) ∧
      (fix.post_force_fl rnd vflag atom).torque i k
        = rnd (atom.torque i k * rnd (1 - rnd (fix.gamma_angular (atom.type i)
            * spec_sign (rnd (atom.torque i k * atom.omega i k))))) := by
  have h := particle_forLoop
    (fun f v t => ![
      rnd (f 0 * rnd (1 - rnd (fix.gamma_linear t
        * ((boolInt (rnd (f 0 * v 0) > 0) - boolInt (rnd (f 0 * v 0) < 0) : Int) : ℚ)))),
      rnd (f 1 * rnd (1 - rnd (fix.gamma_linear t
        * ((boolInt (rnd (f 1 * v 1) > 0) - boolInt (rnd (f 1 * v 1) < 0) : Int) : ℚ)))),
      rnd (f 2 * rnd (1 - rnd (fix.gamma_linear t
        * ((boolInt (rnd (f 2 * v 2) > 0) - boolInt (rnd (f 2 * v 2) < 0) : Int) : ℚ))))])
    (fun f v t => ![
      rnd (f 0 * rnd (1 - rnd (fix.gamma_angular t
        * ((boolInt (rnd (f 0 * v 0) > 0) - boolInt (rnd (f 0 * v 0) < 0) : Int) : ℚ)))),
      rnd (f 1 * rnd (1 - rnd (fix.gamma_angular t
        * ((boolInt (rnd (f 1 * v 1) > 0) - boolInt (rnd (f 1 * v 1) < 0) : Int) : ℚ)))),
      rnd (f 2 * rnd (1 - rnd (fix.gamma_angular t
        * ((boolInt (rnd (f 2 * v 2) > 0) - boolInt (rnd (f 2 * v 2) < 0) : Int) : ℚ))))])
    fix.groupbit (fix.post_force_body_fl rnd) (fun _ _ => rfl) atom.nlocal atom
  obtain ⟨_, _, _, _, _, hv, ho, hft⟩ := h
  refine ⟨hv, ho, fun i hi hg k => ?_⟩
  obtain ⟨hf, ht⟩ := hft i
  rw [if_pos ⟨hi, hg⟩] at hf ht
  unfold FixCundamp.post_force_fl
  rw [hf, ht]
  simp only [boolInt_sub_cast]
  fin_cases k <;> simp

theorem rnd_nonneg {rnd : ℚ → ℚ} (hm : Monotone rnd) (h0 : rnd 0 = 0) {x : ℚ} (h : 0 ≤ x) :
    0 ≤ rnd x := by
  have := hm h
  rwa [h0] at this

theorem rnd_nonpos {rnd : ℚ → ℚ} (hm : Monotone rnd) (h0 : rnd 0 = 0) {x : ℚ} (h : x ≤ 0) :
    rnd x ≤ 0 := by
  have := hm h
  rwa [h0] at this

theorem pos_of_rnd_pos {rnd : ℚ → ℚ} (hm : Monotone rnd) (h0 : rnd 0 = 0) {x : ℚ}
    (h : 0 < rnd x) : 0 < x := by
  by_contra hc
  have := rnd_nonpos hm h0 (not_lt.mp hc)
  linarith

theorem neg_of_rnd_neg {rnd : ℚ → ℚ} (hm : Monotone rnd) (h0 : rnd 0 = 0) {x : ℚ}
    (h : rnd x < 0) : x < 0 := by
  by_contra hc
  have := rnd_nonneg hm h0 (not_lt.mp hc)
  linarith

theorem cundamp_power_le_fl {rnd : ℚ → ℚ} (hm : Monotone rnd) (h0 : rnd 0 = 0)
    (h1 : rnd 1 = 1) (gamma f v : ℚ) (hg : 0 ≤ gamma) (hf : rnd f = f) :
    rnd (f * rnd (1 - rnd (gamma * spec_sign (rnd (f * v))))) * v ≤ f * v ∧
    ((gamma = 0 ∨ f * v = 0) →
      rnd (f * rnd (1 - rnd (gamma * spec_sign (rnd (f * v))))) * v = f * v) := by
  have hzero : ∀ s : ℚ, gamma * s = 0 → rnd (f * rnd (1 - rnd (gamma * s))) = f := by
    intro s hs
    rw [hs, h0, sub_zero, h1, mul_one, hf]
  constructor
  · rcases lt_trichotomy (rnd (f * v)) 0 with hp | hp | hp
    · have hs : spec_sign (rnd (f * v)) = -1 := by
        have : ¬ rnd (f * v) > 0 := not_lt.mpr (le_of_lt hp)
        simp [spec_sign, hp, this]
      have hneg : f * v < 0 := neg_of_rnd_neg hm h0 hp
      rw [hs]
      have a : rnd (gamma * -1) ≤ 0 := rnd_nonpos hm h0 (by linarith)
      have c : 1 ≤ rnd (1 - rnd (gamma * -1)) := by
        have := hm (show (1 : ℚ) ≤ 1 - rnd (gamma * -1) by linarith)
        rwa [h1] at this
      rcases lt_trichotomy v 0 with hv | hv | hv
      · have hfp : 0 < f := by
          by_contra hc
          have : 0 ≤ f * v := mul_nonneg_of_nonpos_of_nonpos (not_lt.mp hc) (le_of_lt hv)
          linarith
        have b : f ≤ rnd (f * rnd (1 - rnd (gamma * -1))) := by
          have := hm (show f ≤ f * rnd (1 - rnd (gamma * -1)) by nlinarith)
          rwa [hf] at this
        exact mul_le_mul_of_nonpos_right b (le_of_lt hv)
      · rw [hv, mul_zero] at hneg; exact absurd hneg (lt_irrefl _)
      · have hfn : f < 0 := by
          by_contra hc
          have : 0 ≤ f * v := mul_nonneg (not_lt.mp hc) (le_of_lt hv)
          linarith
        have b : rnd (f * rnd (1 - rnd (gamma * -1))) ≤ f := by
          have := hm (show f * rnd (1 - rnd (gamma * -1)) ≤ f by nlinarith)
          rwa [hf] at this
        exact mul_le_mul_of_nonneg_right b (le_of_lt hv)
    · have hs : spec_sign (rnd (f * v)) = 0 := spec_sign_of_zero _ hp
      rw [hs, hzero 0 (mul_zero _)]
    · have hs : spec_sign (rnd (f * v)) = 1 := by simp [spec_sign, hp]
      have hpos : 0 < f * v := pos_of_rnd_pos hm h0 hp
      rw [hs]
      have a : 0 ≤ rnd (gamma * 1) := rnd_nonneg hm h0 (by linarith)
      have c : rnd (1 - rnd (gamma * 1)) ≤ 1 := by
        have := hm (show (1 : ℚ) - rnd (gamma * 1) ≤ 1 by linarith)
        rwa [h1] at this
      rcases lt_trichotomy v 0 with hv | hv | hv
      · have hfn : f < 0 := by
          by_contra hc
          have : f * v ≤ 0 := mul_nonpos_of_nonneg_of_nonpos (not_lt.mp hc) (le_of_lt hv)
          linarith
        have b : f ≤ rnd (f * rnd (1 - rnd (gamma * 1))) := by
          have := hm (show f ≤ f * rnd (1 - rnd (gamma * 1)) by nlinarith)
          rwa [hf] at this
        exact mul_le_mul_of_nonpos_right b (le_of_lt hv)
      · rw [hv, mul_zero] at hpos; exact absurd hpos (lt_irrefl _)
      · have hfp : 0 < f := by
          by_contra hc
          have : f * v ≤ 0 := mul_nonpos_of_nonpos_of_nonneg (not_lt.mp hc) (le_of_lt hv)
          linarith
        have b : rnd (f * rnd (1 - rnd (gamma * 1))) ≤ f := by
          have := hm (show f * rnd (1 - rnd (gamma * 1)) ≤ f by nlinarith)
          rwa [hf] at this
        exact mul_le_mul_of_nonneg_right b (le_of_lt hv)
  · rintro (hz | hz)
    · rw [hzero _ (by rw [hz, zero_mul])]
    · rw [hz, h0, spec_sign_of_zero _ rfl, hzero 0 (mul_zero _)]
      exact hz

theorem cundamp_factor_nonneg {rnd : ℚ → ℚ} (hm : Monotone rnd) (h0 : rnd 0 = 0)
    (h1 : rnd 1 = 1) (gamma p : ℚ) (hg0 : 0 ≤ gamma) (hg1 : gamma ≤ 1) :
    0 ≤ rnd (1 - rnd (gamma * spec_sign p)) := by
  have hle : gamma * spec_sign p ≤ 1 := by
    rcases spec_sign_range p with h | h | h <;> rw [h] <;> linarith
  have a : rnd (gamma * spec_sign p) ≤ 1 := by
    have := hm hle
    rwa [h1] at this
  exact rnd_nonneg hm h0 (by linarith)

/-- A number `n * 2^e` with `n < 2^53` and `e >= -1074` is a binary64 number: rounding
leaves it as it is. -/
theorem binary64_pos_dyadic (n : ℕ) (e : ℤ) (hn : n < 2 ^ 53) (he : -1074 ≤ e) :
    binary64_pos ((n : ℚ) * (2 : ℚ) ^ e) = (n : ℚ) * (2 : ℚ) ^ e := by
  rcases Nat.eq_zero_or_pos n with h0 | hpos
  · subst h0
    simp [binary64_pos_zero]
  have hx : (0 : ℚ) < (n : ℚ) * (2 : ℚ) ^ e := by positivity
  have hlt : (n : ℚ) * (2 : ℚ) ^ e < ((2 : ℕ) : ℚ) ^ (53 + e) := by
    have h2 : ((2 : ℕ) : ℚ) ^ (53 + e) = (2 : ℚ) ^ (53 : ℕ) * (2 : ℚ) ^ e := by
      push_cast
      rw [zpow_add₀ (by norm_num : (2 : ℚ) ≠ 0)]
      norm_num
    rw [h2]
    apply mul_lt_mul_of_pos_right _ (by positivity)
    exact_mod_cast hn
  have hlog : Int.log 2 ((n : ℚ) * (2 : ℚ) ^ e) < 53 + e :=
    (Int.lt_zpow_iff_log_lt (by norm_num) hx).mp hlt
  have hu : max (Int.log 2 ((n : ℚ) * (2 : ℚ) ^ e)) (-1022) - 52 ≤ e := by
    rcases max_cases (Int.log 2 ((n : ℚ) * (2 : ℚ) ^ e)) (-1022) with ⟨h, _⟩ | ⟨h, _⟩ <;>
      rw [h] <;> omega
  unfold binary64_pos binary64_ulp
  set u := max (Int.log 2 ((n : ℚ) * (2 : ℚ) ^ e)) (-1022) - 52 with hudef
  obtain ⟨d, hd⟩ : ∃ d : ℕ, e = u + d := ⟨(e - u).toNat, by omega⟩
  have hq : (n : ℚ) * (2 : ℚ) ^ e / (2 : ℚ) ^ u = (((n : ℤ) * 2 ^ d : ℤ) : ℚ) := by
    rw [hd, zpow_add₀ (by norm_num : (2 : ℚ) ≠ 0), zpow_natCast]
    have : (2 : ℚ) ^ u ≠ 0 := by positivity
    field_simp
    ring
  rw [hq, rne_intCast]
  conv_rhs => rw [hd, zpow_add₀ (by norm_num : (2 : ℚ) ≠ 0), zpow_natCast]
  push_cast
  ring

theorem binary64_dyadic (z : ℤ) (e : ℤ) (h1 : -2 ^ 53 < z) (h2 : z < 2 ^ 53)
    (he : -1074 ≤ e) :
    binary64 ((z : ℚ) * (2 : ℚ) ^ e) = (z : ℚ) * (2 : ℚ) ^ e := by
  rcases le_or_lt 0 z with hz | hz
  · obtain ⟨n, rfl⟩ := Int.eq_ofNat_of_zero_le hz
    have hn : n < 2 ^ 53 := by exact_mod_cast h2
    rw [binary64_of_nonneg (by positivity)]
    exact_mod_cast binary64_pos_dyadic n e hn he
  · obtain ⟨n, hn⟩ := Int.eq_ofNat_of_zero_le (show 0 ≤ -z by omega)
    have hz2 : z = -(n : ℤ) := by omega
    have hn2 : n < 2 ^ 53 := by
      have : (n : ℤ) < 2 ^ 53 := by omega
      exact_mod_cast this
    subst hz2
    have e1 : (((-(n : ℤ) : ℤ)) : ℚ) * (2 : ℚ) ^ e = -((n : ℚ) * (2 : ℚ) ^ e) := by
      push_cast; ring
    rw [e1, binary64_neg, binary64_of_nonneg (by positivity), binary64_pos_dyadic n e hn2 he]

theorem binary64_int (z : ℤ) (h1 : -2 ^ 53 < z) (h2 : z < 2 ^ 53) :
    binary64 (z : ℚ) = (z : ℚ) := by
  have := binary64_dyadic z 0 h1 h2 (by norm_num)
  simpa using this

/-! ## Repeated application of the rounded single-body laws -/

theorem viscous_rigid_iterate_fl_frame (rnd : ℚ → ℚ) (fix : FixViscousRigid) (body : Body)
    (n : Nat) :
    ((fix.damp_body_fl rnd)^[n] body).vcm = body.vcm ∧
    ((fix.damp_body_fl rnd)^[n] body).omega = body.omega := by
  induction n with
  | zero => exact ⟨rfl, rfl⟩
  | succ n ih =>
    rw [Function.iterate_succ_apply']
    exact ⟨ih.1, ih.2⟩

theorem cundamp_rigid_iterate_fl_frame (rnd : ℚ → ℚ) (fix : FixCundampRigid) (body : Body)
    (n : Nat) :
    ((fix.damp_body_fl rnd)^[n] body).vcm = body.vcm ∧
    ((fix.damp_body_fl rnd)^[n] body).omega = body.omega := by
  induction n with
  | zero => exact ⟨rfl, rfl⟩
  | succ n ih =>
    rw [Function.iterate_succ_apply']
    exact ⟨ih.1, ih.2⟩

theorem viscous_update_exact_apply {rnd : ℚ → ℚ} {gamma f v : ℚ}
    (h : viscous_update_exact rnd gamma f v) : rnd (f - rnd (gamma * v)) = f - gamma * v := by
  rw [h.1, h.2]

theorem cundamp_update_exact_apply {rnd : ℚ → ℚ} {gamma f v : ℚ}
    (h : cundamp_update_exact rnd gamma f v) :
    rnd (f * rnd (1 - rnd (gamma * spec_sign (rnd (f * v)))))
      = f * (1 - gamma * spec_sign (f * v)) := by
  obtain ⟨a, b, c, d⟩ := h
  rw [a, b, c, d]

theorem update_exact_id (gamma f v : ℚ) :
    viscous_update_exact id gamma f v ∧ cundamp_update_exact id gamma f v :=
  ⟨⟨rfl, rfl⟩, ⟨rfl, rfl, rfl, rfl⟩⟩

/-- Closed form of `n` rounded viscous applications when none of them rounds. -/
theorem viscous_rigid_iterate_fl_exact (rnd : ℚ → ℚ) (fix : FixViscousRigid) (body : Body)
    (a : Fin 3) (n : Nat) :
    ((∀ j : Nat, j < n →
        viscous_update_exact rnd fix.gamma_linear
          (body.fcm a - j * fix.gamma_linear * body.vcm a) (body.vcm a)) →
      ((fix.damp_body_fl rnd)^[n] body).fcm a
        = body.fcm a - n * fix.gamma_linear * body.vcm a) ∧
    ((∀ j : Nat, j < n →
        viscous_update_exact rnd fix.gamma_angular
          (body.torque a - j * fix.gamma_angular * body.omega a) (body.omega a)) →
      ((fix.damp_body_fl rnd)^[n] body).torque a
        = body.torque a - n * fix.gamma_angular * body.omega a) := by
  induction n with
  | zero => simp
  | succ n ih =>
    obtain ⟨hv, ho⟩ := viscous_rigid_iterate_fl_frame rnd fix body n
    rw [Function.iterate_succ_apply']
    obtain ⟨a1, a2⟩ := viscous_rigid_damp_body_fl_apply rnd fix ((fix.damp_body_fl rnd)^[n] body) a
    constructor
    · intro h
      rw [a1, hv, ih.1 (fun j hj => h j (Nat.lt_succ_of_lt hj)),
        viscous_update_exact_apply (h n (Nat.lt_succ_self n))]
      push_cast
      ring
    · intro h
      rw [a2.1, ho, ih.2 (fun j hj => h j (Nat.lt_succ_of_lt hj)),
        viscous_update_exact_apply (h n (Nat.lt_succ_self n))]
      push_cast
      ring

/-- Closed form of `n` rounded power-reduction applications when none of them rounds and the
coefficient is in [0,1]. -/
theorem cundamp_rigid_iterate_fl_exact (rnd : ℚ → ℚ) (fix : FixCundampRigid) (body : Body)
    (a : Fin 3) (n : Nat) :
    (0 ≤ fix.gamma_linear → fix.gamma_linear ≤ 1 →
      (∀ j : Nat, j < n →
        cundamp_update_exact rnd fix.gamma_linear
          (body.fcm a
            * (1 - fix.gamma_linear * spec_sign (body.fcm a * body.vcm a)) ^ j)
          (body.vcm a)) →
      ((fix.damp_body_fl rnd)^[n] body).fcm a
        = body.fcm a * (1 - fix.gamma_linear * spec_sign (body.fcm a * body.vcm a)) ^ n) ∧
    (0 ≤ fix.gamma_angular → fix.gamma_angular ≤ 1 →
      (∀ j : Nat, j < n →
        cundamp_update_exact rnd fix.gamma_angular
          (body.torque a
            * (1 - fix.gamma_angular * spec_sign (body.torque a * body.omega a)) ^ j)
          (body.omega a)) →
      ((fix.damp_body_fl rnd)^[n] body).torque a
        = body.torque a
            * (1 - fix.gamma_angular * spec_sign (body.torque a * body.omega a)) ^ n) := by
  induction n with
  | zero => simp
  | succ n ih =>
    obtain ⟨hv, ho⟩ := cundamp_rigid_iterate_fl_frame rnd fix body n
    rw [Function.iterate_succ_apply']
    obtain ⟨a1, a2, _, _⟩ :=
      cundamp_rigid_damp_body_fl_apply rnd fix ((fix.damp_body_fl rnd)^[n] body) a
    constructor
    · intro g0 g1 h
      rw [a1, hv, ih.1 g0 g1 (fun j hj => h j (Nat.lt_succ_of_lt hj)),
        cundamp_update_exact_apply (h n (Nat.lt_succ_self n))]
      exact compound_scalar _ _ _ n g0 g1
    · intro g0 g1 h
      rw [a2, ho, ih.2 g0 g1 (fun j hj => h j (Nat.lt_succ_of_lt hj)),
        cundamp_update_exact_apply (h n (Nat.lt_succ_self n))]
      exact compound_scalar _ _ _ n g0 g1

theorem spec_sign_nonneg {p : ℚ} (h : 0 ≤ p) : 0 ≤ spec_sign p := by
  unfold spec_sign
  split_ifs with h1 h2
  · norm_num
  · exact absurd h (not_le.mpr h2)
  · exact le_refl _

theorem spec_sign_nonpos {p : ℚ} (h : p ≤ 0) : spec_sign p ≤ 0 := by
  unfold spec_sign
  split_ifs with h1 h2
  · exact absurd h (not_le.mpr h1)
  · norm_num
  · exact le_refl _

/-- The computed sign of a scalar multiple `g*v` of the same sign as `f*v`. -/
theorem computed_sign_not_opposite {rnd : ℚ → ℚ} (hm : Monotone rnd) (h0 : rnd 0 = 0)
    (f g v : ℚ) (hp : 0 ≤ f → 0 ≤ g) (hn : f ≤ 0 → g ≤ 0) :
    0 ≤ spec_sign (rnd (g * v)) * spec_sign (rnd (f * v)) := by
  rcases le_total 0 f with hf | hf <;> rcases le_total 0 v with hv | hv
  · exact mul_nonneg (spec_sign_nonneg (rnd_nonneg hm h0 (mul_nonneg (hp hf) hv)))
      (spec_sign_nonneg (rnd_nonneg hm h0 (mul_nonneg hf hv)))
  · exact mul_nonneg_of_nonpos_of_nonpos
      (spec_sign_nonpos (rnd_nonpos hm h0 (mul_nonpos_of_nonneg_of_nonpos (hp hf) hv)))
      (spec_sign_nonpos (rnd_nonpos hm h0 (mul_nonpos_of_nonneg_of_nonpos hf hv)))
  · exact mul_nonneg_of_nonpos_of_nonpos
      (spec_sign_nonpos (rnd_nonpos hm h0 (mul_nonpos_of_nonpos_of_nonneg (hn hf) hv)))
      (spec_sign_nonpos (rnd_nonpos hm h0 (mul_nonpos_of_nonpos_of_nonneg hf hv)))
  · exact mul_nonneg
      (spec_sign_nonneg (rnd_nonneg hm h0 (mul_nonneg_of_nonpos_of_nonpos (hn hf) hv)))
      (spec_sign_nonneg (rnd_nonneg hm h0 (mul_nonneg_of_nonpos_of_nonpos hf hv)))

/-- Under a monotone rounding that fixes 0 and 1 and a coefficient in [0,1], repeated
power-reduction applications never move a component across zero. -/
theorem cundamp_rigid_iterate_fl_sign {rnd : ℚ → ℚ} (hm : Monotone rnd) (h0 : rnd 0 = 0)
    (h1 : rnd 1 = 1) (fix : FixCundampRigid) (body : Body) (a : Fin 3) (n : Nat) :
    (0 ≤ fix.gamma_linear → fix.gamma_linear ≤ 1 →
      (0 ≤ body.fcm a → 0 ≤ ((fix.damp_body_fl rnd)^[n] body).fcm a) ∧
      (body.fcm a ≤ 0 → ((fix.damp_body_fl rnd)^[n] body).fcm a ≤ 0)) ∧
    (0 ≤ fix.gamma_angular → fix.gamma_angular ≤ 1 →
      (0 ≤ body.torque a → 0 ≤ ((fix.damp_body_fl rnd)^[n] body).torque a) ∧
      (body.torque a ≤ 0 → ((fix.damp_body_fl rnd)^[n] body).torque a ≤ 0)) := by
  induction n with
  | zero => exact ⟨fun _ _ => ⟨id, id⟩, fun _ _ => ⟨id, id⟩⟩
  | succ n ih =>
    rw [Function.iterate_succ_apply']
    obtain ⟨a1, a2, _, _⟩ :=
      cundamp_rigid_damp_body_fl_apply rnd fix ((fix.damp_body_fl rnd)^[n] body) a
    constructor
    · intro g0 g1
      rw [a1]
      have hc := cundamp_factor_nonneg hm h0 h1 fix.gamma_linear
        (rnd (((fix.damp_body_fl rnd)^[n] body).fcm a * ((fix.damp_body_fl rnd)^[n] body).vcm a))
        g0 g1
      exact ⟨fun hf => rnd_nonneg hm h0 (mul_nonneg ((ih.1 g0 g1).1 hf) hc),
        fun hf => rnd_nonpos hm h0 (mul_nonpos_of_nonpos_of_nonneg ((ih.1 g0 g1).2 hf) hc)⟩
    · intro g0 g1
      rw [a2]
      have hc := cundamp_factor_nonneg hm h0 h1 fix.gamma_angular
        (rnd (((fix.damp_body_fl rnd)^[n] body).torque a
          * ((fix.damp_body_fl rnd)^[n] body).omega a)) g0 g1
      exact ⟨fun hf => rnd_nonneg hm h0 (mul_nonneg ((ih.2 g0 g1).1 hf) hc),
        fun hf => rnd_nonpos hm h0 (mul_nonpos_of_nonpos_of_nonneg ((ih.2 g0 g1).2 hf) hc)⟩

/-! ## Compounding and power under rounding (viscous law) -/

/-- C8 (as stated, refuted): in double precision the viscous closed form fails. With
`gamma_linear = 1`, a body with fcm (10^16,0,0) and vcm (1,0,0) and two in-group particles
mapped to it, `FixViscousRigid::post_force` leaves `fcm[0]` at `10^16` (each `10^16 - 1`
rounds back to `10^16`), not at `10^16 - 2*1*1`. -/
theorem C8_closed_form_counterexample :
    group_count scenario_viscous_rigid_unit.groupbit scenario_atom3 scenario_registry_large 0
      = 2 ∧
    ((scenario_viscous_rigid_unit.post_force_fl binary64 0 scenario_atom3
        scenario_registry_large).body 0).fcm 0 = 10 ^ 16 ∧
    ¬ (((scenario_viscous_rigid_unit.post_force_fl binary64 0 scenario_atom3
          scenario_registry_large).body 0).fcm 0
        = (scenario_registry_large.body 0).fcm 0
            - group_count scenario_viscous_rigid_unit.groupbit scenario_atom3
                scenario_registry_large 0
              * scenario_viscous_rigid_unit.gamma_linear
              * (scenario_registry_large.body 0).vcm 0) := by
  have hk : group_count scenario_viscous_rigid_unit.groupbit scenario_atom3
      scenario_registry_large 0 = 2 := by decide
  have hb : (scenario_viscous_rigid_unit.post_force_fl binary64 0 scenario_atom3
      scenario_registry_large).body 0 = scenario_body_large := by
    rw [(viscous_rigid_post_force_fl_spec binary64 scenario_viscous_rigid_unit 0 scenario_atom3
      scenario_registry_large).2.2.2.2 0, hk]
    show scenario_viscous_rigid_unit.damp_body_fl binary64
      (scenario_viscous_rigid_unit.damp_body_fl binary64 scenario_body_large) = _
    rw [viscous_rigid_absorb_step, viscous_rigid_absorb_step]
  refine ⟨hk, ?_, ?_⟩
  · rw [hb]
    norm_num [scenario_body_large]
  · rw [hb, hk]
    norm_num [scenario_body_large, scenario_registry_large, scenario_viscous_rigid_unit]

/-- C8 (amended): rigid-body compounding in rounded arithmetic. For every rounding `rnd` of
the floating point operations, both rigid-granularity passes leave each body `B` in the state
obtained by applying the rounded single-body law `k_B` times in succession, `k_B` being the
number of local particles with `(mask[i] & groupbit) != 0` and `bodyown[i] = B`, and the
result is the same for every reordering of the local particles. For the viscous law the
result is `fcm - k_B * gamma_linear * vcm` (and `torque - k_B * gamma_angular * omega`) on an
axis where none of the `k_B` updates rounds. -/
theorem C8_rigid_compounding_rounded (rnd : ℚ → ℚ) (fixc : FixCundampRigid)
    (fixv : FixViscousRigid) (vflag : Int) (atom : Atom) (fr : FixRigidSmall) (B : Nat) :
    (fixc.post_force_fl rnd vflag atom fr).body B
      = (fixc.damp_body_fl rnd)^[group_count fixc.groupbit atom fr B] (fr.body B) ∧
    (fixv.post_force_fl rnd vflag atom fr).body B
      = (fixv.damp_body_fl rnd)^[group_count fixv.groupbit atom fr B] (fr.body B) ∧
    (∀ a : Fin 3,
      ((∀ j : Nat, j < group_count fixv.groupbit atom fr B →
          viscous_update_exact rnd fixv.gamma_linear
            ((fr.body B).fcm a - j * fixv.gamma_linear * (fr.body B).vcm a)
            ((fr.body B).vcm a)) →
        ((fixv.post_force_fl rnd vflag atom fr).body B).fcm a
          = (fr.body B).fcm a
              - group_count fixv.groupbit atom fr B * fixv.gamma_linear * (fr.body B).vcm a) ∧
      ((∀ j : Nat, j < group_count fixv.groupbit atom fr B →
          viscous_update_exact rnd fixv.gamma_angular
            ((fr.body B).torque a - j * fixv.gamma_angular * (fr.body B).omega a)
            ((fr.body B).omega a)) →
        ((fixv.post_force_fl rnd vflag atom fr).body B).torque a
          = (fr.body B).torque a
              - group_count fixv.groupbit atom fr B * fixv.gamma_angular
                * (fr.body B).omega a)) ∧
    (∀ σ : Equiv.Perm Nat, (∀ i, σ i < atom.nlocal ↔ i < atom.nlocal) →
      (fixc.post_force_fl rnd vflag { atom with mask := atom.mask ∘ σ }
          { fr with bodyown := fr.bodyown ∘ σ }).body B
        = (fixc.post_force_fl rnd vflag atom fr).body B ∧
      (fixv.post_force_fl rnd vflag { atom with mask := atom.mask ∘ σ }
          { fr with bodyown := fr.bodyown ∘ σ }).body B
        = (fixv.post_force_fl rnd vflag atom fr).body B) := by
  have hc := (cundamp_rigid_post_force_fl_spec rnd fixc vflag atom fr).2.2.2.2 B
  have hv := (viscous_rigid_post_force_fl_spec rnd fixv vflag atom fr).2.2.2.2 B
  refine ⟨hc, hv, fun a => ?_, fun σ hσ => ?_⟩
  · rw [hv]
    exact viscous_rigid_iterate_fl_exact rnd fixv (fr.body B) a _
  · have hcount : ∀ groupbit : Nat,
        group_count groupbit { atom with mask := atom.mask ∘ σ }
          { fr with bodyown := fr.bodyown ∘ σ } B = group_count groupbit atom fr B := by
      intro groupbit
      exact count_perm σ atom.nlocal hσ
        (fun i => decide (atom.mask i &&& groupbit ≠ 0 ∧ fr.bodyown i = (B : Int)))
    rw [hc, hv, (cundamp_rigid_post_force_fl_spec rnd fixc vflag _ _).2.2.2.2 B,
      (viscous_rigid_post_force_fl_spec rnd fixv vflag _ _).2.2.2.2 B, hcount, hcount]
    exact ⟨rfl, rfl⟩

/-- C8 (amended) at a concrete input, in binary64: with every particle of `scenario_atom3`
mapped to body 0, body 0 has two in-group particles; no update rounds on the x axis
(5 - 1 = 4, 4 - 1 = 3), so the viscous pass ends with `fcm[0] = 3`, also after exchanging
particles 0 and 2. -/
theorem C8_rigid_compounding_rounded_witness :
    group_count scenario_viscous_rigid.groupbit scenario_atom3 scenario_registry_shared 0 = 2 ∧
    ((scenario_viscous_rigid.post_force_fl binary64 0 scenario_atom3
        scenario_registry_shared).body 0).fcm 0 = 3 ∧
    ((scenario_viscous_rigid.post_force_fl binary64 0
        { scenario_atom3 with mask := scenario_atom3.mask ∘ Equiv.swap 0 2 }
        { scenario_registry_shared with
          bodyown := scenario_registry_shared.bodyown ∘ Equiv.swap 0 2 }).body 0).fcm 0
      = 3 := by
  have h := C8_rigid_compounding_rounded binary64 scenario_cundamp_rigid scenario_viscous_rigid
    0 scenario_atom3 scenario_registry_shared 0
  have hk : group_count scenario_viscous_rigid.groupbit scenario_atom3
      scenario_registry_shared 0 = 2 := by decide
  have e1 : binary64 1 = 1 := binary64_one
  have e3 : binary64 3 = 3 := by simpa using binary64_int 3 (by norm_num) (by norm_num)
  have e4 : binary64 4 = 4 := by simpa using binary64_int 4 (by norm_num) (by norm_num)
  have hf : ((scenario_viscous_rigid.post_force_fl binary64 0 scenario_atom3
      scenario_registry_shared).body 0).fcm 0 = 3 := by
    rw [(h.2.2.1 0).1 ?_, hk]
    · norm_num [scenario_registry_shared, scenario_registry, scenario_viscous_rigid]
    · rw [hk]
      intro j hj
      interval_cases j <;>
        norm_num [viscous_update_exact, scenario_registry_shared, scenario_registry,
          scenario_viscous_rigid, e1, e3, e4]
  refine ⟨hk, hf, ?_⟩
  have hσ : ∀ i, (Equiv.swap 0 2 : Equiv.Perm Nat) i < scenario_atom3.nlocal
      ↔ i < scenario_atom3.nlocal := by
    intro i
    show (Equiv.swap 0 2 : Equiv.Perm Nat) i < 3 ↔ i < 3
    by_cases h0 : i = 0
    · subst h0; simp
    · by_cases h2 : i = 2
      · subst h2; simp
      · rw [Equiv.swap_apply_of_ne_of_ne h0 h2]
  rw [(h.2.2.2 (Equiv.swap 0 2) hσ).2, hf]

/-- Evaluation of one rounded power-reduction update whose computed power is positive. -/
theorem cundamp_step_eval_pos (rnd : ℚ → ℚ) (gamma f v p c r : ℚ) (hp : rnd (f * v) = p)
    (hpos : 0 < p) (hg : rnd gamma = gamma) (hc : rnd (1 - gamma) = c) (hr : rnd (f * c) = r) :
    rnd (f * rnd (1 - rnd (gamma * spec_sign (rnd (f * v))))) = r := by
  have hs : spec_sign p = 1 := by simp [spec_sign, hpos]
  rw [hp, hs, mul_one, hg, hc, hr]

theorem cundamp_power_fl {rnd : ℚ → ℚ} (hm : Monotone rnd) (h0 : rnd 0 = 0)
    (h1 : rnd 1 = 1) (gamma f v : ℚ) (hg : 0 ≤ gamma) (hf : rnd f = f) :
    rnd (f * rnd (1 - rnd (gamma * spec_sign (rnd (f * v))))) * v ≤ f * v ∧
    ((gamma = 0 ∨ f * v = 0) →
      rnd (f * rnd (1 - rnd (gamma * spec_sign (rnd (f * v))))) * v = f * v) ∧
    (cundamp_update_exact rnd gamma f v →
      (rnd (f * rnd (1 - rnd (gamma * spec_sign (rnd (f * v))))) * v = f * v
        ↔ (gamma = 0 ∨ f * v = 0))) := by
  refine ⟨(cundamp_power_le_fl hm h0 h1 gamma f v hg hf).1,
    (cundamp_power_le_fl hm h0 h1 gamma f v hg hf).2, fun hex => ?_⟩
  rw [cundamp_update_exact_apply hex]
  exact (power_scalar gamma f v hg).2

/-- C22 (as stated, refuted): in double precision the closed form of compounded
power-reduction damping fails. With `gamma_linear = 1/4` (in [0,1]), a body with
fcm (2^53+2,0,0) and vcm (1,0,0) and two in-group particles mapped to it,
`FixCundampRigid::post_force` ends with `fcm[0] = 9*2^49 + 2` (each of the two products falls
halfway between two binary64 numbers and is rounded to the even one), whereas
`fcm0[0] * (1 - gamma_linear*s)^2 = 9*2^49 + 9/8`. -/
theorem C22_closed_form_counterexample :
    0 ≤ scenario_cundamp_rigid_quarter.gamma_linear ∧
    scenario_cundamp_rigid_quarter.gamma_linear ≤ 1 ∧
    group_count scenario_cundamp_rigid_quarter.groupbit scenario_atom3
      scenario_registry_halfway 0 = 2 ∧
    ((scenario_cundamp_rigid_quarter.post_force_fl binary64 0 scenario_atom3
        scenario_registry_halfway).body 0).fcm 0 = 9 * 2 ^ 49 + 2 ∧
    ¬ (((scenario_cundamp_rigid_quarter.post_force_fl binary64 0 scenario_atom3
          scenario_registry_halfway).body 0).fcm 0
        = (scenario_registry_halfway.body 0).fcm 0
            * (1 - scenario_cundamp_rigid_quarter.gamma_linear
                  * spec_sign ((scenario_registry_halfway.body 0).fcm 0
                      * (scenario_registry_halfway.body 0).vcm 0))
                ^ group_count scenario_cundamp_rigid_quarter.groupbit scenario_atom3
                    scenario_registry_halfway 0) := by
  have hk : group_count scenario_cundamp_rigid_quarter.groupbit scenario_atom3
      scenario_registry_halfway 0 = 2 := by decide
  have a0 : binary64 ((2 : ℚ) ^ 53 + 2) = 2 ^ 53 + 2 := by
    have := binary64_dyadic (2 ^ 52 + 1) 1 (by norm_num) (by norm_num) (by norm_num)
    norm_num at this
    norm_num
    exact this
  have a1 : binary64 ((3 : ℚ) * 2 ^ 51 + 2) = 3 * 2 ^ 51 + 2 := by
    have := binary64_int (3 * 2 ^ 51 + 2) (by norm_num) (by norm_num)
    norm_num at this
    norm_num
    exact this
  have q : binary64 ((1 : ℚ) / 4) = 1 / 4 := by
    have := binary64_dyadic 1 (-2) (by norm_num) (by norm_num) (by norm_num)
    norm_num at this
    norm_num
    exact this
  have t : binary64 ((1 : ℚ) - 1 / 4) = 3 / 4 := by
    have := binary64_dyadic 3 (-2) (by norm_num) (by norm_num) (by norm_num)
    norm_num at this
    norm_num
    exact this
  have m1 : binary64 (((2 : ℚ) ^ 53 + 2) * (3 / 4)) = 3 * 2 ^ 51 + 2 := by
    rw [binary64_of_nonneg (by norm_num)]
    have := binary64_pos_tie (((2 : ℚ) ^ 53 + 2) * (3 / 4)) 52 (3 * 2 ^ 51 + 1) (by norm_num)
      (by norm_num) (by norm_num) (by norm_num)
    rw [this]
    norm_num
  have m2 : binary64 (((3 : ℚ) * 2 ^ 51 + 2) * (3 / 4)) = 9 * 2 ^ 49 + 2 := by
    rw [binary64_of_nonneg (by norm_num)]
    have := binary64_pos_tie (((3 : ℚ) * 2 ^ 51 + 2) * (3 / 4)) 52 (9 * 2 ^ 49 + 1)
      (by norm_num) (by norm_num) (by norm_num) (by norm_num)
    rw [this]
    norm_num
  have hfix : scenario_cundamp_rigid_quarter.gamma_linear = 1 / 4 := rfl
  have hf0 : scenario_body_halfway.fcm 0 = 2 ^ 53 + 2 := rfl
  have hv0 : scenario_body_halfway.vcm 0 = 1 := rfl
  have s1 : (scenario_cundamp_rigid_quarter.damp_body_fl binary64 scenario_body_halfway).fcm 0
      = 3 * 2 ^ 51 + 2 := by
    rw [(cundamp_rigid_damp_body_fl_apply binary64 _ _ 0).1, hfix, hf0, hv0]
    exact cundamp_step_eval_pos binary64 _ _ _ (2 ^ 53 + 2) (3 / 4) _
      (by rw [mul_one]; exact a0) (by norm_num) q t m1
  have s2 : (scenario_cundamp_rigid_quarter.damp_body_fl binary64
      (scenario_cundamp_rigid_quarter.damp_body_fl binary64 scenario_body_halfway)).fcm 0
      = 9 * 2 ^ 49 + 2 := by
    rw [(cundamp_rigid_damp_body_fl_apply binary64 _ _ 0).1,
      (cundamp_rigid_damp_body_fl_apply binary64 _ scenario_body_halfway 0).2.2.1, s1, hfix,
      hv0]
    exact cundamp_step_eval_pos binary64 _ _ _ (3 * 2 ^ 51 + 2) (3 / 4) _
      (by rw [mul_one]; exact a1) (by norm_num) q t m2
  have hb : ((scenario_cundamp_rigid_quarter.post_force_fl binary64 0 scenario_atom3
      scenario_registry_halfway).body 0).fcm 0 = 9 * 2 ^ 49 + 2 := by
    rw [(cundamp_rigid_post_force_fl_spec binary64 scenario_cundamp_rigid_quarter 0
      scenario_atom3 scenario_registry_halfway).2.2.2.2 0, hk]
    exact s2
  refine ⟨by norm_num [hfix], by norm_num [hfix], hk, hb, ?_⟩
  rw [hb, hk]
  have hr0 : (scenario_registry_halfway.body 0).fcm 0 = 2 ^ 53 + 2 := rfl
  have hr1 : (scenario_registry_halfway.body 0).vcm 0 = 1 := rfl
  rw [hr0, hr1, hfix]
  norm_num [spec_sign]

/-- C22 (amended): compounded power-reduction damping on a body under
`FixCundampRigid::post_force`, in rounded arithmetic. For a monotone rounding `rnd` with
`rnd 0 = 0` and `rnd 1 = 1`, a body `B` with `k` in-group local particles mapped to it ends
the pass as the `k`-fold rounded application of the single-body law; for `gamma_linear` in
[0,1] the computed sign of the power `fcm[a]*vcm[a]` after any number of applications is
never opposite to its sign before the pass (it can only stay or become 0), and likewise for
`torque[a]*omega[a]` with `gamma_angular` in [0,1]; and on an axis where none of the `k`
updates rounds, `fcm[a] = fcm0[a] * (1 - gamma_linear*s)^k` with
`s = sgn(fcm0[a]*vcm[a])` taken once on the values before the pass, likewise
`torque[a] = torque0[a] * (1 - gamma_angular*sgn(torque0[a]*omega[a]))^k`. -/
theorem C22_compounded_sign_stable (rnd : ℚ → ℚ) (hm : Monotone rnd) (h0 : rnd 0 = 0)
    (h1 : rnd 1 = 1) (fix : FixCundampRigid) (vflag : Int) (atom : Atom)
    (fr : FixRigidSmall) (B : Nat) (a : Fin 3) :
    (fix.post_force_fl rnd vflag atom fr).body B
      = (fix.damp_body_fl rnd)^[group_count fix.groupbit atom fr B] (fr.body B) ∧
    (0 ≤ fix.gamma_linear → fix.gamma_linear ≤ 1 → ∀ n : Nat,
      0 ≤ spec_sign (rnd (((fix.damp_body_fl rnd)^[n] (fr.body B)).fcm a
              * ((fix.damp_body_fl rnd)^[n] (fr.body B)).vcm a))
            * spec_sign (rnd ((fr.body B).fcm a * (fr.body B).vcm a))) ∧
    (0 ≤ fix.gamma_angular → fix.gamma_angular ≤ 1 → ∀ n : Nat,
      0 ≤ spec_sign (rnd (((fix.damp_body_fl rnd)^[n] (fr.body B)).torque a
              * ((fix.damp_body_fl rnd)^[n] (fr.body B)).omega a))
            * spec_sign (rnd ((fr.body B).torque a * (fr.body B).omega a))) ∧
    (0 ≤ fix.gamma_linear → fix.gamma_linear ≤ 1 →
      (∀ j : Nat, j < group_count fix.groupbit atom fr B →
        cundamp_update_exact rnd fix.gamma_linear
          ((fr.body B).fcm a
            * (1 - fix.gamma_linear * spec_sign ((fr.body B).fcm a * (fr.body B).vcm a)) ^ j)
          ((fr.body B).vcm a)) →
      ((fix.post_force_fl rnd vflag atom fr).body B).fcm a
        = (fr.body B).fcm a
            * (1 - fix.gamma_linear * spec_sign ((fr.body B).fcm a * (fr.body B).vcm a))
                ^ group_count fix.groupbit atom fr B) ∧
    (0 ≤ fix.gamma_angular → fix.gamma_angular ≤ 1 →
      (∀ j : Nat, j < group_count fix.groupbit atom fr B →
        cundamp_update_exact rnd fix.gamma_angular
          ((fr.body B).torque a
            * (1 - fix.gamma_angular
                  * spec_sign ((fr.body B).torque a * (fr.body B).omega a)) ^ j)
          ((fr.body B).omega a)) →
      ((fix.post_force_fl rnd vflag atom fr).body B).torque a
        = (fr.body B).torque a
            * (1 - fix.gamma_angular
                  * spec_sign ((fr.body B).torque a * (fr.body B).omega a))
                ^ group_count fix.groupbit atom fr B) := by
  have hb := (cundamp_rigid_post_force_fl_spec rnd fix vflag atom fr).2.2.2.2 B
  refine ⟨hb, fun g0 g1 n => ?_, fun g0 g1 n => ?_, fun g0 g1 hex => ?_,
    fun g0 g1 hex => ?_⟩
  · rw [(cundamp_rigid_iterate_fl_frame rnd fix (fr.body B) n).1]
    exact computed_sign_not_opposite hm h0 _ _ _
      ((cundamp_rigid_iterate_fl_sign hm h0 h1 fix (fr.body B) a n).1 g0 g1).1
      ((cundamp_rigid_iterate_fl_sign hm h0 h1 fix (fr.body B) a n).1 g0 g1).2
  · rw [(cundamp_rigid_iterate_fl_frame rnd fix (fr.body B) n).2]
    exact computed_sign_not_opposite hm h0 _ _ _
      ((cundamp_rigid_iterate_fl_sign hm h0 h1 fix (fr.body B) a n).2 g0 g1).1
      ((cundamp_rigid_iterate_fl_sign hm h0 h1 fix (fr.body B) a n).2 g0 g1).2
  · rw [hb]
    exact (cundamp_rigid_iterate_fl_exact rnd fix (fr.body B) a _).1 g0 g1 hex
  · rw [hb]
    exact (cundamp_rigid_iterate_fl_exact rnd fix (fr.body B) a _).2 g0 g1 hex

/-- C22 (amended) at a concrete input, in binary64: with every particle of `scenario_atom3`
mapped to body 0 (two of them in the group) and gamma_linear = 1/2, no update rounds on the
x axis (5/2, then 5/4), body 0 ends with `fcm[0] = 5*(1/2)^2 = 5/4`, and the computed sign of
its power after the two applications is not opposite to the sign before the pass. -/
theorem C22_compounded_sign_stable_witness :
    group_count scenario_cundamp_rigid_half.groupbit scenario_atom3 scenario_registry_shared 0
      = 2 ∧
    ((scenario_cundamp_rigid_half.post_force_fl binary64 0 scenario_atom3
        scenario_registry_shared).body 0).fcm 0 = 5 / 4 ∧
    0 ≤ spec_sign (binary64
            (((scenario_cundamp_rigid_half.damp_body_fl binary64)^[2]
                (scenario_registry_shared.body 0)).fcm 0
              * ((scenario_cundamp_rigid_half.damp_body_fl binary64)^[2]
                  (scenario_registry_shared.body 0)).vcm 0))
          * spec_sign (binary64 ((scenario_registry_shared.body 0).fcm 0
              * (scenario_registry_shared.body 0).vcm 0)) := by
  have h := C22_compounded_sign_stable binary64 binary64_mono binary64_zero binary64_one
    scenario_cundamp_rigid_half 0 scenario_atom3 scenario_registry_shared 0 0
  have hk : group_count scenario_cundamp_rigid_half.groupbit scenario_atom3
      scenario_registry_shared 0 = 2 := by decide
  have hg0 : (0 : ℚ) ≤ scenario_cundamp_rigid_half.gamma_linear := by
    norm_num [scenario_cundamp_rigid_half]
  have hg1 : scenario_cundamp_rigid_half.gamma_linear ≤ 1 := by
    norm_num [scenario_cundamp_rigid_half]
  have e5 : binary64 5 = 5 := by simpa using binary64_int 5 (by norm_num) (by norm_num)
  have e10 : binary64 10 = 10 := by simpa using binary64_int 10 (by norm_num) (by norm_num)
  have eh : binary64 (1 / 2) = 1 / 2 := by
    have := binary64_dyadic 1 (-1) (by norm_num) (by norm_num) (by norm_num)
    norm_num at this
    norm_num
    exact this
  have e52 : binary64 (5 / 2) = 5 / 2 := by
    have := binary64_dyadic 5 (-1) (by norm_num) (by norm_num) (by norm_num)
    norm_num at this
    norm_num
    exact this
  have e54 : binary64 (5 / 4) = 5 / 4 := by
    have := binary64_dyadic 5 (-2) (by norm_num) (by norm_num) (by norm_num)
    norm_num at this
    norm_num
    exact this
  refine ⟨hk, ?_, h.2.1 hg0 hg1 2⟩
  rw [h.2.2.2.1 hg0 hg1 ?_, hk]
  · norm_num [scenario_registry_shared, scenario_registry, scenario_cundamp_rigid_half,
      spec_sign]
  · rw [hk]
    intro j hj
    interval_cases j <;>
      norm_num [cundamp_update_exact, scenario_registry_shared, scenario_registry,
        scenario_cundamp_rigid_half, spec_sign, e5, e10, eh, e52, e54]

/-- C23 (as stated, refuted): in double precision the power can stay equal although the
coefficient and the power are both non-zero. With `gamma_linear = 2^(-60)` the in-group
particle of the end-to-end scenario (force (5,0,0), velocity (2,0,0), power 10 on x) keeps
its force under `FixCundamp::post_force`, because `1.0 - 2^(-60)` rounds to `1.0`: the power
after the pass equals the power before it. -/
theorem C23_equality_counterexample :
    0 < scenario_atom.nlocal ∧
    scenario_atom.mask 0 &&& scenario_cundamp_tiny.groupbit ≠ 0 ∧
    (scenario_cundamp_tiny.post_force_fl binary64 0 scenario_atom).f 0 0
        * (scenario_cundamp_tiny.post_force_fl binary64 0 scenario_atom).v 0 0
      = scenario_atom.f 0 0 * scenario_atom.v 0 0 ∧
    ¬ (scenario_cundamp_tiny.gamma_linear (scenario_atom.type 0) = 0
        ∨ scenario_atom.f 0 0 * scenario_atom.v 0 0 = 0) := by
  have hi : 0 < scenario_atom.nlocal := by decide
  have hg : scenario_atom.mask 0 &&& scenario_cundamp_tiny.groupbit ≠ 0 := by decide
  have e5 : binary64 5 = 5 := by simpa using binary64_int 5 (by norm_num) (by norm_num)
  have e10 : binary64 10 = 10 := by simpa using binary64_int 10 (by norm_num) (by norm_num)
  have eg : binary64 ((1 : ℚ) / 2 ^ 60) = 1 / 2 ^ 60 := by
    have := binary64_dyadic 1 (-60) (by norm_num) (by norm_num) (by norm_num)
    norm_num at this
    norm_num
    exact this
  have ea : binary64 ((1 : ℚ) - 1 / 2 ^ 60) = 1 := by
    rw [binary64_of_nonneg (by norm_num)]
    have := binary64_pos_near (1 - 1 / 2 ^ 60) (-1) (2 ^ 53) (by norm_num) (by norm_num)
      (by norm_num) (by norm_num) (by norm_num)
    rw [this]
    norm_num
  have hgam : scenario_cundamp_tiny.gamma_linear (scenario_atom.type 0) = 1 / 2 ^ 60 := rfl
  have hf : scenario_atom.f 0 0 = 5 := rfl
  have hv : scenario_atom.v 0 0 = 2 := rfl
  have hspec := cundamp_post_force_fl_spec binary64 scenario_cundamp_tiny 0 scenario_atom
  refine ⟨hi, hg, ?_, ?_⟩
  · rw [hspec.1, (hspec.2.2 0 hi hg 0).1, hgam, hf, hv,
      cundamp_step_eval_pos binary64 (1 / 2 ^ 60) 5 2 10 1 5 (by norm_num; exact e10)
        (by norm_num) eg ea (by norm_num; exact e5)]
  · rw [hgam, hf, hv]
    norm_num

/-- C23 (amended): per-axis power never increases under the power-reduction law, in rounded
arithmetic. For a monotone rounding `rnd` with `rnd 0 = 0` and `rnd 1 = 1`, values of force
and torque that are values of the rounding, every coefficient `gamma >= 0` (not only
`gamma <= 1`), every in-group local particle and every axis, `f'*v <= f*v` and
`torque'*omega <= torque*omega`, the velocities being untouched by the pass; equality holds
if `gamma = 0` or the power is zero, and on an axis whose update does not round it holds only
then. The same holds for one application of the law to a body in
`FixCundampRigid::post_force`. -/
theorem C23_power_not_increased (rnd : ℚ → ℚ) (hm : Monotone rnd) (h0 : rnd 0 = 0)
    (h1 : rnd 1 = 1) (fix : FixCundamp) (vflag : Int) (atom : Atom) (i : Nat)
    (fixr : FixCundampRigid) (body : Body) (k : Fin 3)
    (hf : rnd (atom.f i k) = atom.f i k) (ht : rnd (atom.torque i k) = atom.torque i k)
    (hbf : rnd (body.fcm k) = body.fcm k) (hbt : rnd (body.torque k) = body.torque k) :
    ((fix.post_force_fl rnd vflag atom).v = atom.v ∧
      (fix.post_force_fl rnd vflag atom).omega = atom.omega) ∧
    (i < atom.nlocal → atom.mask i &&& fix.groupbit ≠ 0 →
      (0 ≤ fix.gamma_linear (atom.type i) →
        (fix.post_force_fl rnd vflag atom).f i k * (fix.post_force_fl rnd vflag atom).v i k
          ≤ atom.f i k * atom.v i k ∧
        ((fix.gamma_linear (atom.type i) = 0 ∨ atom.f i k * atom.v i k = 0) →
          (fix.post_force_fl rnd vflag atom).f i k * (fix.post_force_fl rnd vflag atom).v i k
            = atom.f i k * atom.v i k) ∧
        (cundamp_update_exact rnd (fix.gamma_linear (atom.type i)) (atom.f i k) (atom.v i k) →
          ((fix.post_force_fl rnd vflag atom).f i k * (fix.post_force_fl rnd vflag atom).v i k
              = atom.f i k * atom.v i k
            ↔ (fix.gamma_linear (atom.type i) = 0 ∨ atom.f i k * atom.v i k = 0)))) ∧
      (0 ≤ fix.gamma_angular (atom.type i) →
        (fix.post_force_fl rnd vflag atom).torque i k
            * (fix.post_force_fl rnd vflag atom).omega i k
          ≤ atom.torque i k * atom.omega i k ∧
        ((fix.gamma_angular (atom.type i) = 0 ∨ atom.torque i k * atom.omega i k = 0) →
          (fix.post_force_fl rnd vflag atom).torque i k
              * (fix.post_force_fl rnd vflag atom).omega i k
            = atom.torque i k * atom.omega i k) ∧
        (cundamp_update_exact rnd (fix.gamma_angular (atom.type i)) (atom.torque i k)
            (atom.omega i k) →
          ((fix.post_force_fl rnd vflag atom).torque i k
                * (fix.post_force_fl rnd vflag atom).omega i k
              = atom.torque i k * atom.omega i k
            ↔ (fix.gamma_angular (atom.type i) = 0
                ∨ atom.torque i k * atom.omega i k = 0))))) ∧
    ((fixr.damp_body_fl rnd body).vcm = body.vcm ∧
      (fixr.damp_body_fl rnd body).omega = body.omega) ∧
    (0 ≤ fixr.gamma_linear →
      (fixr.damp_body_fl rnd body).fcm k * (fixr.damp_body_fl rnd body).vcm k
        ≤ body.fcm k * body.vcm k ∧
      ((fixr.gamma_linear = 0 ∨ body.fcm k * body.vcm k = 0) →
        (fixr.damp_body_fl rnd body).fcm k * (fixr.damp_body_fl rnd body).vcm k
          = body.fcm k * body.vcm k) ∧
      (cundamp_update_exact rnd fixr.gamma_linear (body.fcm k) (body.vcm k) →
        ((fixr.damp_body_fl rnd body).fcm k * (fixr.damp_body_fl rnd body).vcm k
            = body.fcm k * body.vcm k
          ↔ (fixr.gamma_linear = 0 ∨ body.fcm k * body.vcm k = 0)))) ∧
    (0 ≤ fixr.gamma_angular →
      (fixr.damp_body_fl rnd body).torque k * (fixr.damp_body_fl rnd body).omega k
        ≤ body.torque k * body.omega k ∧
      ((fixr.gamma_angular = 0 ∨ body.torque k * body.omega k = 0) →
        (fixr.damp_body_fl rnd body).torque k * (fixr.damp_body_fl rnd body).omega k
          = body.torque k * body.omega k) ∧
      (cundamp_update_exact rnd fixr.gamma_angular (body.torque k) (body.omega k) →
        ((fixr.damp_body_fl rnd body).torque k * (fixr.damp_body_fl rnd body).omega k
            = body.torque k * body.omega k
          ↔ (fixr.gamma_angular = 0 ∨ body.torque k * body.omega k = 0)))) := by
  obtain ⟨hv2, ho2, hp⟩ := cundamp_post_force_fl_spec rnd fix vflag atom
  obtain ⟨b1, b2, b3, b4⟩ := cundamp_rigid_damp_body_fl_apply rnd fixr body k
  refine ⟨⟨hv2, ho2⟩, fun hi hg => ⟨fun g0 => ?_, fun g0 => ?_⟩, ⟨b3, b4⟩, fun g0 => ?_,
    fun g0 => ?_⟩
  · rw [hv2, (hp i hi hg k).1]
    exact cundamp_power_fl hm h0 h1 _ _ _ g0 hf
  · rw [ho2, (hp i hi hg k).2]
    exact cundamp_power_fl hm h0 h1 _ _ _ g0 ht
  · rw [b3, b1]
    exact cundamp_power_fl hm h0 h1 _ _ _ g0 hbf
  · rw [b4, b2]
    exact cundamp_power_fl hm h0 h1 _ _ _ g0 hbt

/-- C23 (amended) at a concrete input, in binary64: with gamma_linear = 3 (above 1) the
scenario particle has power 10 before the pass on x and no more than 10 after it, and its
power on y, zero before the pass, is unchanged. -/
theorem C23_power_not_increased_witness :
    (scenario_cundamp_strong.post_force_fl binary64 0 scenario_atom).f 0 0
        * (scenario_cundamp_strong.post_force_fl binary64 0 scenario_atom).v 0 0
      ≤ scenario_atom.f 0 0 * scenario_atom.v 0 0 ∧
    (scenario_cundamp_strong.post_force_fl binary64 0 scenario_atom).f 0 1
        * (scenario_cundamp_strong.post_force_fl binary64 0 scenario_atom).v 0 1
      = scenario_atom.f 0 1 * scenario_atom.v 0 1 := by
  have e5 : binary64 5 = 5 := by simpa using binary64_int 5 (by norm_num) (by norm_num)
  have e4 : binary64 4 = 4 := by simpa using binary64_int 4 (by norm_num) (by norm_num)
  have c0 := C23_power_not_increased binary64 binary64_mono binary64_zero binary64_one
    scenario_cundamp_strong 0 scenario_atom 0 scenario_cundamp_rigid (scenario_registry.body 0) 0
    (by simp [scenario_atom, e5]) (by simp [scenario_atom, binary64_zero])
    (by simp [scenario_registry, e5]) (by simp [scenario_registry, binary64_zero])
  have c1 := C23_power_not_increased binary64 binary64_mono binary64_zero binary64_one
    scenario_cundamp_strong 0 scenario_atom 0 scenario_cundamp_rigid (scenario_registry.body 0) 1
    (by simp [scenario_atom, binary64_zero]) (by simp [scenario_atom, binary64_zero])
    (by simp [scenario_registry, binary64_zero]) (by simp [scenario_registry, e4])
  have hg : (0 : ℚ) ≤ scenario_cundamp_strong.gamma_linear (scenario_atom.type 0) := by
    norm_num [scenario_cundamp_strong]
  exact ⟨((c0.2.1 (by decide) (by decide)).1 hg).1,
    ((c1.2.1 (by decide) (by decide)).1 hg).2.1 (Or.inr (by norm_num [scenario_atom]))⟩

end LAMMPS
